import Mathlib

/-!
# Frame step of the platformer prototype (`src/main.c`)

A shallow embedding of the simulation part of the main loop of `main.c`
(lines 320-473 and 485-494) together with the helpers `Lerp`, `checkCol`,
`SpawnGhost` and `Respawn`.

Modelling conventions.

* `float` and `double` values are exact rationals (`ℚ`); the decimal literals
  of the source (`0.1f`, `0.6f`, ...) denote the corresponding fractions.
  Rounding of binary floating point is outside the model.
* `int` values are `Int`; the C remainder `%` is `Int.tmod`.
* The globals `ghosts`, `ghostHead` and the locals `player`, `srcX`, `srcY`
  of `main` are the fields of `Game`.  The loop body is the function `frame`,
  the composition of one function per block of statements, in source order.
* `Game` carries three counters that the source does not have
  (`respawnCalls`, `jumpsFired`, `dashesTriggered`).  They are ghost state:
  each is incremented exactly where the source executes the call of `Respawn`,
  the body of the jump `if` (line 401) and the body of the dash-trigger `if`
  (line 342).  No branch of the model reads them.
* Rendering, window and touch handling are not modelled: a frame receives the
  clamped `dt` and an `Input` snapshot of the buttons and the d-pad.
-/

set_option maxRecDepth 100000

namespace Prototype

/-! ## Constants (lines 11-27) -/

def GRAVITY : ℚ := 3200
def JUMP_FORCE : ℚ := -960
def MAX_SPEED : ℚ := 300
def ACCEL_GROUND : ℚ := 2500
def FRICTION_GROUND : ℚ := 1800
def ACCEL_AIR : ℚ := 1500
def FRICTION_AIR : ℚ := 500
def DASH_SPEED : ℚ := 1000
def DASH_DURATION : ℚ := 15 / 100
def DASH_COOLDOWN : ℚ := 6 / 10
def IDLE_DEATH_TIME : ℚ := 15 / 10
def SPRITE_SIZE : Int := 20
def DRAW_SIZE : Int := 80
def SPRITE_OFFSET_Y : Int := 10
def ARMED_OFFSET_X : Int := 100
def MAX_GHOSTS : Int := 20

/-! ## Data (lines 34-66) -/

structure RectF where
  x : ℚ
  y : ℚ
  w : ℚ
  h : ℚ
deriving DecidableEq, Repr

structure Ghost where
  x : ℚ
  y : ℚ
  frameX : Int
  frameY : Int
  facingRight : Bool
  alpha : ℚ
deriving DecidableEq, Repr

structure Player where
  x : ℚ
  y : ℚ
  startX : ℚ
  startY : ℚ
  vx : ℚ
  vy : ℚ
  facingRight : Bool
  animTimer : ℚ
  currentFrame : Int
  state : Int
  lastState : Int
  onGround : Bool
  coyoteTimer : ℚ
  jumpBufferTimer : ℚ
  dashTimer : ℚ
  dashCooldownTimer : ℚ
  isDashing : Bool
  isAttacking : Bool
  idleDeathTimer : ℚ
  scaleX : ℚ
  scaleY : ℚ
deriving DecidableEq, Repr

/-- The part of `dPad`, `btnJump`, `btnAttack` and `btnDash` that the
simulation reads in one frame. -/
structure Input where
  dPadLeft : Bool
  dPadRight : Bool
  dPadUp : Bool
  dPadDown : Bool
  btnJumpActive : Bool
  btnJumpJustPressed : Bool
  btnAttackJustPressed : Bool
  btnDashJustPressed : Bool
deriving DecidableEq, Repr

/-- The mutable simulation state of `main`, with the three ghost counters. -/
structure Game where
  player : Player
  ghosts : List Ghost
  ghostHead : Int
  srcX : Int
  srcY : Int
  respawnCalls : Nat
  jumpsFired : Nat
  dashesTriggered : Nat
deriving DecidableEq, Repr

/-- The initializer of `player` (lines 213-220). -/
def initPlayer : Player :=
  { x := 50, y := 200, startX := 50, startY := 200,
    vx := 0, vy := 0, facingRight := true,
    animTimer := 0, currentFrame := 0, state := 0, lastState := 0,
    onGround := false, coyoteTimer := 0, jumpBufferTimer := 0,
    dashTimer := 0, dashCooldownTimer := 0, isDashing := false, isAttacking := false,
    idleDeathTimer := IDLE_DEATH_TIME, scaleX := 1, scaleY := 1 }

/-- The initializer of `platform` (line 221). -/
def platform : RectF := { x := -50, y := 280, w := 2000, h := 80 }

/-- A ghost slot as left by the loop of line 233 on the zero-initialised array. -/
def emptyGhost : Ghost :=
  { x := 0, y := 0, frameX := 0, frameY := 0, facingRight := false, alpha := 0 }

/-- The state on entry to the main loop. -/
def initGame : Game :=
  { player := initPlayer, ghosts := List.replicate 20 emptyGhost, ghostHead := 0,
    srcX := 0, srcY := 0, respawnCalls := 0, jumpsFired := 0, dashesTriggered := 0 }

/-- The input snapshot of a frame in which nothing is touched. -/
def noInput : Input :=
  { dPadLeft := false, dPadRight := false, dPadUp := false, dPadDown := false,
    btnJumpActive := false, btnJumpJustPressed := false,
    btnAttackJustPressed := false, btnDashJustPressed := false }

/-! ## Helpers (lines 107-161) -/

def Lerp (a b t : ℚ) : ℚ := a + (b - a) * t

def checkCol (p w : RectF) : Bool :=
  decide (p.x < w.x + w.w ∧ p.x + p.w > w.x ∧ p.y < w.y + w.h ∧ p.y + p.h > w.y)

def SpawnGhost (g : Game) (fx fy : Int) : Game :=
  { g with
    ghosts := g.ghosts.set g.ghostHead.toNat
      { x := g.player.x, y := g.player.y, frameX := fx, frameY := fy,
        facingRight := g.player.facingRight, alpha := 6 / 10 },
    ghostHead := (g.ghostHead + 1).tmod MAX_GHOSTS }

def Respawn (p : Player) : Player :=
  { p with
    x := p.startX, y := p.startY, vx := 0, vy := 0,
    idleDeathTimer := IDLE_DEATH_TIME, scaleX := 1 / 10, scaleY := 2 }

/-- A call site of `Respawn(&player)`: the call and its count. -/
def callRespawn (g : Game) : Game :=
  { g with player := Respawn g.player, respawnCalls := g.respawnCalls + 1 }

/-- Apply a block that touches only `player`. -/
def Game.onPlayer (f : Player → Player) (g : Game) : Game :=
  { g with player := f g.player }

/-! ## The loop body, block by block -/

/-- Lines 320-321. -/
def decayScale (dt : ℚ) (p : Player) : Player :=
  { p with scaleX := Lerp p.scaleX 1 (15 * dt), scaleY := Lerp p.scaleY 1 (15 * dt) }

/-- The statement `if (t > 0) t -= dt;` used for four timers. -/
def tick (t dt : ℚ) : ℚ := if t > 0 then t - dt else t

/-- Lines 323-327. -/
def tickTimers (dt : ℚ) (p : Player) : Player :=
  let p1 := { p with
    coyoteTimer := tick p.coyoteTimer dt,
    jumpBufferTimer := tick p.jumpBufferTimer dt,
    dashCooldownTimer := tick p.dashCooldownTimer dt,
    dashTimer := tick p.dashTimer dt }
  if p1.dashTimer ≤ 0 then { p1 with isDashing := false } else p1

/-- The local `isMoving` of line 329. -/
def isMoving (p : Player) : Bool :=
  decide (|p.vx| > 10) || p.isDashing || p.isAttacking || !p.onGround

/-- Lines 329-334. -/
def idleDeathCheck (dt : ℚ) (g : Game) : Game :=
  if isMoving g.player then
    { g with player := { g.player with idleDeathTimer := IDLE_DEATH_TIME } }
  else
    let g1 := { g with player := { g.player with idleDeathTimer := g.player.idleDeathTimer - dt } }
    if g1.player.idleDeathTimer ≤ 0 then callRespawn g1 else g1

/-- Lines 336-340. -/
def attackTrigger (inp : Input) (p : Player) : Player :=
  if inp.btnAttackJustPressed = true ∧ p.isDashing = false ∧ p.isAttacking = false then
    { p with isAttacking := true, state := 4, currentFrame := 0, animTimer := 0, vx := 0 }
  else p

/-- Lines 342-350. -/
def dashTrigger (inp : Input) (g : Game) : Game :=
  let p := g.player
  if inp.btnDashJustPressed = true ∧ p.dashCooldownTimer ≤ 0 ∧ p.isAttacking = false then
    { g with
      player := { p with
        isDashing := true, dashTimer := DASH_DURATION, dashCooldownTimer := DASH_COOLDOWN,
        vx := (if p.facingRight then 1 else -1) * DASH_SPEED, vy := 0, state := 3,
        scaleX := 14 / 10, scaleY := 6 / 10 },
      dashesTriggered := g.dashesTriggered + 1 }
  else g

/-- The local `jumpRequested` after line 356. -/
def jumpRequested (inp : Input) (p : Player) : Bool :=
  if inp.dPadUp = true ∧ p.onGround = true ∧ p.jumpBufferTimer ≤ 0 then true
  else inp.btnJumpJustPressed

/-- Lines 352-357. -/
def jumpRequest (inp : Input) (p : Player) : Player :=
  if jumpRequested inp p then { p with jumpBufferTimer := 1 / 10 } else p

/-- The local `isJumpHeld` of line 359. -/
def isJumpHeld (inp : Input) : Bool := inp.btnJumpActive || inp.dPadUp

/-- Lines 320-340: scale decay, timer tick, idle-death check, attack trigger;
the state in which the dash trigger of line 342 is evaluated. -/
def preDash (dt : ℚ) (inp : Input) (g : Game) : Game :=
  (idleDeathCheck dt
    (g.onPlayer (fun p => tickTimers dt (decayScale dt p)))).onPlayer (attackTrigger inp)

/-- Lines 320-359: everything before the branch on `isAttacking` / `isDashing`;
the state in which the motion branch of line 361 is chosen. -/
def preMotion (dt : ℚ) (inp : Input) (g : Game) : Game :=
  (dashTrigger inp (preDash dt inp g)).onPlayer (jumpRequest inp)

/-- Lines 362-363. -/
def attackMotion (dt : ℚ) (p : Player) : Player :=
  { p with vx := Lerp p.vx 0 (10 * dt), vy := p.vy + GRAVITY * dt }

/-- Lines 366-368. -/
def dashMotion (g : Game) : Game :=
  SpawnGhost
    { g with player := { g.player with
        vx := (if g.player.facingRight then 1 else -1) * DASH_SPEED, vy := 0 } }
    340 40

/-- The local `dir` after line 375. -/
def inputDir (inp : Input) : ℚ :=
  let d0 : ℚ := 0
  let d1 := if inp.dPadLeft then d0 - 1 else d0
  let d2 := if inp.dPadRight then d1 + 1 else d1
  if inp.dPadLeft = true ∧ inp.dPadRight = true then 0 else d2

/-- Lines 372-399. -/
def horizontal (dt : ℚ) (inp : Input) (p : Player) : Player :=
  let dir := inputDir inp
  let targetSpeed := dir * MAX_SPEED
  let accel := if p.onGround then ACCEL_GROUND else ACCEL_AIR
  let friction := if p.onGround then FRICTION_GROUND else FRICTION_AIR
  let p1 : Player :=
    if dir ≠ 0 then
      let v :=
        if p.vx * dir < 0 then Lerp p.vx targetSpeed (10 * dt)
        else if dir > 0 ∧ p.vx < targetSpeed then p.vx + accel * dt
        else if dir < 0 ∧ p.vx > targetSpeed then p.vx - accel * dt
        else p.vx
      { p with vx := v, facingRight := decide (dir > 0) }
    else if p.vx > 0 then
      let v := p.vx - friction * dt
      { p with vx := if v < 0 then 0 else v }
    else if p.vx < 0 then
      let v := p.vx + friction * dt
      { p with vx := if v > 0 then 0 else v }
    else p
  let p2 : Player := if p1.vx > MAX_SPEED then { p1 with vx := MAX_SPEED } else p1
  if p2.vx < -MAX_SPEED then { p2 with vx := -MAX_SPEED } else p2

/-- Lines 401-406. -/
def jumpExecution (g : Game) : Game :=
  if g.player.jumpBufferTimer > 0 ∧ g.player.coyoteTimer > 0 then
    { g with
      player := { g.player with
        vy := JUMP_FORCE, onGround := false, coyoteTimer := 0, jumpBufferTimer := 0,
        scaleX := 7 / 10, scaleY := 13 / 10 },
      jumpsFired := g.jumpsFired + 1 }
  else g

/-- Lines 408-411. -/
def jumpCutoff (inp : Input) (p : Player) : Player :=
  if p.vy < -200 ∧ isJumpHeld inp = false then { p with vy := p.vy * (6 / 10) } else p

/-- Lines 413-415. -/
def classify (p : Player) : Player :=
  if p.onGround = false then { p with state := 2 }
  else if |p.vx| > 20 then { p with state := 1 }
  else { p with state := 0 }

/-- Line 417. -/
def gravity (dt : ℚ) (p : Player) : Player :=
  { p with vy := p.vy + GRAVITY * dt }

/-- Lines 372-417: the `else` branch of the motion model. -/
def normalMotion (dt : ℚ) (inp : Input) (g : Game) : Game :=
  ((jumpExecution (g.onPlayer (horizontal dt inp))).onPlayer
    (fun p => gravity dt (classify (jumpCutoff inp p))))

/-- Lines 361-418. -/
def motion (dt : ℚ) (inp : Input) (g : Game) : Game :=
  if g.player.isAttacking then g.onPlayer (attackMotion dt)
  else if g.player.isDashing then dashMotion g
  else normalMotion dt inp g

/-- Lines 420-421. -/
def integrate (dt : ℚ) (p : Player) : Player :=
  { p with x := p.x + p.vx * dt, y := p.y + p.vy * dt }

/-- The local `pRect` of lines 423-424. -/
def footRect (p : Player) : RectF :=
  let feetY := p.y + ((DRAW_SIZE - SPRITE_OFFSET_Y : Int) : ℚ)
  { x := p.x + ((DRAW_SIZE / 2 - 10 : Int) : ℚ), y := feetY - 40, w := 20, h := 40 }

/-- Lines 423-439, against the rectangle `w`. -/
def groundCollision (w : RectF) (p : Player) : Player :=
  let pRect := footRect p
  let wasOnGround := p.onGround
  let p1 := { p with onGround := false }
  if checkCol pRect w then
    let penetration := (pRect.y + pRect.h) - w.y
    if p1.vy ≥ 0 ∧ penetration < 50 then
      let p2 := { p1 with
        y := w.y - ((DRAW_SIZE - SPRITE_OFFSET_Y : Int) : ℚ), vy := 0,
        onGround := true, coyoteTimer := 1 / 10 }
      if wasOnGround = false then { p2 with scaleX := 13 / 10, scaleY := 7 / 10 } else p2
    else p1
  else if wasOnGround = true ∧ p1.vy ≥ 0 ∧ p1.isDashing = false then
    { p1 with coyoteTimer := 1 / 10 }
  else p1

/-- Line 441. -/
def fallCheck (g : Game) : Game :=
  if g.player.y > 600 then callRespawn g else g

/-- Lines 443-446. -/
def stateChange (p : Player) : Player :=
  if p.state ≠ p.lastState then
    let p1 := if p.state ≠ 2 then { p with currentFrame := 0, animTimer := 0 } else p
    { p1 with lastState := p1.state }
  else p

/-- Lines 448-473: animation advance and the sprite source `srcX`, `srcY`. -/
def animate (dt : ℚ) (g : Game) : Game :=
  let p := g.player
  if p.isDashing then { g with srcX := 340, srcY := 40 }
  else if p.isAttacking then
    let p1 := { p with animTimer := p.animTimer + dt }
    let p2 :=
      if p1.animTimer ≥ 8 / 100 then
        let p3 := { p1 with animTimer := 0, currentFrame := p1.currentFrame + 1 }
        if p3.currentFrame ≥ 4 then
          { p3 with isAttacking := false, currentFrame := 0, state := 0 }
        else p3
      else p1
    { g with player := p2, srcY := 40, srcX := 300 + p2.currentFrame * 20 }
  else
    let p1 := { p with animTimer := p.animTimer + dt }
    if p1.state = 0 then
      let p2 :=
        if p1.animTimer > 3 / 10 then
          { p1 with animTimer := 0, currentFrame := (p1.currentFrame + 1).tmod 2 }
        else p1
      { g with player := p2, srcX := ARMED_OFFSET_X + p2.currentFrame * 20, srcY := 40 }
    else if p1.state = 1 then
      let p2 :=
        if p1.animTimer > 1 / 10 then
          { p1 with animTimer := 0, currentFrame := (p1.currentFrame + 1).tmod 4 }
        else p1
      { g with player := p2, srcX := ARMED_OFFSET_X + p2.currentFrame * 20, srcY := 140 }
    else if p1.state = 2 then
      { g with player := p1, srcY := 140,
               srcX := if p1.vy < -400 then 200 else if p1.vy > 400 then 240 else 220 }
    else { g with player := p1, srcX := 0, srcY := 0 }

/-- Lines 485-494: the opacity decay of the ghost slots. -/
def fadeGhosts (dt : ℚ) (gs : List Ghost) : List Ghost :=
  gs.map (fun gh => if gh.alpha > 0 then { gh with alpha := gh.alpha - 3 * dt } else gh)

/-- Lines 420-441: integration, ground collision, fall-out-of-world check. -/
def physics (dt : ℚ) (g : Game) : Game :=
  fallCheck (g.onPlayer (fun p => groundCollision platform (integrate dt p)))

/-- Lines 443-494: animation and ghost fading. -/
def present (dt : ℚ) (g : Game) : Game :=
  let g1 := animate dt { (g.onPlayer stateChange) with srcX := 0, srcY := 0 }
  { g1 with ghosts := fadeGhosts dt g1.ghosts }

/-- One iteration of the main loop on the simulation state, for the clamped
frame time `dt` and the input snapshot `inp`. -/
def frame (dt : ℚ) (inp : Input) (g : Game) : Game :=
  present dt (physics dt (motion dt inp (preMotion dt inp g)))

/-- Run the frames of a list of `(dt, input)` pairs, first to last. -/
def run (steps : List (ℚ × Input)) (g : Game) : Game :=
  steps.foldl (fun acc s => frame s.1 s.2 acc) g

/-! ## Program points, runs and concrete scenarios -/

/-- The state right after the jump block (line 406) when the `else` branch of
the motion model runs: lines 320-399 followed by lines 401-406. -/
def afterJump (dt : ℚ) (inp : Input) (g : Game) : Game :=
  jumpExecution ((preMotion dt inp g).onPlayer (horizontal dt inp))

/-- The states of the program: the initial state and whatever a frame with a
clamped frame time `0 ≤ dt ≤ 0.05` and any input makes of a state of the program. -/
inductive Reachable : Game → Prop
  | init : Reachable initGame
  | step (g : Game) (dt : ℚ) (inp : Input) :
      Reachable g → 0 ≤ dt → dt ≤ 1 / 20 → Reachable (frame dt inp g)

/-- Repeat `n` frames of constant frame time `dt` without any input. -/
def idleFrames (dt : ℚ) (n : Nat) (g : Game) : Game :=
  run (List.replicate n (dt, noInput)) g

/-- The resting pose of the idle-death scenario: standing still on the
platform of `main`, grounded, neither dashing nor attacking. -/
def AtRest (p : Player) : Prop :=
  p.x = 50 ∧ p.y = platform.y - 70 ∧ p.vx = 0 ∧ p.vy = 0 ∧ p.onGround = true ∧
  p.isDashing = false ∧ p.isAttacking = false

instance (p : Player) : Decidable (AtRest p) := by
  unfold AtRest
  infer_instance

/-- The player during the first tenth of a second after an idle respawn, `e`
seconds after the frame of the respawn, for frames of length `dt`: still above
or on the platform, falling at most as fast as gravity allows, with the idle
countdown reset at most `e` seconds ago. -/
def Settling (dt e : ℚ) (p : Player) : Prop :=
  p.y ≤ 210 + 480 * e ∧ 0 ≤ p.vy ∧ p.vy ≤ 3200 * (e + dt) ∧ 15 / 10 - e ≤ p.idleDeathTimer ∧
  p.isDashing = false ∧ p.isAttacking = false ∧ p.jumpBufferTimer ≤ 0 ∧ p.startY = 200

def holdRight : Input := { noInput with dPadRight := true }

def pressJump : Input := { noInput with btnJumpActive := true, btnJumpJustPressed := true }

def pressDash : Input := { noInput with btnDashJustPressed := true }

def pressAttackJump : Input :=
  { noInput with btnJumpActive := true, btnJumpJustPressed := true, btnAttackJustPressed := true }

/-- The player has fallen from the spawn point onto the platform: two frames
of 0.05 s without input. -/
def landed : Game := run [(1 / 20, noInput), (1 / 20, noInput)] initGame

/-- As `landed`, with the jump button pressed during the landing frame. -/
def landedBuffered : Game := run [(1 / 20, noInput), (1 / 20, pressJump)] initGame

/-- The state in which the sprite row is selected (line 448): the frame up to
the state-change block, with `srcX`, `srcY` as declared in line 448. -/
def preAnimate (dt : ℚ) (inp : Input) (g : Game) : Game :=
  { ((physics dt (motion dt inp (preMotion dt inp g))).onPlayer stateChange) with
    srcX := 0, srcY := 0 }

/-- The state in which the collision block works: lines 320-421 of the frame. -/
def integrated (dt : ℚ) (inp : Input) (g : Game) : Player :=
  integrate dt (motion dt inp (preMotion dt inp g)).player

/-- One call of `SpawnGhost(&p, fx, fy)` for each player record of `ps`, in order. -/
def spawnGhostsFor (ps : List Player) (fx fy : Int) (g : Game) : Game :=
  ps.foldl (fun acc p => SpawnGhost { acc with player := p } fx fy) g

/-- A timer ticked once per frame over the frame times `dts`, first to last. -/
def tickAll (t : ℚ) (dts : List ℚ) : ℚ := dts.foldl tick t

/-- Frames of constant frame time `dt` with the inputs `inps`, first to last. -/
def runConst (dt : ℚ) (inps : List Input) (g : Game) : Game :=
  run (inps.map (fun i => (dt, i))) g

/-- The player in the middle of an attack: attack row of the sprite sheet,
frame `c`, `a` seconds after the last frame advance. -/
def InAttack (c : Int) (a : ℚ) (p : Player) : Prop :=
  p.isAttacking = true ∧ p.isDashing = false ∧ p.state = 4 ∧ p.lastState = 4 ∧
  p.currentFrame = c ∧ p.animTimer = a

/-- The animation cursor is in range: a frame index of the four-frame rows, an
attacking player in state 4, and a frame index of the two-frame idle row
whenever the last state seen by the state-change block is idle. -/
def AnimOk (p : Player) : Prop :=
  0 ≤ p.currentFrame ∧ p.currentFrame ≤ 3 ∧ (p.isAttacking = true → p.state = 4) ∧
  (p.lastState = 0 → p.currentFrame ≤ 1)

def pressAttack : Input := { noInput with btnAttackJustPressed := true }

def pressAttackDash : Input :=
  { noInput with btnAttackJustPressed := true, btnDashJustPressed := true }

/-- An airborne player moving upwards at 500 units/s, jump input released. -/
def rising : Game := { initGame with player := { initPlayer with vy := -500 } }

/-! ## Projections of a conditional state

The blocks are conditionals between records; these lemmas move a field
projection into the branches. -/

@[simp] theorem Player.ite_x (c : Prop) [Decidable c] (a b : Player) :
    (if c then a else b).x = if c then a.x else b.x := by
  split_ifs <;> rfl

@[simp] theorem Player.ite_y (c : Prop) [Decidable c] (a b : Player) :
    (if c then a else b).y = if c then a.y else b.y := by
  split_ifs <;> rfl

@[simp] theorem Player.ite_startX (c : Prop) [Decidable c] (a b : Player) :
    (if c then a else b).startX = if c then a.startX else b.startX := by
  split_ifs <;> rfl

@[simp] theorem Player.ite_startY (c : Prop) [Decidable c] (a b : Player) :
    (if c then a else b).startY = if c then a.startY else b.startY := by
  split_ifs <;> rfl

@[simp] theorem Player.ite_vx (c : Prop) [Decidable c] (a b : Player) :
    (if c then a else b).vx = if c then a.vx else b.vx := by
  split_ifs <;> rfl

@[simp] theorem Player.ite_vy (c : Prop) [Decidable c] (a b : Player) :
    (if c then a else b).vy = if c then a.vy else b.vy := by
  split_ifs <;> rfl

@[simp] theorem Player.ite_facingRight (c : Prop) [Decidable c] (a b : Player) :
    (if c then a else b).facingRight = if c then a.facingRight else b.facingRight := by
  split_ifs <;> rfl

@[simp] theorem Player.ite_animTimer (c : Prop) [Decidable c] (a b : Player) :
    (if c then a else b).animTimer = if c then a.animTimer else b.animTimer := by
  split_ifs <;> rfl

@[simp] theorem Player.ite_currentFrame (c : Prop) [Decidable c] (a b : Player) :
    (if c then a else b).currentFrame = if c then a.currentFrame else b.currentFrame := by
  split_ifs <;> rfl

@[simp] theorem Player.ite_state (c : Prop) [Decidable c] (a b : Player) :
    (if c then a else b).state = if c then a.state else b.state := by
  split_ifs <;> rfl

@[simp] theorem Player.ite_lastState (c : Prop) [Decidable c] (a b : Player) :
    (if c then a else b).lastState = if c then a.lastState else b.lastState := by
  split_ifs <;> rfl

@[simp] theorem Player.ite_onGround (c : Prop) [Decidable c] (a b : Player) :
    (if c then a else b).onGround = if c then a.onGround else b.onGround := by
  split_ifs <;> rfl

@[simp] theorem Player.ite_coyoteTimer (c : Prop) [Decidable c] (a b : Player) :
    (if c then a else b).coyoteTimer = if c then a.coyoteTimer else b.coyoteTimer := by
  split_ifs <;> rfl

@[simp] theorem Player.ite_jumpBufferTimer (c : Prop) [Decidable c] (a b : Player) :
    (if c then a else b).jumpBufferTimer = if c then a.jumpBufferTimer else b.jumpBufferTimer := by
  split_ifs <;> rfl

@[simp] theorem Player.ite_dashTimer (c : Prop) [Decidable c] (a b : Player) :
    (if c then a else b).dashTimer = if c then a.dashTimer else b.dashTimer := by
  split_ifs <;> rfl

@[simp] theorem Player.ite_dashCooldownTimer (c : Prop) [Decidable c] (a b : Player) :
    (if c then a else b).dashCooldownTimer = if c then a.dashCooldownTimer else b.dashCooldownTimer := by
  split_ifs <;> rfl

@[simp] theorem Player.ite_isDashing (c : Prop) [Decidable c] (a b : Player) :
    (if c then a else b).isDashing = if c then a.isDashing else b.isDashing := by
  split_ifs <;> rfl

@[simp] theorem Player.ite_isAttacking (c : Prop) [Decidable c] (a b : Player) :
    (if c then a else b).isAttacking = if c then a.isAttacking else b.isAttacking := by
  split_ifs <;> rfl

@[simp] theorem Player.ite_idleDeathTimer (c : Prop) [Decidable c] (a b : Player) :
    (if c then a else b).idleDeathTimer = if c then a.idleDeathTimer else b.idleDeathTimer := by
  split_ifs <;> rfl

@[simp] theorem Player.ite_scaleX (c : Prop) [Decidable c] (a b : Player) :
    (if c then a else b).scaleX = if c then a.scaleX else b.scaleX := by
  split_ifs <;> rfl

@[simp] theorem Player.ite_scaleY (c : Prop) [Decidable c] (a b : Player) :
    (if c then a else b).scaleY = if c then a.scaleY else b.scaleY := by
  split_ifs <;> rfl

@[simp] theorem Game.ite_player (c : Prop) [Decidable c] (a b : Game) :
    (if c then a else b).player = if c then a.player else b.player := by
  split_ifs <;> rfl

@[simp] theorem Game.ite_ghosts (c : Prop) [Decidable c] (a b : Game) :
    (if c then a else b).ghosts = if c then a.ghosts else b.ghosts := by
  split_ifs <;> rfl

@[simp] theorem Game.ite_ghostHead (c : Prop) [Decidable c] (a b : Game) :
    (if c then a else b).ghostHead = if c then a.ghostHead else b.ghostHead := by
  split_ifs <;> rfl

@[simp] theorem Game.ite_srcX (c : Prop) [Decidable c] (a b : Game) :
    (if c then a else b).srcX = if c then a.srcX else b.srcX := by
  split_ifs <;> rfl

@[simp] theorem Game.ite_srcY (c : Prop) [Decidable c] (a b : Game) :
    (if c then a else b).srcY = if c then a.srcY else b.srcY := by
  split_ifs <;> rfl

@[simp] theorem Game.ite_respawnCalls (c : Prop) [Decidable c] (a b : Game) :
    (if c then a else b).respawnCalls = if c then a.respawnCalls else b.respawnCalls := by
  split_ifs <;> rfl

@[simp] theorem Game.ite_jumpsFired (c : Prop) [Decidable c] (a b : Game) :
    (if c then a else b).jumpsFired = if c then a.jumpsFired else b.jumpsFired := by
  split_ifs <;> rfl

@[simp] theorem Game.ite_dashesTriggered (c : Prop) [Decidable c] (a b : Game) :
    (if c then a else b).dashesTriggered = if c then a.dashesTriggered else b.dashesTriggered := by
  split_ifs <;> rfl

/-! ## The jump counter through the blocks -/

theorem present_jumpsFired (dt : ℚ) (g : Game) : (present dt g).jumpsFired = g.jumpsFired := by
  simp [present, animate, Game.onPlayer]

theorem physics_jumpsFired (dt : ℚ) (g : Game) : (physics dt g).jumpsFired = g.jumpsFired := by
  simp [physics, fallCheck, callRespawn, Game.onPlayer]

theorem preMotion_jumpsFired (dt : ℚ) (inp : Input) (g : Game) :
    (preMotion dt inp g).jumpsFired = g.jumpsFired := by
  simp [preMotion, preDash, dashTrigger, idleDeathCheck, callRespawn, Game.onPlayer]

theorem horizontal_timers (dt : ℚ) (inp : Input) (p : Player) :
    (horizontal dt inp p).jumpBufferTimer = p.jumpBufferTimer ∧
    (horizontal dt inp p).coyoteTimer = p.coyoteTimer := by
  simp [horizontal]

theorem jumpExecution_fired (g : Game) :
    ((jumpExecution g).jumpsFired = g.jumpsFired + 1 ↔
      g.player.jumpBufferTimer > 0 ∧ g.player.coyoteTimer > 0) ∧
    ((jumpExecution g).jumpsFired = g.jumpsFired + 1 ∨ (jumpExecution g).jumpsFired = g.jumpsFired) := by
  unfold jumpExecution
  split_ifs with h <;> simp [h]

/-! ## C1: when the jump executes -/

/-- C1 (amended): in every frame, for any state, input and frame time, the jump
block executes (the jump counter goes up by one) if and only if, at the point
where the motion branch is chosen, the player is neither attacking nor dashing
and both `jumpBufferTimer > 0` and `coyoteTimer > 0`; when it executes, the
state right after the block has `vy = JUMP_FORCE`, `onGround = false` and both
timers at 0, and when it does not execute the counter is unchanged. -/
theorem jump_fires_iff (dt : ℚ) (inp : Input) (g : Game) :
    ((frame dt inp g).jumpsFired = g.jumpsFired + 1 ↔
      (preMotion dt inp g).player.isAttacking = false ∧
      (preMotion dt inp g).player.isDashing = false ∧
      (preMotion dt inp g).player.jumpBufferTimer > 0 ∧
      (preMotion dt inp g).player.coyoteTimer > 0) ∧
    ((frame dt inp g).jumpsFired = g.jumpsFired + 1 →
      (afterJump dt inp g).player.vy = JUMP_FORCE ∧
      (afterJump dt inp g).player.onGround = false ∧
      (afterJump dt inp g).player.coyoteTimer = 0 ∧
      (afterJump dt inp g).player.jumpBufferTimer = 0) ∧
    ((frame dt inp g).jumpsFired ≠ g.jumpsFired + 1 →
      (frame dt inp g).jumpsFired = g.jumpsFired) := by
  have hpre := preMotion_jumpsFired dt inp g
  have hfr : (frame dt inp g).jumpsFired = (motion dt inp (preMotion dt inp g)).jumpsFired := by
    simp [frame, present_jumpsFired, physics_jumpsFired]
  rw [hfr]
  unfold afterJump
  generalize preMotion dt inp g = q at *
  rw [← hpre]
  have hh := horizontal_timers dt inp q.player
  have hj := jumpExecution_fired (q.onPlayer (horizontal dt inp))
  have hjv : (jumpExecution (q.onPlayer (horizontal dt inp))).jumpsFired = q.jumpsFired + 1 →
      (jumpExecution (q.onPlayer (horizontal dt inp))).player.vy = JUMP_FORCE ∧
      (jumpExecution (q.onPlayer (horizontal dt inp))).player.onGround = false ∧
      (jumpExecution (q.onPlayer (horizontal dt inp))).player.coyoteTimer = 0 ∧
      (jumpExecution (q.onPlayer (horizontal dt inp))).player.jumpBufferTimer = 0 := by
    unfold jumpExecution
    split_ifs with h <;> simp [Game.onPlayer]
  simp only [Game.onPlayer] at hj hjv
  cases hA : q.player.isAttacking <;> cases hD : q.player.isDashing <;>
    simp [motion, normalMotion, dashMotion, SpawnGhost, Game.onPlayer, hA, hD]
  · rw [← hh.1, ← hh.2]
    refine ⟨hj.1, hjv, ?_⟩
    intro h
    rcases hj.2 with h2 | h2
    · exact absurd h2 h
    · exact h2


/-- C1 (counterexample): on the landed player, a frame of 0.05 s in which attack
and jump are pressed together reaches the motion branch with both timers
positive, and the jump does not execute: the attack branch runs instead. -/
theorem jump_blocked_by_attack :
    (preMotion (1 / 20) pressAttackJump landed).player.jumpBufferTimer > 0 ∧
    (preMotion (1 / 20) pressAttackJump landed).player.coyoteTimer > 0 ∧
    (frame (1 / 20) pressAttackJump landed).jumpsFired ≠ landed.jumpsFired + 1 ∧
    (frame (1 / 20) pressAttackJump landed).jumpsFired = landed.jumpsFired ∧
    (preMotion (1 / 20) pressAttackJump landed).player.isAttacking = true ∧
    (frame (1 / 20) pressAttackJump landed).player.onGround = true ∧
    (frame (1 / 20) pressAttackJump landed).player.vy = 0 := by
  with_unfolding_all decide

/-! ## What the presentation blocks leave alone -/

theorem present_player (dt : ℚ) (g : Game) :
    (present dt g).player.vx = g.player.vx ∧ (present dt g).player.vy = g.player.vy ∧
    (present dt g).player.x = g.player.x ∧ (present dt g).player.y = g.player.y ∧
    (present dt g).player.startX = g.player.startX ∧
    (present dt g).player.startY = g.player.startY ∧
    (present dt g).player.onGround = g.player.onGround ∧
    (present dt g).player.facingRight = g.player.facingRight ∧
    (present dt g).player.isDashing = g.player.isDashing ∧
    (present dt g).player.coyoteTimer = g.player.coyoteTimer ∧
    (present dt g).player.jumpBufferTimer = g.player.jumpBufferTimer ∧
    (present dt g).player.dashTimer = g.player.dashTimer ∧
    (present dt g).player.dashCooldownTimer = g.player.dashCooldownTimer ∧
    (present dt g).player.idleDeathTimer = g.player.idleDeathTimer := by
  simp [present, animate, stateChange, Game.onPlayer]

theorem present_counters (dt : ℚ) (g : Game) :
    (present dt g).respawnCalls = g.respawnCalls ∧
    (present dt g).dashesTriggered = g.dashesTriggered ∧
    (present dt g).ghostHead = g.ghostHead ∧
    (present dt g).ghosts = fadeGhosts dt g.ghosts := by
  simp [present, animate, stateChange, Game.onPlayer]

/-- A player moving upwards is not grounded by the collision block, and the
timers pass through the physics blocks untouched. -/
theorem physics_rising (dt : ℚ) (m : Game) (hv : m.player.vy < 0) :
    (physics dt m).player.onGround = false ∧
    (physics dt m).player.coyoteTimer = m.player.coyoteTimer ∧
    (physics dt m).player.jumpBufferTimer = m.player.jumpBufferTimer := by
  have h : ¬ (m.player.vy ≥ 0) := not_le.mpr hv
  simp [physics, fallCheck, callRespawn, Respawn, groundCollision, integrate, Game.onPlayer, h]

theorem physics_rising_vy (dt : ℚ) (m : Game) (hv : m.player.vy < 0) (hdt : 0 ≤ dt)
    (hy : m.player.y ≤ 600) :
    (physics dt m).player.vy = m.player.vy := by
  have h : ¬ (m.player.vy ≥ 0) := not_le.mpr hv
  have h2 : ¬ (m.player.y + m.player.vy * dt > 600) := by
    have : m.player.vy * dt ≤ 0 := mul_nonpos_of_nonpos_of_nonneg hv.le hdt
    linarith
  simp [physics, fallCheck, callRespawn, Respawn, groundCollision, integrate, Game.onPlayer, h, h2]


theorem motion_jump (dt : ℚ) (inp : Input) (q : Game) (h1 : dt ≤ 1 / 20)
    (hj : (motion dt inp q).jumpsFired = q.jumpsFired + 1) :
    (motion dt inp q).player.vy < 0 ∧ (motion dt inp q).player.onGround = false ∧
    (motion dt inp q).player.coyoteTimer = 0 ∧ (motion dt inp q).player.jumpBufferTimer = 0 ∧
    (motion dt inp q).player.y = q.player.y := by
  cases hA : q.player.isAttacking <;> cases hD : q.player.isDashing <;>
    simp [motion, normalMotion, dashMotion, SpawnGhost, Game.onPlayer, hA, hD] at hj ⊢
  have hh := horizontal_timers dt inp q.player
  by_cases hc : (horizontal dt inp q.player).jumpBufferTimer > 0 ∧
      (horizontal dt inp q.player).coyoteTimer > 0
  · have hy : (horizontal dt inp q.player).y = q.player.y := by simp [horizontal]
    simp [jumpExecution, Game.onPlayer, hc, gravity, classify, jumpCutoff, JUMP_FORCE, GRAVITY, hy]
    split_ifs <;> linarith
  · simp [jumpExecution, Game.onPlayer, hc] at hj

theorem preDash_pos (dt : ℚ) (inp : Input) (g : Game) :
    (preDash dt inp g).player.startY = g.player.startY ∧
    ((preDash dt inp g).player.y = g.player.y ∨
      (preDash dt inp g).player.y = g.player.startY) := by
  simp [preDash, idleDeathCheck, callRespawn, Respawn, attackTrigger, tickTimers, decayScale,
    Game.onPlayer]
  split_ifs <;> simp_all

theorem preMotion_pos (dt : ℚ) (inp : Input) (g : Game) :
    (preMotion dt inp g).player.startY = g.player.startY ∧
    (preMotion dt inp g).player.y = (preDash dt inp g).player.y := by
  refine ⟨?_, ?_⟩
  · simpa [preMotion, dashTrigger, jumpRequest, Game.onPlayer] using (preDash_pos dt inp g).1
  · simp [preMotion, dashTrigger, jumpRequest, Game.onPlayer]

theorem motion_startY (dt : ℚ) (inp : Input) (q : Game) :
    (motion dt inp q).player.startY = q.player.startY := by
  simp [motion, normalMotion, dashMotion, SpawnGhost, attackMotion, jumpExecution, gravity,
    classify, jumpCutoff, horizontal, Game.onPlayer]

theorem physics_pos (dt : ℚ) (m : Game) :
    (physics dt m).player.startY = m.player.startY ∧
    ((physics dt m).player.y ≤ 600 ∨ (physics dt m).player.y = m.player.startY) := by
  have hs : (groundCollision platform (integrate dt m.player)).startY = m.player.startY := by
    simp [groundCollision, integrate]
  unfold physics fallCheck
  simp only [Game.onPlayer]
  split_ifs with h
  · simp [callRespawn, Respawn, hs]
  · exact ⟨hs, Or.inl (not_lt.mp h)⟩

/-- The spawn point never moves and the player never ends a frame below the
fall threshold. -/
theorem reachable_pos (g : Game) (hr : Reachable g) :
    g.player.startY = 200 ∧ g.player.y ≤ 600 := by
  induction hr with
  | init => norm_num [initGame, initPlayer]
  | step g dt inp _ _ _ ih =>
    have hp := present_player dt (physics dt (motion dt inp (preMotion dt inp g)))
    have hph := physics_pos dt (motion dt inp (preMotion dt inp g))
    have hm := motion_startY dt inp (preMotion dt inp g)
    have hq := preMotion_pos dt inp g
    have hs : (frame dt inp g).player.startY = 200 := by
      simp only [frame]; rw [hp.2.2.2.2.2.1, hph.1, hm, hq.1, ih.1]
    refine ⟨hs, ?_⟩
    have hy : (frame dt inp g).player.y = (physics dt (motion dt inp (preMotion dt inp g))).player.y := by
      simp only [frame]; exact hp.2.2.2.1
    rw [hy]
    rcases hph.2 with h | h
    · exact h
    · rw [h, hm, hq.1, ih.1]; norm_num


theorem frame_jumpsFired (dt : ℚ) (inp : Input) (g : Game) :
    (frame dt inp g).jumpsFired = (motion dt inp (preMotion dt inp g)).jumpsFired := by
  simp [frame, present_jumpsFired, physics_jumpsFired]

theorem motion_jump_of (dt : ℚ) (inp : Input) (q : Game) (hA : q.player.isAttacking = false)
    (hD : q.player.isDashing = false) (hb : q.player.jumpBufferTimer > 0)
    (hc : q.player.coyoteTimer > 0) :
    (motion dt inp q).jumpsFired = q.jumpsFired + 1 ∧
    (jumpExecution (q.onPlayer (horizontal dt inp))).player.vy = JUMP_FORCE := by
  have hh := horizontal_timers dt inp q.player
  have hc2 : (horizontal dt inp q.player).jumpBufferTimer > 0 ∧
      (horizontal dt inp q.player).coyoteTimer > 0 := by
    rw [hh.1, hh.2]; exact ⟨hb, hc⟩
  simp [motion, normalMotion, jumpExecution, Game.onPlayer, hA, hD, hc2]

theorem reachable_landed : Reachable landed :=
  Reachable.step _ _ _ (Reachable.step _ _ _ Reachable.init (by norm_num) (by norm_num))
    (by norm_num) (by norm_num)

/-- C2: in every frame with `0 ≤ dt ≤ 0.05` in which the jump executes, the
state at the end of the whole frame (after gravity, integration and ground
collision) has `coyoteTimer = 0`, `jumpBufferTimer = 0` and `onGround = false`:
the collision block of that frame neither snaps the player to the ground nor
re-arms the coyote timer; and `vy < 0` at the end of the frame in every state
of the program (every state reachable from the initial one, where the player
is never below the fall threshold when a frame starts). -/
theorem jump_frame_end (g : Game) (dt : ℚ) (h0 : 0 ≤ dt) (h1 : dt ≤ 1 / 20)
    (inp : Input) (hj : (frame dt inp g).jumpsFired = g.jumpsFired + 1) :
    (frame dt inp g).player.coyoteTimer = 0 ∧ (frame dt inp g).player.jumpBufferTimer = 0 ∧
    (frame dt inp g).player.onGround = false ∧
    (Reachable g → (frame dt inp g).player.vy < 0) := by
  rw [frame_jumpsFired, ← preMotion_jumpsFired dt inp g] at hj
  obtain ⟨mv, mg, mc, mb, my⟩ := motion_jump dt inp (preMotion dt inp g) h1 hj
  have hp := present_player dt (physics dt (motion dt inp (preMotion dt inp g)))
  have hr1 := physics_rising dt _ mv
  simp only [frame]
  refine ⟨?_, ?_, ?_, ?_⟩
  · rw [hp.2.2.2.2.2.2.2.2.2.1, hr1.2.1, mc]
  · rw [hp.2.2.2.2.2.2.2.2.2.2.1, hr1.2.2, mb]
  · rw [hp.2.2.2.2.2.2.1, hr1.1]
  · intro hr
    have hpos := reachable_pos g hr
    have hq : (preMotion dt inp g).player.y ≤ 600 := by
      rw [(preMotion_pos dt inp g).2]
      rcases (preDash_pos dt inp g).2 with h | h
      · rw [h]; exact hpos.2
      · rw [h, hpos.1]; norm_num
    rw [hp.2.1, physics_rising_vy dt _ mv h0 (my ▸ hq)]
    exact mv

theorem jump_frame_end_witness :
    Reachable landed ∧
    (frame (1 / 20) pressJump landed).jumpsFired = landed.jumpsFired + 1 ∧
    (frame (1 / 20) pressJump landed).player.coyoteTimer = 0 ∧
    (frame (1 / 20) pressJump landed).player.jumpBufferTimer = 0 ∧
    (frame (1 / 20) pressJump landed).player.onGround = false ∧
    (frame (1 / 20) pressJump landed).player.vy < 0 :=
  have h := jump_frame_end landed (1 / 20) (by norm_num) (by norm_num) pressJump
    (by with_unfolding_all decide)
  ⟨reachable_landed, by with_unfolding_all decide, h.1, h.2.1, h.2.2.1,
    h.2.2.2 reachable_landed⟩

/-- C3: for `0 ≤ dt ≤ 0.05`, a grounded player with `coyoteTimer = 0.1` who is
neither attacking nor dashing, in a frame where jump is just-pressed and
neither attack nor dash is, jumps in this very frame: the jump block executes,
`vy = -960` right after it (before damping and gravity), and the frame ends
with `jumpBufferTimer = 0`, `coyoteTimer = 0` and `onGround = false`. -/
theorem grounded_jump_press (g : Game) (dt : ℚ) (_h0 : 0 ≤ dt) (h1 : dt ≤ 1 / 20) (inp : Input)
    (_hg : g.player.onGround = true) (hc : g.player.coyoteTimer = 1 / 10)
    (hA : g.player.isAttacking = false) (hD : g.player.isDashing = false)
    (hJ : inp.btnJumpJustPressed = true) (hAt : inp.btnAttackJustPressed = false)
    (hDa : inp.btnDashJustPressed = false) :
    (frame dt inp g).jumpsFired = g.jumpsFired + 1 ∧
    (afterJump dt inp g).player.vy = -960 ∧
    (frame dt inp g).player.jumpBufferTimer = 0 ∧ (frame dt inp g).player.coyoteTimer = 0 ∧
    (frame dt inp g).player.onGround = false := by
  have qA : (preMotion dt inp g).player.isAttacking = false := by
    simp [preMotion, preDash, dashTrigger, jumpRequest, attackTrigger, idleDeathCheck,
      callRespawn, Respawn, tickTimers, decayScale, Game.onPlayer, hA, hAt, hDa]
  have qD : (preMotion dt inp g).player.isDashing = false := by
    simp [preMotion, preDash, dashTrigger, jumpRequest, attackTrigger, idleDeathCheck,
      callRespawn, Respawn, tickTimers, decayScale, Game.onPlayer, hD, hAt, hDa]
  have qb : (preMotion dt inp g).player.jumpBufferTimer > 0 := by
    simp [preMotion, jumpRequest, jumpRequested, Game.onPlayer, hJ]
  have qc : (preMotion dt inp g).player.coyoteTimer > 0 := by
    have : (preMotion dt inp g).player.coyoteTimer = 1 / 10 - dt := by
      simp [preMotion, preDash, dashTrigger, jumpRequest, attackTrigger, idleDeathCheck,
        callRespawn, Respawn, tickTimers, decayScale, Game.onPlayer, hc, tick, hAt, hDa]
    rw [this]; linarith
  obtain ⟨mj, mv⟩ := motion_jump_of dt inp (preMotion dt inp g) qA qD qb qc
  have hj : (motion dt inp (preMotion dt inp g)).jumpsFired =
      (preMotion dt inp g).jumpsFired + 1 := mj
  obtain ⟨mvy, mg, mc, mb, _⟩ := motion_jump dt inp (preMotion dt inp g) h1 hj
  have hp := present_player dt (physics dt (motion dt inp (preMotion dt inp g)))
  have hr1 := physics_rising dt _ mvy
  refine ⟨?_, ?_, ?_, ?_, ?_⟩
  · rw [frame_jumpsFired, mj, preMotion_jumpsFired]
  · rw [afterJump, mv]; rfl
  · simp only [frame]; rw [hp.2.2.2.2.2.2.2.2.2.2.1, hr1.2.2, mb]
  · simp only [frame]; rw [hp.2.2.2.2.2.2.2.2.2.1, hr1.2.1, mc]
  · simp only [frame]; rw [hp.2.2.2.2.2.2.1, hr1.1]

theorem grounded_jump_press_witness :
    (frame (1 / 20) pressJump landed).jumpsFired = landed.jumpsFired + 1 ∧
    (afterJump (1 / 20) pressJump landed).player.vy = -960 ∧
    (frame (1 / 20) pressJump landed).player.jumpBufferTimer = 0 ∧
    (frame (1 / 20) pressJump landed).player.coyoteTimer = 0 ∧
    (frame (1 / 20) pressJump landed).player.onGround = false :=
  grounded_jump_press landed (1 / 20) (by norm_num) (by norm_num) pressJump
    (by with_unfolding_all decide) (by with_unfolding_all decide) (by with_unfolding_all decide)
    (by with_unfolding_all decide) rfl rfl rfl

/-! ## Dash and attack exclude each other -/

theorem tickTimers_flags (dt : ℚ) (p : Player) :
    (tickTimers dt p).isAttacking = p.isAttacking ∧
    ((tickTimers dt p).isDashing = true → p.isDashing = true) := by
  simp [tickTimers]

theorem idleDeathCheck_flags (dt : ℚ) (g : Game) :
    (idleDeathCheck dt g).player.isDashing = g.player.isDashing ∧
    (idleDeathCheck dt g).player.isAttacking = g.player.isAttacking := by
  simp [idleDeathCheck, callRespawn, Respawn]

theorem attackTrigger_excl (inp : Input) (p : Player)
    (h : ¬ (p.isDashing = true ∧ p.isAttacking = true)) :
    ¬ ((attackTrigger inp p).isDashing = true ∧ (attackTrigger inp p).isAttacking = true) := by
  unfold attackTrigger
  split_ifs with hc
  · simp [hc.2.1]
  · exact h

theorem dashTrigger_excl (inp : Input) (g : Game)
    (h : ¬ (g.player.isDashing = true ∧ g.player.isAttacking = true)) :
    ¬ ((dashTrigger inp g).player.isDashing = true ∧
      (dashTrigger inp g).player.isAttacking = true) := by
  by_cases hc : inp.btnDashJustPressed = true ∧ g.player.dashCooldownTimer ≤ 0 ∧
      g.player.isAttacking = false
  · simp [dashTrigger, hc, hc.2.2]
  · simpa [dashTrigger, hc] using h

theorem jumpRequest_flags (inp : Input) (p : Player) :
    (jumpRequest inp p).isDashing = p.isDashing ∧
    (jumpRequest inp p).isAttacking = p.isAttacking := by
  simp [jumpRequest]

theorem preDash_excl (dt : ℚ) (inp : Input) (g : Game)
    (h : ¬ (g.player.isDashing = true ∧ g.player.isAttacking = true)) :
    ¬ ((preDash dt inp g).player.isDashing = true ∧
      (preDash dt inp g).player.isAttacking = true) := by
  simp only [preDash, Game.onPlayer]
  apply attackTrigger_excl
  rw [(idleDeathCheck_flags dt _).1, (idleDeathCheck_flags dt _).2]
  intro ⟨hD, hA⟩
  have ht := tickTimers_flags dt (decayScale dt g.player)
  exact h ⟨by simpa [decayScale] using ht.2 hD, by simpa [decayScale] using ht.1 ▸ hA⟩

theorem preMotion_excl (dt : ℚ) (inp : Input) (g : Game)
    (h : ¬ (g.player.isDashing = true ∧ g.player.isAttacking = true)) :
    ¬ ((preMotion dt inp g).player.isDashing = true ∧
      (preMotion dt inp g).player.isAttacking = true) := by
  simp only [preMotion, Game.onPlayer]
  rw [(jumpRequest_flags inp _).1, (jumpRequest_flags inp _).2]
  exact dashTrigger_excl inp _ (preDash_excl dt inp g h)

theorem motion_flags (dt : ℚ) (inp : Input) (q : Game) :
    (motion dt inp q).player.isDashing = q.player.isDashing ∧
    (motion dt inp q).player.isAttacking = q.player.isAttacking := by
  simp [motion, normalMotion, dashMotion, SpawnGhost, attackMotion, jumpExecution, gravity,
    classify, jumpCutoff, horizontal, Game.onPlayer]

theorem physics_flags (dt : ℚ) (m : Game) :
    (physics dt m).player.isDashing = m.player.isDashing ∧
    (physics dt m).player.isAttacking = m.player.isAttacking ∧
    (physics dt m).player.facingRight = m.player.facingRight := by
  simp [physics, fallCheck, callRespawn, Respawn, groundCollision, integrate, Game.onPlayer]

theorem present_isAttacking (dt : ℚ) (g : Game)
    (h : (present dt g).player.isAttacking = true) : g.player.isAttacking = true := by
  revert h
  simp only [present, animate, stateChange, Game.onPlayer]
  cases hD : g.player.isDashing <;> cases hA : g.player.isAttacking <;> simp_all

theorem frame_excl (dt : ℚ) (inp : Input) (g : Game)
    (h : ¬ (g.player.isDashing = true ∧ g.player.isAttacking = true)) :
    ¬ ((frame dt inp g).player.isDashing = true ∧ (frame dt inp g).player.isAttacking = true) := by
  intro ⟨hD, hA⟩
  have hq := preMotion_excl dt inp g h
  have hm := motion_flags dt inp (preMotion dt inp g)
  have hp := physics_flags dt (motion dt inp (preMotion dt inp g))
  simp only [frame] at hD hA
  have hA2 := present_isAttacking dt _ hA
  rw [(present_player dt _).2.2.2.2.2.2.2.2.1, hp.1, hm.1] at hD
  rw [hp.2.1, hm.2] at hA2
  exact hq ⟨hD, hA2⟩

theorem reachable_excl (g : Game) (hr : Reachable g) :
    ¬ (g.player.isDashing = true ∧ g.player.isAttacking = true) := by
  induction hr with
  | init => simp [initGame, initPlayer]
  | step g dt inp _ _ _ ih => exact frame_excl dt inp g ih

/-- The physics blocks on a player without vertical velocity who is not below
the fall threshold: no respawn, `vx` and facing kept, `vy` still 0. -/
theorem physics_level (dt : ℚ) (m : Game) (hv : m.player.vy = 0) (hy : m.player.y ≤ 600) :
    (physics dt m).player.vx = m.player.vx ∧ (physics dt m).player.vy = 0 ∧
    (physics dt m).respawnCalls = m.respawnCalls := by
  have hc : (groundCollision platform (integrate dt m.player)).y ≤ 600 ∧
      (groundCollision platform (integrate dt m.player)).vx = m.player.vx ∧
      (groundCollision platform (integrate dt m.player)).vy = 0 := by
    simp only [groundCollision, integrate, hv]
    refine ⟨?_, ?_, ?_⟩
    · simp
      split_ifs <;> norm_num [platform, DRAW_SIZE, SPRITE_OFFSET_Y] <;> linarith
    · simp
    · simp
  have hn : ¬ ((groundCollision platform (integrate dt m.player)).y > 600) := not_lt.mpr hc.1
  simp [physics, fallCheck, Game.onPlayer, hn, hc.2.1, hc.2.2]


/-- A player without vertical velocity has none after the physics blocks,
wherever the player is. -/
theorem physics_vy_zero (dt : ℚ) (m : Game) (hv : m.player.vy = 0) :
    (physics dt m).player.vy = 0 := by
  have hc : (groundCollision platform (integrate dt m.player)).vy = 0 := by
    simp [groundCollision, integrate, hv]
  unfold physics fallCheck
  simp only [Game.onPlayer]
  split_ifs
  · simp [callRespawn, Respawn]
  · exact hc

theorem preMotion_facing (dt : ℚ) (inp : Input) (g : Game) :
    (preMotion dt inp g).player.facingRight = g.player.facingRight := by
  simp [preMotion, preDash, dashTrigger, jumpRequest, attackTrigger, idleDeathCheck,
    callRespawn, Respawn, tickTimers, decayScale, Game.onPlayer]

/-- The dash branch (lines 366-368). -/
theorem motion_dash (dt : ℚ) (inp : Input) (q : Game) (hA : q.player.isAttacking = false)
    (hD : q.player.isDashing = true) :
    (motion dt inp q).player.vx = (if q.player.facingRight then 1000 else -1000) ∧
    (motion dt inp q).player.vy = 0 ∧ (motion dt inp q).player.y = q.player.y ∧
    (motion dt inp q).player.facingRight = q.player.facingRight ∧
    (motion dt inp q).respawnCalls = q.respawnCalls := by
  cases hf : q.player.facingRight <;>
    simp [motion, dashMotion, SpawnGhost, hA, hD, hf, DASH_SPEED]

theorem reachable_preMotion_y (g : Game) (hr : Reachable g) (dt : ℚ) (inp : Input) :
    (preMotion dt inp g).player.y ≤ 600 := by
  have hpos := reachable_pos g hr
  rw [(preMotion_pos dt inp g).2]
  rcases (preDash_pos dt inp g).2 with h | h
  · rw [h]; exact hpos.2
  · rw [h, hpos.1]; norm_num

/-- A frame that takes the dash branch with the player not below the fall
threshold: what the branch sets is what the frame ends with. -/
theorem dash_branch_end (dt : ℚ) (inp : Input) (g : Game)
    (hA : (preMotion dt inp g).player.isAttacking = false)
    (hD : (preMotion dt inp g).player.isDashing = true)
    (hq : (preMotion dt inp g).player.y ≤ 600) :
    (frame dt inp g).player.vx = (if (frame dt inp g).player.facingRight then 1000 else -1000) ∧
    (frame dt inp g).player.vy = 0 ∧
    (frame dt inp g).player.facingRight = g.player.facingRight ∧
    (motion dt inp (preMotion dt inp g)).player.vy = 0 ∧
    (frame dt inp g).player.vx = (motion dt inp (preMotion dt inp g)).player.vx ∧
    (frame dt inp g).respawnCalls = (preMotion dt inp g).respawnCalls := by
  obtain ⟨mx, mv, my, mf, mr⟩ := motion_dash dt inp (preMotion dt inp g) hA hD
  obtain ⟨px, pv, pr⟩ := physics_level dt (motion dt inp (preMotion dt inp g)) mv (my ▸ hq)
  have hp := present_player dt (physics dt (motion dt inp (preMotion dt inp g)))
  have hc := present_counters dt (physics dt (motion dt inp (preMotion dt inp g)))
  have hf := physics_flags dt (motion dt inp (preMotion dt inp g))
  have hfac : (frame dt inp g).player.facingRight = g.player.facingRight := by
    simp only [frame]
    rw [hp.2.2.2.2.2.2.2.1, hf.2.2, mf, preMotion_facing]
  have hvx : (frame dt inp g).player.vx = (motion dt inp (preMotion dt inp g)).player.vx := by
    simp only [frame]; rw [hp.1, px]
  refine ⟨?_, ?_, hfac, mv, hvx, ?_⟩
  · rw [hvx, mx, hfac, preMotion_facing]
  · simp only [frame]; rw [hp.2.1, pv]
  · simp only [frame]; rw [hc.1, pr, mr]

/-- C4: in every state reachable from the initial state, a frame in which the
player is dashing when the motion branch is chosen ends with
`vx = +1000` if `facingRight` else `-1000` and `vy = 0`; the branch leaves
`vy = 0` (no gravity), facing is the one the frame started with, and no
respawn happens after the branch, so neither the collision block nor the fall
check alters `vx` or `vy`. -/
theorem dash_frame_velocity (g : Game) (hr : Reachable g) (dt : ℚ) (inp : Input)
    (hd : (preMotion dt inp g).player.isDashing = true) :
    (frame dt inp g).player.vx = (if (frame dt inp g).player.facingRight then 1000 else -1000) ∧
    (frame dt inp g).player.vy = 0 ∧
    (frame dt inp g).player.facingRight = g.player.facingRight ∧
    (motion dt inp (preMotion dt inp g)).player.vy = 0 ∧
    (frame dt inp g).player.vx = (motion dt inp (preMotion dt inp g)).player.vx ∧
    (frame dt inp g).respawnCalls = (preMotion dt inp g).respawnCalls := by
  have hA : (preMotion dt inp g).player.isAttacking = false := by
    have := preMotion_excl dt inp g (reachable_excl g hr)
    cases h : (preMotion dt inp g).player.isAttacking
    · rfl
    · exact absurd ⟨hd, h⟩ this
  exact dash_branch_end dt inp g hA hd (reachable_preMotion_y g hr dt inp)

theorem dash_frame_velocity_witness :
    Reachable initGame ∧ (preMotion (1 / 20) pressDash initGame).player.isDashing = true ∧
    (frame (1 / 20) pressDash initGame).player.vx = 1000 ∧
    (frame (1 / 20) pressDash initGame).player.vy = 0 := by
  have h := dash_frame_velocity initGame Reachable.init (1 / 20) pressDash
    (by with_unfolding_all decide)
  have hf : (frame (1 / 20) pressDash initGame).player.facingRight = true := by
    with_unfolding_all decide
  refine ⟨Reachable.init, by with_unfolding_all decide, ?_, h.2.1⟩
  have := h.1
  rw [hf] at this
  simpa using this

/-! ## The dash timers and the dash counter through the blocks -/

theorem preDash_dash (dt : ℚ) (inp : Input) (g : Game) :
    (preDash dt inp g).player.dashCooldownTimer = tick g.player.dashCooldownTimer dt ∧
    (preDash dt inp g).player.dashTimer = tick g.player.dashTimer dt ∧
    (preDash dt inp g).dashesTriggered = g.dashesTriggered ∧
    ((preDash dt inp g).player.isDashing = (tickTimers dt g.player).isDashing) := by
  simp [preDash, attackTrigger, idleDeathCheck, callRespawn, Respawn, tickTimers, decayScale,
    Game.onPlayer]

theorem motion_dashTimers (dt : ℚ) (inp : Input) (q : Game) :
    (motion dt inp q).player.dashTimer = q.player.dashTimer ∧
    (motion dt inp q).player.dashCooldownTimer = q.player.dashCooldownTimer ∧
    (motion dt inp q).dashesTriggered = q.dashesTriggered := by
  simp [motion, normalMotion, dashMotion, SpawnGhost, attackMotion, jumpExecution, gravity,
    classify, jumpCutoff, horizontal, Game.onPlayer]

theorem physics_dashTimers (dt : ℚ) (m : Game) :
    (physics dt m).player.dashTimer = m.player.dashTimer ∧
    (physics dt m).player.dashCooldownTimer = m.player.dashCooldownTimer ∧
    (physics dt m).dashesTriggered = m.dashesTriggered ∧
    (physics dt m).player.state = m.player.state ∧
    (physics dt m).ghostHead = m.ghostHead ∧ (physics dt m).ghosts = m.ghosts := by
  simp [physics, fallCheck, callRespawn, Respawn, groundCollision, integrate, Game.onPlayer]

/-- From the motion branch to the end of the frame the dash timers, the dash
counter and `isDashing` do not change. -/
theorem frame_dash_fields (dt : ℚ) (inp : Input) (g : Game) :
    (frame dt inp g).player.dashTimer = (preMotion dt inp g).player.dashTimer ∧
    (frame dt inp g).player.dashCooldownTimer = (preMotion dt inp g).player.dashCooldownTimer ∧
    (frame dt inp g).dashesTriggered = (preMotion dt inp g).dashesTriggered ∧
    (frame dt inp g).player.isDashing = (preMotion dt inp g).player.isDashing := by
  have hp := present_player dt (physics dt (motion dt inp (preMotion dt inp g)))
  have hc := present_counters dt (physics dt (motion dt inp (preMotion dt inp g)))
  have hph := physics_dashTimers dt (motion dt inp (preMotion dt inp g))
  have hf := physics_flags dt (motion dt inp (preMotion dt inp g))
  have hm := motion_dashTimers dt inp (preMotion dt inp g)
  have hmf := motion_flags dt inp (preMotion dt inp g)
  simp only [frame]
  refine ⟨?_, ?_, ?_, ?_⟩
  · rw [hp.2.2.2.2.2.2.2.2.2.2.2.1, hph.1, hm.1]
  · rw [hp.2.2.2.2.2.2.2.2.2.2.2.2.1, hph.2.1, hm.2.1]
  · rw [hc.2.1, hph.2.2.1, hm.2.2]
  · rw [hp.2.2.2.2.2.2.2.2.1, hf.1, hmf.1]

/-- The dash trigger of line 342, seen at the point where the motion branch is
chosen: whether it fired, and what it left. -/
theorem preMotion_dashTrigger (dt : ℚ) (inp : Input) (g : Game) :
    (inp.btnDashJustPressed = true ∧ (preDash dt inp g).player.dashCooldownTimer ≤ 0 ∧
        (preDash dt inp g).player.isAttacking = false →
      (preMotion dt inp g).dashesTriggered = g.dashesTriggered + 1 ∧
      (preMotion dt inp g).player.isDashing = true ∧
      (preMotion dt inp g).player.isAttacking = false ∧
      (preMotion dt inp g).player.dashTimer = 15 / 100 ∧
      (preMotion dt inp g).player.dashCooldownTimer = 6 / 10 ∧
      (preMotion dt inp g).player.state = 3) ∧
    (¬ (inp.btnDashJustPressed = true ∧ (preDash dt inp g).player.dashCooldownTimer ≤ 0 ∧
        (preDash dt inp g).player.isAttacking = false) →
      (preMotion dt inp g).dashesTriggered = g.dashesTriggered ∧
      (preMotion dt inp g).player.isDashing = (preDash dt inp g).player.isDashing ∧
      (preMotion dt inp g).player.dashTimer = (preDash dt inp g).player.dashTimer ∧
      (preMotion dt inp g).player.dashCooldownTimer =
        (preDash dt inp g).player.dashCooldownTimer) := by
  have hd := (preDash_dash dt inp g).2.2.1
  constructor
  · intro hc
    simp [preMotion, dashTrigger, jumpRequest, Game.onPlayer, hc, hd, DASH_DURATION,
      DASH_COOLDOWN, hc.2.2]
  · intro hc
    simp [preMotion, dashTrigger, jumpRequest, Game.onPlayer, hc, hd]


theorem preMotion_ghosts (dt : ℚ) (inp : Input) (g : Game) :
    (preMotion dt inp g).ghostHead = g.ghostHead ∧ (preMotion dt inp g).ghosts = g.ghosts := by
  simp [preMotion, preDash, dashTrigger, idleDeathCheck, callRespawn, Game.onPlayer]

/-- The ghost buffer is written by the dash branch and by no other branch. -/
theorem motion_ghosts (dt : ℚ) (inp : Input) (q : Game) :
    (q.player.isAttacking = false ∧ q.player.isDashing = true →
      (motion dt inp q).ghostHead = (q.ghostHead + 1).tmod 20 ∧
      (motion dt inp q).ghosts = q.ghosts.set q.ghostHead.toNat
        { x := q.player.x, y := q.player.y, frameX := 340, frameY := 40,
          facingRight := q.player.facingRight, alpha := 6 / 10 } ∧
      (motion dt inp q).player.state = q.player.state) ∧
    (¬ (q.player.isAttacking = false ∧ q.player.isDashing = true) →
      (motion dt inp q).ghostHead = q.ghostHead ∧ (motion dt inp q).ghosts = q.ghosts) := by
  cases hA : q.player.isAttacking <;> cases hD : q.player.isDashing <;>
    simp [motion, normalMotion, dashMotion, SpawnGhost, jumpExecution, Game.onPlayer, hA, hD,
      MAX_GHOSTS]

theorem present_dashing_state (dt : ℚ) (g : Game) (hD : g.player.isDashing = true) :
    (present dt g).player.state = g.player.state := by
  simp [present, animate, stateChange, Game.onPlayer, hD]

/-- C5: in every frame in which the dash button is just-pressed,
`dashCooldownTimer ≤ 0` after the tick and the player is not attacking after the
attack trigger, the dash triggers and the frame ends with `isDashing`,
`dashTimer = 0.15`, `dashCooldownTimer = 0.6`, `vy = 0` and `state = 3`, and, in
every state of the program (reachable from the initial one), with `vx = +1000`
if `facingRight` else `-1000`.  In every frame that takes the dash branch (the
trigger frame is one) the ghost cursor advances by one, modulo the 20 slots,
and the slot it pointed at receives the player's position and facing; in every
other frame the cursor and the slots are left alone (all slots fade at the end
of every frame). -/
theorem dash_trigger_frame (g : Game) (dt : ℚ) (inp : Input) :
    (inp.btnDashJustPressed = true → tick g.player.dashCooldownTimer dt ≤ 0 →
        (preDash dt inp g).player.isAttacking = false →
      (frame dt inp g).dashesTriggered = g.dashesTriggered + 1 ∧
      (frame dt inp g).player.isDashing = true ∧
      (frame dt inp g).player.dashTimer = 15 / 100 ∧
      (frame dt inp g).player.dashCooldownTimer = 6 / 10 ∧
      (Reachable g → (frame dt inp g).player.vx =
        (if (frame dt inp g).player.facingRight then 1000 else -1000)) ∧
      (frame dt inp g).player.vy = 0 ∧
      (frame dt inp g).player.state = 3 ∧
      (preMotion dt inp g).player.isAttacking = false ∧
      (preMotion dt inp g).player.isDashing = true) ∧
    ((preMotion dt inp g).player.isAttacking = false ∧
        (preMotion dt inp g).player.isDashing = true →
      (frame dt inp g).ghostHead = (g.ghostHead + 1).tmod 20 ∧
      (frame dt inp g).ghosts = fadeGhosts dt (g.ghosts.set g.ghostHead.toNat
        { x := (preMotion dt inp g).player.x, y := (preMotion dt inp g).player.y,
          frameX := 340, frameY := 40,
          facingRight := (preMotion dt inp g).player.facingRight, alpha := 6 / 10 })) ∧
    (¬ ((preMotion dt inp g).player.isAttacking = false ∧
        (preMotion dt inp g).player.isDashing = true) →
      (frame dt inp g).ghostHead = g.ghostHead ∧
      (frame dt inp g).ghosts = fadeGhosts dt g.ghosts) := by
  have hc := present_counters dt (physics dt (motion dt inp (preMotion dt inp g)))
  have hph := physics_dashTimers dt (motion dt inp (preMotion dt inp g))
  have hmg := motion_ghosts dt inp (preMotion dt inp g)
  have hqg := preMotion_ghosts dt inp g
  have hfd := frame_dash_fields dt inp g
  refine ⟨?_, ?_, ?_⟩
  · intro hP hC hA
    rw [← (preDash_dash dt inp g).1] at hC
    obtain ⟨t1, t2, t3, t4, t5, t6⟩ := (preMotion_dashTrigger dt inp g).1 ⟨hP, hC, hA⟩
    have hvy : (frame dt inp g).player.vy = 0 := by
      simp only [frame]
      rw [(present_player dt _).2.1]
      exact physics_vy_zero dt _ (motion_dash dt inp (preMotion dt inp g) t3 t2).2.1
    refine ⟨?_, ?_, ?_, ?_,
      fun hr => (dash_branch_end dt inp g t3 t2 (reachable_preMotion_y g hr dt inp)).1,
      hvy, ?_, t3, t2⟩
    · rw [hfd.2.2.1, t1]
    · rw [hfd.2.2.2, t2]
    · rw [hfd.1, t4]
    · rw [hfd.2.1, t5]
    · have hD : (physics dt (motion dt inp (preMotion dt inp g))).player.isDashing = true := by
        rw [(physics_flags dt _).1, (motion_flags dt inp _).1, t2]
      simp only [frame]
      rw [present_dashing_state dt _ hD, hph.2.2.2.1, ((hmg.1) ⟨t3, t2⟩).2.2, t6]
  · intro hb
    obtain ⟨m1, m2, _⟩ := hmg.1 hb
    simp only [frame]
    rw [hc.2.2.1, hc.2.2.2, hph.2.2.2.2.1, hph.2.2.2.2.2, m1, m2, hqg.1, hqg.2]
    exact ⟨rfl, rfl⟩
  · intro hb
    obtain ⟨m1, m2⟩ := hmg.2 hb
    simp only [frame]
    rw [hc.2.2.1, hc.2.2.2, hph.2.2.2.2.1, hph.2.2.2.2.2, m1, m2, hqg.1, hqg.2]
    exact ⟨rfl, rfl⟩


theorem dash_trigger_frame_witness :
    (frame (1 / 20) pressDash initGame).dashesTriggered = initGame.dashesTriggered + 1 ∧
    (frame (1 / 20) pressDash initGame).player.dashTimer = 15 / 100 ∧
    (frame (1 / 20) pressDash initGame).player.dashCooldownTimer = 6 / 10 ∧
    (frame (1 / 20) pressDash initGame).player.vx =
      (if (frame (1 / 20) pressDash initGame).player.facingRight then 1000 else -1000) ∧
    (frame (1 / 20) pressDash initGame).player.state = 3 ∧
    (frame (1 / 20) pressDash initGame).ghostHead = (initGame.ghostHead + 1).tmod 20 := by
  have h := dash_trigger_frame initGame (1 / 20) pressDash
  have h1 := h.1 rfl (by with_unfolding_all decide) (by with_unfolding_all decide)
  exact ⟨h1.1, h1.2.2.1, h1.2.2.2.1, h1.2.2.2.2.1 Reachable.init, h1.2.2.2.2.2.2.1,
    (h.2.1 ⟨h1.2.2.2.2.2.2.2.1, h1.2.2.2.2.2.2.2.2⟩).1⟩

/-! ## The dash cooldown -/

theorem tickTimers_isDashing (dt : ℚ) (p : Player) :
    (tickTimers dt p).isDashing = true ↔ p.isDashing = true ∧ 0 < tick p.dashTimer dt := by
  simp [tickTimers]
  tauto

/-- Whether the dash trigger fires in a frame, read off the dash counter. -/
theorem frame_dash_cases (dt : ℚ) (inp : Input) (g : Game) :
    ((frame dt inp g).dashesTriggered = g.dashesTriggered + 1 ∧
      inp.btnDashJustPressed = true ∧ tick g.player.dashCooldownTimer dt ≤ 0 ∧
      (frame dt inp g).player.isDashing = true ∧
      (frame dt inp g).player.dashTimer = 15 / 100 ∧
      (frame dt inp g).player.dashCooldownTimer = 6 / 10) ∨
    ((frame dt inp g).dashesTriggered = g.dashesTriggered ∧
      (frame dt inp g).player.isDashing = (tickTimers dt g.player).isDashing ∧
      (frame dt inp g).player.dashTimer = tick g.player.dashTimer dt ∧
      (frame dt inp g).player.dashCooldownTimer = tick g.player.dashCooldownTimer dt) := by
  obtain ⟨f1, f2, f3, f4⟩ := frame_dash_fields dt inp g
  obtain ⟨d1, d2, _, d4⟩ := preDash_dash dt inp g
  by_cases hc : inp.btnDashJustPressed = true ∧ (preDash dt inp g).player.dashCooldownTimer ≤ 0 ∧
      (preDash dt inp g).player.isAttacking = false
  · obtain ⟨t1, t2, _, t4, t5, _⟩ := (preMotion_dashTrigger dt inp g).1 hc
    left
    rw [f1, f2, f3, f4, t1, t2, t4, t5]
    exact ⟨rfl, hc.1, d1 ▸ hc.2.1, rfl, rfl, rfl⟩
  · obtain ⟨t1, t2, t3, t4⟩ := (preMotion_dashTrigger dt inp g).2 hc
    right
    rw [f1, f2, f3, f4, t1, t2, t3, t4, d1, d2, d4]
    exact ⟨rfl, rfl, rfl, rfl⟩

/-- While the cooldown is longer than the frame time no dash triggers and the
cooldown goes down by the frame time. -/
theorem frame_cooling (dt : ℚ) (inp : Input) (g : Game) (h0 : 0 ≤ dt)
    (hc : dt < g.player.dashCooldownTimer) :
    (frame dt inp g).dashesTriggered = g.dashesTriggered ∧
    (frame dt inp g).player.dashCooldownTimer = g.player.dashCooldownTimer - dt := by
  have ht : tick g.player.dashCooldownTimer dt = g.player.dashCooldownTimer - dt := by
    have : 0 < g.player.dashCooldownTimer := lt_of_le_of_lt h0 hc
    simp [tick, this]
  rcases frame_dash_cases dt inp g with h | h
  · have := h.2.2.1
    rw [ht] at this
    linarith
  · exact ⟨h.1, by rw [h.2.2.2, ht]⟩

theorem run_cons (s : ℚ × Input) (steps : List (ℚ × Input)) (g : Game) :
    run (s :: steps) g = run steps (frame s.1 s.2 g) := rfl

theorem run_cooling (steps : List (ℚ × Input)) :
    ∀ g : Game, (∀ s ∈ steps, 0 ≤ s.1) →
      (steps.map Prod.fst).sum < g.player.dashCooldownTimer →
      (run steps g).dashesTriggered = g.dashesTriggered ∧
      (run steps g).player.dashCooldownTimer =
        g.player.dashCooldownTimer - (steps.map Prod.fst).sum := by
  induction steps with
  | nil => intro g _ _; simp [run]
  | cons s rest ih =>
    intro g hdt hsum
    have hs : 0 ≤ s.1 := hdt s (List.mem_cons_self _ _)
    have hrest : ∀ t ∈ rest, 0 ≤ t.1 := fun t ht => hdt t (List.mem_cons_of_mem _ ht)
    have hnn : 0 ≤ (rest.map Prod.fst).sum :=
      List.sum_nonneg (by
        intro x hx
        obtain ⟨t, ht, rfl⟩ := List.mem_map.mp hx
        exact hrest t ht)
    simp only [List.map_cons, List.sum_cons] at hsum ⊢
    obtain ⟨c1, c2⟩ := frame_cooling s.1 s.2 g hs (by linarith)
    obtain ⟨r1, r2⟩ := ih (frame s.1 s.2 g) hrest (by rw [c2]; linarith)
    rw [run_cons, r1, r2, c1, c2]
    exact ⟨rfl, by ring⟩

/-- The relation between the two dash timers while a dash lasts; it holds after
a trigger and every frame keeps it. -/
theorem frame_dashing_timers (dt : ℚ) (inp : Input) (g : Game)
    (hk : g.player.isDashing = true →
      g.player.dashCooldownTimer = g.player.dashTimer + 45 / 100 ∧ 0 < g.player.dashTimer) :
    (frame dt inp g).player.isDashing = true →
      (frame dt inp g).player.dashCooldownTimer = (frame dt inp g).player.dashTimer + 45 / 100 ∧
      0 < (frame dt inp g).player.dashTimer := by
  intro hD
  rcases frame_dash_cases dt inp g with h | h
  · rw [h.2.2.2.2.1, h.2.2.2.2.2]; norm_num
  · rw [h.2.1, tickTimers_isDashing] at hD
    obtain ⟨k1, k2⟩ := hk hD.1
    have hc : 0 < g.player.dashCooldownTimer := by linarith
    have t1 : tick g.player.dashTimer dt = g.player.dashTimer - dt := by simp [tick, k2]
    have t2 : tick g.player.dashCooldownTimer dt = g.player.dashCooldownTimer - dt := by
      simp [tick, hc]
    rw [h.2.2.1, h.2.2.2]
    refine ⟨?_, hD.2⟩
    rw [t1, t2, k1]
    ring

theorem run_dashing_timers (steps : List (ℚ × Input)) :
    ∀ g : Game,
      (g.player.isDashing = true →
        g.player.dashCooldownTimer = g.player.dashTimer + 45 / 100 ∧ 0 < g.player.dashTimer) →
      ((run steps g).player.isDashing = true →
        (run steps g).player.dashCooldownTimer = (run steps g).player.dashTimer + 45 / 100 ∧
        0 < (run steps g).player.dashTimer) := by
  induction steps with
  | nil => intro g hk; simpa [run] using hk
  | cons s rest ih =>
    intro g hk
    rw [run_cons]
    exact ih (frame s.1 s.2 g) (frame_dashing_timers s.1 s.2 g hk)

/-- A frame in which the player is still dashing after the tick does not trigger
a dash, given the relation between the two dash timers. -/
theorem frame_no_retrigger (dt : ℚ) (inp : Input) (g : Game)
    (hk : g.player.isDashing = true →
      g.player.dashCooldownTimer = g.player.dashTimer + 45 / 100 ∧ 0 < g.player.dashTimer)
    (hD : (tickTimers dt g.player).isDashing = true) :
    (frame dt inp g).dashesTriggered = g.dashesTriggered := by
  rw [tickTimers_isDashing] at hD
  obtain ⟨k1, k2⟩ := hk hD.1
  have hc : 0 < g.player.dashCooldownTimer := by linarith
  have ht := hD.2
  rcases frame_dash_cases dt inp g with h | h
  · have := h.2.2.1
    simp [tick, k2, hc] at this ht
    linarith
  · exact h.1


/-- The clamp of lines 398-399, on any player record. -/
theorem clamp_vx_bound (p1 : Player) :
    |(if (if p1.vx > MAX_SPEED then { p1 with vx := MAX_SPEED } else p1).vx < -MAX_SPEED then
        { (if p1.vx > MAX_SPEED then { p1 with vx := MAX_SPEED } else p1) with vx := -MAX_SPEED }
      else (if p1.vx > MAX_SPEED then { p1 with vx := MAX_SPEED } else p1)).vx| ≤ 300 := by
  rw [abs_le]
  simp only [MAX_SPEED]
  split_ifs <;> simp_all

/-- The clamp bounds the speed the `else` branch of the motion model leaves. -/
theorem horizontal_vx_bound (dt : ℚ) (inp : Input) (p : Player) :
    |(horizontal dt inp p).vx| ≤ 300 := by
  unfold horizontal
  exact clamp_vx_bound _

/-- The drift of the attack branch (line 362) does not increase the speed. -/
theorem attack_lerp_bound (v dt : ℚ) (h0 : 0 ≤ dt) (h1 : dt ≤ 1 / 20) (hv : |v| ≤ 300) :
    |Lerp v 0 (10 * dt)| ≤ 300 := by
  rw [abs_le] at hv ⊢
  unfold Lerp
  constructor <;> nlinarith [hv.1, hv.2]

theorem idleDeathCheck_vx (dt : ℚ) (t : Game) :
    (idleDeathCheck dt t).player.isAttacking = t.player.isAttacking ∧
    ((idleDeathCheck dt t).player.vx = t.player.vx ∨ (idleDeathCheck dt t).player.vx = 0) := by
  unfold idleDeathCheck
  dsimp only
  split_ifs <;> simp [callRespawn, Respawn]

/-- The speed with which an attacking player reaches the motion branch. -/
theorem preMotion_attack_vx (dt : ℚ) (inp : Input) (g : Game)
    (he : ¬ (g.player.isDashing = true ∧ g.player.isAttacking = true))
    (hv : g.player.isDashing = false → |g.player.vx| ≤ 300)
    (hA : (preMotion dt inp g).player.isAttacking = true) :
    |(preMotion dt inp g).player.vx| ≤ 300 := by
  have h1 : (idleDeathCheck dt (g.onPlayer (fun p => tickTimers dt (decayScale dt p)))).player.isAttacking
      = g.player.isAttacking ∧
      ((idleDeathCheck dt (g.onPlayer (fun p => tickTimers dt (decayScale dt p)))).player.vx
        = g.player.vx ∨
      (idleDeathCheck dt (g.onPlayer (fun p => tickTimers dt (decayScale dt p)))).player.vx
        = 0) := by
    have hi := idleDeathCheck_vx dt (g.onPlayer (fun p => tickTimers dt (decayScale dt p)))
    have ht : (tickTimers dt (decayScale dt g.player)).vx = g.player.vx ∧
        (tickTimers dt (decayScale dt g.player)).isAttacking = g.player.isAttacking := by
      simp [tickTimers, decayScale]
    have hg : (g.onPlayer (fun p => tickTimers dt (decayScale dt p))).player =
        tickTimers dt (decayScale dt g.player) := rfl
    rw [hg, ht.1, ht.2] at hi
    exact hi
  have h2 : (preMotion dt inp g).player.isAttacking = (preDash dt inp g).player.isAttacking ∧
      ((preMotion dt inp g).player.isAttacking = true →
        (preMotion dt inp g).player.vx = (preDash dt inp g).player.vx) := by
    simp only [preMotion, dashTrigger, jumpRequest, Game.onPlayer]
    cases hB : (preDash dt inp g).player.isAttacking <;> simp [hB]
  rw [h2.2 hA]
  rw [h2.1] at hA
  revert hA
  unfold preDash
  generalize idleDeathCheck dt (g.onPlayer (fun p => tickTimers dt (decayScale dt p))) = i at h1
  simp only [attackTrigger, Game.onPlayer]
  split_ifs with hc
  · intro _; simp
  · intro hA
    rw [h1.1] at hA
    have hD : g.player.isDashing = false := by
      cases h : g.player.isDashing
      · rfl
      · exact absurd ⟨h, hA⟩ he
    rcases h1.2 with h | h
    · rw [h]; exact hv hD
    · rw [h]; simp

theorem physics_vx (dt : ℚ) (m : Game) :
    (physics dt m).player.vx = m.player.vx ∨ (physics dt m).player.vx = 0 := by
  have hc : (groundCollision platform (integrate dt m.player)).vx = m.player.vx := by
    simp [groundCollision, integrate]
  unfold physics fallCheck
  simp only [Game.onPlayer]
  split_ifs
  · right; simp [callRespawn, Respawn]
  · left; exact hc

/-- One frame keeps the bound on the speed of a player who is not dashing. -/
theorem frame_vx_bound (dt : ℚ) (inp : Input) (g : Game) (h0 : 0 ≤ dt) (h1 : dt ≤ 1 / 20)
    (he : ¬ (g.player.isDashing = true ∧ g.player.isAttacking = true))
    (hv : g.player.isDashing = false → |g.player.vx| ≤ 300)
    (hD : (frame dt inp g).player.isDashing = false) :
    |(frame dt inp g).player.vx| ≤ 300 := by
  rw [(frame_dash_fields dt inp g).2.2.2] at hD
  have hm : |(motion dt inp (preMotion dt inp g)).player.vx| ≤ 300 := by
    cases hA : (preMotion dt inp g).player.isAttacking
    · simp only [motion, hA, hD, normalMotion, Game.onPlayer]
      simp [jumpExecution, gravity, classify, jumpCutoff]
      exact horizontal_vx_bound dt inp _
    · simp only [motion, hA, Game.onPlayer, attackMotion]
      exact attack_lerp_bound _ dt h0 h1 (preMotion_attack_vx dt inp g he hv hA)
  have hp := present_player dt (physics dt (motion dt inp (preMotion dt inp g)))
  simp only [frame]
  rw [hp.1]
  rcases physics_vx dt (motion dt inp (preMotion dt inp g)) with h | h
  · rw [h]; exact hm
  · rw [h]; simp

theorem reachable_vx (g : Game) (hr : Reachable g) :
    g.player.isDashing = false → |g.player.vx| ≤ 300 := by
  induction hr with
  | init => intro _; simp [initGame, initPlayer]
  | step g dt inp hg h0 h1 ih =>
    exact frame_vx_bound dt inp g h0 h1 (reachable_excl g hg) ih

theorem frame_no_dash_press (dt : ℚ) (inp : Input) (g : Game)
    (hD : g.player.isDashing = false) (hP : inp.btnDashJustPressed = false) :
    (frame dt inp g).player.isDashing = false := by
  rcases frame_dash_cases dt inp g with h | h
  · rw [hP] at h; simp at h
  · rw [h.2.1]
    cases ht : (tickTimers dt g.player).isDashing
    · rfl
    · rw [tickTimers_isDashing] at ht
      rw [hD] at ht; simp at ht

theorem run_no_dash_press (steps : List (ℚ × Input)) :
    ∀ g : Game, Reachable g → g.player.isDashing = false →
      (∀ s ∈ steps, 0 ≤ s.1 ∧ s.1 ≤ 1 / 20 ∧ s.2.btnDashJustPressed = false) →
      Reachable (run steps g) ∧ (run steps g).player.isDashing = false := by
  induction steps with
  | nil => intro g hr hD _; exact ⟨hr, hD⟩
  | cons s rest ih =>
    intro g hr hD hs
    obtain ⟨s0, s1, sP⟩ := hs s (List.mem_cons_self _ _)
    rw [run_cons]
    exact ih (frame s.1 s.2 g) (Reachable.step g s.1 s.2 hr s0 s1)
      (frame_no_dash_press s.1 s.2 g hD sP) (fun t ht => hs t (List.mem_cons_of_mem _ ht))

/-- C7: along every run from the initial state with arbitrary inputs and every
`dt` in `[0, 0.05]`, `|vx| ≤ MAX_SPEED` holds at the end of every frame in which
the player is not dashing; in particular, when no frame of the run has a dash
press, `|vx| ≤ MAX_SPEED` holds at the end of the run (of every such run, hence
at the end of every frame). -/
theorem vx_bounded :
    (∀ (g : Game) (dt : ℚ) (inp : Input), Reachable g → 0 ≤ dt → dt ≤ 1 / 20 →
      (frame dt inp g).player.isDashing = false → |(frame dt inp g).player.vx| ≤ MAX_SPEED) ∧
    (∀ steps : List (ℚ × Input),
      (∀ s ∈ steps, 0 ≤ s.1 ∧ s.1 ≤ 1 / 20 ∧ s.2.btnDashJustPressed = false) →
      |(run steps initGame).player.vx| ≤ MAX_SPEED) := by
  constructor
  · intro g dt inp hr h0 h1 hD
    exact reachable_vx _ (Reachable.step g dt inp hr h0 h1) hD
  · intro steps hs
    obtain ⟨hr, hD⟩ := run_no_dash_press steps initGame Reachable.init rfl hs
    exact reachable_vx _ hr hD

theorem vx_bounded_witness :
    |(frame (1 / 20) holdRight landed).player.vx| ≤ MAX_SPEED ∧
    |(run [(1 / 20, holdRight), (1 / 20, holdRight), (1 / 20, holdRight)] initGame).player.vx|
      ≤ MAX_SPEED :=
  ⟨vx_bounded.1 landed (1 / 20) holdRight reachable_landed (by norm_num) (by norm_num)
      (by with_unfolding_all decide),
    vx_bounded.2 [(1 / 20, holdRight), (1 / 20, holdRight), (1 / 20, holdRight)]
      (by
        intro s hs
        simp only [List.mem_cons, List.mem_singleton, List.not_mem_nil, or_false] at hs
        have h : s = (1 / 20, holdRight) := by tauto
        subst h
        exact ⟨by norm_num, by norm_num, rfl⟩)⟩

/-! ## Ground resolution and the overlap test -/

theorem footRect_eq (p : Player) :
    footRect p = { x := p.x + 30, y := p.y + 30, w := 20, h := 40 } := by
  simp only [footRect, DRAW_SIZE, SPRITE_OFFSET_Y]
  norm_num
  ring

/-- C8: with the foot rectangle `(x+30, y+30, 20, 40)` of the position handed to
the collision block (the integrated one in a frame), the player is snapped if
and only if the foot rectangle overlaps the platform, the penetration (foot
bottom minus platform top) is below 50 and `vy ≥ 0`.  On a snap
`y = platform.y - 70`, so that the foot bottom is the platform top, `vy = 0`
and `onGround = true`; otherwise `onGround = false` and `y`, `vy` stay as
integrated.  A penetration of 10 with `vy ≥ 0` snaps, one of 60 does not. -/
theorem ground_resolution (w : RectF) (p : Player) :
    footRect p = { x := p.x + 30, y := p.y + 30, w := 20, h := 40 } ∧
    ((groundCollision w p).onGround = true ↔
      checkCol (footRect p) w = true ∧ (footRect p).y + (footRect p).h - w.y < 50 ∧ p.vy ≥ 0) ∧
    ((groundCollision w p).onGround = true →
      (groundCollision w p).y = w.y - 70 ∧
      (footRect (groundCollision w p)).y + (footRect (groundCollision w p)).h = w.y ∧
      (groundCollision w p).vy = 0) ∧
    ((groundCollision w p).onGround = false →
      (groundCollision w p).y = p.y ∧ (groundCollision w p).vy = p.vy) ∧
    (checkCol (footRect p) w = true → p.vy ≥ 0 →
      (footRect p).y + (footRect p).h - w.y = 10 → (groundCollision w p).onGround = true) ∧
    (checkCol (footRect p) w = true → p.vy ≥ 0 →
      (footRect p).y + (footRect p).h - w.y = 60 → (groundCollision w p).onGround = false) := by
  have hf := footRect_eq
  by_cases hc : checkCol (footRect p) w = true
  · by_cases hs : p.vy ≥ 0 ∧ (footRect p).y + (footRect p).h - w.y < 50
    · have e : (groundCollision w p).y = w.y - 70 ∧ (groundCollision w p).vy = 0 ∧
          (groundCollision w p).onGround = true := by
        simp [groundCollision, hc, hs.1, hs.2, DRAW_SIZE, SPRITE_OFFSET_Y]
      refine ⟨hf p, ?_, ?_, ?_, ?_, ?_⟩
      · exact ⟨fun _ => ⟨hc, hs.2, hs.1⟩, fun _ => e.2.2⟩
      · intro _
        refine ⟨e.1, ?_, e.2.1⟩
        rw [hf, e.1]
        ring
      · intro h
        rw [e.2.2] at h
        exact absurd h (by decide)
      · intro _ _ _
        exact e.2.2
      · intro _ _ h60
        have := hs.2
        rw [h60] at this
        norm_num at this
    · have e : (groundCollision w p).y = p.y ∧ (groundCollision w p).vy = p.vy ∧
          (groundCollision w p).onGround = false := by
        simp [groundCollision, hc, hs]
      refine ⟨hf p, ?_, ?_, ?_, ?_, ?_⟩
      · rw [e.2.2]
        exact ⟨fun h => absurd h (by decide), fun h => absurd ⟨h.2.2, h.2.1⟩ hs⟩
      · intro h
        rw [e.2.2] at h
        exact absurd h (by decide)
      · intro _
        exact ⟨e.1, e.2.1⟩
      · intro _ hv h10
        exact absurd ⟨hv, by rw [h10]; norm_num⟩ hs
      · intro _ _ _
        exact e.2.2
  · have e : (groundCollision w p).y = p.y ∧ (groundCollision w p).vy = p.vy ∧
        (groundCollision w p).onGround = false := by
      simp [groundCollision, hc]
    refine ⟨hf p, ?_, ?_, ?_, ?_, ?_⟩
    · rw [e.2.2]
      exact ⟨fun h => absurd h (by decide), fun h => absurd h.1 hc⟩
    · intro h
      rw [e.2.2] at h
      exact absurd h (by decide)
    · intro _
      exact ⟨e.1, e.2.1⟩
    · intro h; exact absurd h hc
    · intro h; exact absurd h hc

/-- C8 at the two scenarios: a resting player 10 units into the platform is
snapped, one 60 units in is not. -/
theorem ground_resolution_witness :
    checkCol (footRect { initPlayer with y := 220 }) platform = true ∧
    (groundCollision platform { initPlayer with y := 220 }).onGround = true ∧
    (groundCollision platform { initPlayer with y := 220 }).y = 210 ∧
    checkCol (footRect { initPlayer with y := 270 }) platform = true ∧
    (groundCollision platform { initPlayer with y := 270 }).onGround = false ∧
    (groundCollision platform { initPlayer with y := 270 }).y = 270 := by
  have h1 := ground_resolution platform { initPlayer with y := 220 }
  have h2 := ground_resolution platform { initPlayer with y := 270 }
  have c1 : checkCol (footRect { initPlayer with y := 220 }) platform = true := by
    with_unfolding_all decide
  have c2 : checkCol (footRect { initPlayer with y := 270 }) platform = true := by
    with_unfolding_all decide
  have g1 := h1.2.2.2.2.1 c1 (by with_unfolding_all decide) (by with_unfolding_all decide)
  have g2 := h2.2.2.2.2.2 c2 (by with_unfolding_all decide) (by with_unfolding_all decide)
  refine ⟨c1, g1, ?_, c2, g2, (h2.2.2.2.1 g2).1⟩
  rw [(h1.2.2.1 g1).1]
  norm_num [platform]

/-- C9: for rectangles of positive width and height, `checkCol a b` holds
exactly when the half-open boxes `[a.x, a.x+a.w) × [a.y, a.y+a.h)` and
`[b.x, b.x+b.w) × [b.y, b.y+b.h)` share a point, that is when
`a.x < b.x+b.w`, `a.x+a.w > b.x`, `a.y < b.y+b.h` and `a.y+a.h > b.y`; hence
`checkCol` is symmetric and rectangles that only touch along an edge (or at a
corner) do not overlap. -/
theorem checkCol_half_open (a b : RectF) (haw : 0 < a.w) (hah : 0 < a.h) (hbw : 0 < b.w)
    (hbh : 0 < b.h) :
    (checkCol a b = true ↔
      ∃ x y : ℚ, (a.x ≤ x ∧ x < a.x + a.w ∧ a.y ≤ y ∧ y < a.y + a.h) ∧
        (b.x ≤ x ∧ x < b.x + b.w ∧ b.y ≤ y ∧ y < b.y + b.h)) ∧
    (checkCol a b = true ↔
      a.x < b.x + b.w ∧ a.x + a.w > b.x ∧ a.y < b.y + b.h ∧ a.y + a.h > b.y) ∧
    checkCol a b = checkCol b a ∧
    (a.x + a.w = b.x ∨ b.x + b.w = a.x ∨ a.y + a.h = b.y ∨ b.y + b.h = a.y →
      checkCol a b = false) := by
  have hiff : checkCol a b = true ↔
      a.x < b.x + b.w ∧ a.x + a.w > b.x ∧ a.y < b.y + b.h ∧ a.y + a.h > b.y := by
    simp [checkCol]
  have hiff2 : checkCol b a = true ↔
      b.x < a.x + a.w ∧ b.x + b.w > a.x ∧ b.y < a.y + a.h ∧ b.y + b.h > a.y := by
    simp [checkCol]
  refine ⟨?_, hiff, ?_, ?_⟩
  · rw [hiff]
    constructor
    · rintro ⟨h1, h2, h3, h4⟩
      refine ⟨max a.x b.x, max a.y b.y, ⟨le_max_left _ _, ?_, le_max_left _ _, ?_⟩,
        ⟨le_max_right _ _, ?_, le_max_right _ _, ?_⟩⟩
      · exact max_lt (by linarith) (by linarith)
      · exact max_lt (by linarith) (by linarith)
      · exact max_lt (by linarith) (by linarith)
      · exact max_lt (by linarith) (by linarith)
    · rintro ⟨x, y, ⟨a1, a2, a3, a4⟩, ⟨b1, b2, b3, b4⟩⟩
      refine ⟨?_, ?_, ?_, ?_⟩ <;> linarith
  · rw [Bool.eq_iff_iff, hiff, hiff2]
    constructor
    · rintro ⟨h1, h2, h3, h4⟩; exact ⟨h2, h1, h4, h3⟩
    · rintro ⟨h1, h2, h3, h4⟩; exact ⟨h2, h1, h4, h3⟩
  · intro h
    rw [← Bool.not_eq_true, hiff]
    rintro ⟨h1, h2, h3, h4⟩
    rcases h with h | h | h | h <;> linarith

theorem checkCol_half_open_witness :
    checkCol { x := 80, y := 250, w := 20, h := 40 } platform = true ∧
    checkCol { x := 80, y := 240, w := 20, h := 40 } platform = false :=
  have h := checkCol_half_open { x := 80, y := 240, w := 20, h := 40 } platform
    (by norm_num) (by norm_num) (by norm_num [platform]) (by norm_num [platform])
  have h2 := checkCol_half_open { x := 80, y := 250, w := 20, h := 40 } platform
    (by norm_num) (by norm_num) (by norm_num [platform]) (by norm_num [platform])
  ⟨h2.2.1.mpr (by norm_num [platform]), h.2.2.2 (Or.inr (Or.inr (Or.inl (by norm_num [platform]))))⟩

/-! ## Idle death -/

theorem inputDir_noInput : inputDir noInput = 0 := by
  simp [inputDir, noInput]

/-- Lines 320-359 of a frame without input on a player who is neither dashing
nor attacking and has no jump buffered: when the idle check does not respawn. -/
theorem preMotion_idle (dt : ℚ) (g : Game)
    (hD : g.player.isDashing = false) (hA : g.player.isAttacking = false)
    (hb : g.player.jumpBufferTimer ≤ 0)
    (hn : ¬ (isMoving g.player = false ∧ g.player.idleDeathTimer - dt ≤ 0)) :
    (preMotion dt noInput g).player.x = g.player.x ∧
    (preMotion dt noInput g).player.y = g.player.y ∧
    (preMotion dt noInput g).player.vx = g.player.vx ∧
    (preMotion dt noInput g).player.vy = g.player.vy ∧
    (preMotion dt noInput g).player.onGround = g.player.onGround ∧
    (preMotion dt noInput g).player.isDashing = false ∧
    (preMotion dt noInput g).player.isAttacking = false ∧
    (preMotion dt noInput g).player.jumpBufferTimer ≤ 0 ∧
    (preMotion dt noInput g).player.startY = g.player.startY ∧
    (preMotion dt noInput g).player.idleDeathTimer =
      (if isMoving g.player then 15 / 10 else g.player.idleDeathTimer - dt) ∧
    (preMotion dt noInput g).respawnCalls = g.respawnCalls := by
  have hm : isMoving (tickTimers dt (decayScale dt g.player)) = isMoving g.player := by
    simp [isMoving, tickTimers, decayScale, hD]
  have hi : (tickTimers dt (decayScale dt g.player)).idleDeathTimer = g.player.idleDeathTimer := by
    simp [tickTimers, decayScale]
  have hbt : tick g.player.jumpBufferTimer dt ≤ 0 := by
    simp [tick, not_lt.mpr hb, hb]
  cases hmv : isMoving g.player
  · have hn2 : ¬ (g.player.idleDeathTimer - dt ≤ 0) := fun h => hn ⟨hmv, h⟩
    simp [preMotion, preDash, dashTrigger, jumpRequest, jumpRequested, attackTrigger,
      idleDeathCheck, Game.onPlayer, noInput, hm, hmv, hi, hn2, IDLE_DEATH_TIME]
    simp [tickTimers, decayScale, hD, hA, hbt]
  · simp [preMotion, preDash, dashTrigger, jumpRequest, jumpRequested, attackTrigger,
      idleDeathCheck, Game.onPlayer, noInput, hm, hmv, IDLE_DEATH_TIME]
    simp [tickTimers, decayScale, hD, hA, hbt]

/-- Lines 361-418 of a frame without input on a player who is neither dashing
nor attacking, has no jump buffered and is not moving upwards. -/
theorem motion_idle (dt : ℚ) (q : Game)
    (hD : q.player.isDashing = false) (hA : q.player.isAttacking = false)
    (hb : q.player.jumpBufferTimer ≤ 0) (hv : 0 ≤ q.player.vy) :
    (motion dt noInput q).player.x = q.player.x ∧
    (motion dt noInput q).player.y = q.player.y ∧
    (q.player.vx = 0 → (motion dt noInput q).player.vx = 0) ∧
    (motion dt noInput q).player.vy = q.player.vy + 3200 * dt ∧
    (motion dt noInput q).player.onGround = q.player.onGround ∧
    (motion dt noInput q).player.isDashing = false ∧
    (motion dt noInput q).player.isAttacking = false ∧
    (motion dt noInput q).player.jumpBufferTimer = q.player.jumpBufferTimer ∧
    (motion dt noInput q).player.startY = q.player.startY ∧
    (motion dt noInput q).player.idleDeathTimer = q.player.idleDeathTimer ∧
    (motion dt noInput q).respawnCalls = q.respawnCalls := by
  have hh : (horizontal dt noInput q.player).jumpBufferTimer = q.player.jumpBufferTimer :=
    (horizontal_timers dt noInput q.player).1
  have hj : ¬ ((horizontal dt noInput q.player).jumpBufferTimer > 0 ∧
      (horizontal dt noInput q.player).coyoteTimer > 0) := by
    rw [hh]; intro h; linarith [h.1]
  have hvy : (horizontal dt noInput q.player).vy = q.player.vy := by simp [horizontal]
  have hc : ¬ (q.player.vy < -200) := by intro h; linarith
  have hx : q.player.vx = 0 → (horizontal dt noInput q.player).vx = 0 := by
    intro h0
    simp [horizontal, inputDir_noInput, h0, MAX_SPEED]
    norm_num
  simp only [motion, hA, hD, normalMotion, Game.onPlayer, jumpExecution, hj]
  simp [gravity, classify, jumpCutoff, hvy, hc, GRAVITY]
  refine ⟨?_, ?_, hx, ?_, ?_, ?_, ?_, ?_, ?_⟩ <;> simp [horizontal, inputDir_noInput, hD, hA]


theorem groundCollision_keep (w : RectF) (p : Player) :
    (groundCollision w p).x = p.x ∧ (groundCollision w p).vx = p.vx ∧
    (groundCollision w p).startY = p.startY ∧
    (groundCollision w p).idleDeathTimer = p.idleDeathTimer ∧
    (groundCollision w p).jumpBufferTimer = p.jumpBufferTimer ∧
    (groundCollision w p).isDashing = p.isDashing ∧
    (groundCollision w p).isAttacking = p.isAttacking := by
  simp [groundCollision]

/-- The two outcomes of the collision block against the platform of `main`, in
terms of the player position. -/
theorem groundCollision_platform (p : Player) :
    (-100 < p.x ∧ p.x < 1920 ∧ 210 < p.y ∧ p.y < 260 ∧ 0 ≤ p.vy →
      (groundCollision platform p).y = 210 ∧ (groundCollision platform p).vy = 0 ∧
      (groundCollision platform p).onGround = true) ∧
    (¬ (-100 < p.x ∧ p.x < 1920 ∧ 210 < p.y ∧ p.y < 260 ∧ 0 ≤ p.vy) →
      (groundCollision platform p).y = p.y ∧ (groundCollision platform p).vy = p.vy ∧
      (groundCollision platform p).onGround = false) := by
  have hc : checkCol (footRect p) platform = true ↔
      -100 < p.x ∧ p.x < 1920 ∧ 210 < p.y ∧ p.y < 330 := by
    rw [footRect_eq]
    simp only [checkCol, platform, decide_eq_true_eq]
    constructor
    · rintro ⟨h1, h2, h3, h4⟩
      refine ⟨?_, ?_, ?_, ?_⟩ <;> linarith
    · rintro ⟨h1, h2, h3, h4⟩
      refine ⟨?_, ?_, ?_, ?_⟩ <;> linarith
  have hpen : (footRect p).y + (footRect p).h - platform.y = p.y - 210 := by
    rw [footRect_eq]; simp only [platform]; ring
  constructor
  · rintro ⟨h1, h2, h3, h4, h5⟩
    have c := hc.mpr ⟨h1, h2, h3, by linarith⟩
    have hs : p.vy ≥ 0 ∧ (footRect p).y + (footRect p).h - platform.y < 50 :=
      ⟨h5, by rw [hpen]; linarith⟩
    simp only [groundCollision, c, hs, if_true, and_self]
    simp [platform, DRAW_SIZE, SPRITE_OFFSET_Y]
    norm_num
  · intro hn
    by_cases c : checkCol (footRect p) platform = true
    · have hs : ¬ (p.vy ≥ 0 ∧ (footRect p).y + (footRect p).h - platform.y < 50) := by
        rintro ⟨h5, h6⟩
        rw [hpen] at h6
        obtain ⟨h1, h2, h3, _⟩ := hc.mp c
        exact hn ⟨h1, h2, h3, by linarith, h5⟩
      simp [groundCollision, c, hs]
    · simp [groundCollision, c]

theorem physics_of_not_fallen (dt : ℚ) (m : Game)
    (h : (groundCollision platform (integrate dt m.player)).y ≤ 600) :
    (physics dt m).player = groundCollision platform (integrate dt m.player) ∧
    (physics dt m).respawnCalls = m.respawnCalls := by
  simp [physics, fallCheck, Game.onPlayer, not_lt.mpr h]


theorem present_not_attacking (dt : ℚ) (g : Game) (h : g.player.isAttacking = false) :
    (present dt g).player.isAttacking = false := by
  cases hp : (present dt g).player.isAttacking
  · rfl
  · rw [present_isAttacking dt g hp] at h
    exact absurd h (by decide)

/-- A frame without input on the resting player whose idle countdown outlasts
the frame: the player is at rest again and the countdown is `dt` shorter. -/
theorem frame_rest_alive (dt : ℚ) (g : Game) (h0 : 0 < dt) (h1 : dt ≤ 1 / 20)
    (hr : AtRest g.player) (hb : g.player.jumpBufferTimer ≤ 0)
    (hi : dt < g.player.idleDeathTimer) :
    AtRest (frame dt noInput g).player ∧ (frame dt noInput g).player.jumpBufferTimer ≤ 0 ∧
    (frame dt noInput g).player.startY = g.player.startY ∧
    (frame dt noInput g).player.idleDeathTimer = g.player.idleDeathTimer - dt ∧
    (frame dt noInput g).respawnCalls = g.respawnCalls := by
  obtain ⟨rx, ry, rvx, rvy, rg, rD, rA⟩ := hr
  have hmv : isMoving g.player = false := by simp [isMoving, rvx, rD, rA, rg]
  obtain ⟨qx, qy, qvx, qvy, qg, qD, qA, qb, qs, qi, qr⟩ :=
    preMotion_idle dt g rD rA hb (fun h => by linarith [h.2])
  obtain ⟨mx, my, mvx, mvy, mg, mD, mA, mb, ms, mi, mr⟩ :=
    motion_idle dt (preMotion dt noInput g) qD qA qb (by rw [qvy, rvy])
  have hpl : platform.y - 70 = 210 := by norm_num [platform]
  rw [hpl] at ry
  have ix : (integrate dt (motion dt noInput (preMotion dt noInput g)).player).x = 50 := by
    simp [integrate, mx, qx, rx, mvx (qvx.trans rvx)]
  have iy : (integrate dt (motion dt noInput (preMotion dt noInput g)).player).y =
      210 + 3200 * dt * dt := by
    simp [integrate, my, qy, ry, mvy, qvy, rvy]
  have ivy : (integrate dt (motion dt noInput (preMotion dt noInput g)).player).vy =
      3200 * dt := by
    simp [integrate, mvy, qvy, rvy]
  have hdd : 0 < dt * dt := mul_pos h0 h0
  have hdd2 : dt * dt ≤ 1 / 400 := by nlinarith
  obtain ⟨cy, cvy, cg⟩ := (groundCollision_platform
    (integrate dt (motion dt noInput (preMotion dt noInput g)).player)).1
    ⟨by rw [ix]; norm_num, by rw [ix]; norm_num, by rw [iy]; linarith, by rw [iy]; linarith,
      by rw [ivy]; linarith⟩
  obtain ⟨kx, kvx, ks, ki, kb, kD, kA⟩ := groundCollision_keep platform
    (integrate dt (motion dt noInput (preMotion dt noInput g)).player)
  obtain ⟨pp, pr⟩ := physics_of_not_fallen dt (motion dt noInput (preMotion dt noInput g))
    (by rw [cy]; norm_num)
  have hp := present_player dt (physics dt (motion dt noInput (preMotion dt noInput g)))
  have hc := present_counters dt (physics dt (motion dt noInput (preMotion dt noInput g)))
  have hna := present_not_attacking dt (physics dt (motion dt noInput (preMotion dt noInput g)))
    (by rw [pp, kA]; simpa [integrate] using mA)
  have ivx : (integrate dt (motion dt noInput (preMotion dt noInput g)).player).vx = 0 := by
    simp [integrate, mvx (qvx.trans rvx)]
  simp only [frame]
  refine ⟨⟨?_, ?_, ?_, ?_, ?_, ?_, hna⟩, ?_, ?_, ?_, ?_⟩
  · rw [hp.2.2.1, pp, kx, ix]
  · rw [hp.2.2.2.1, pp, cy, hpl]
  · rw [hp.1, pp, kvx, ivx]
  · rw [hp.2.1, pp, cvy]
  · rw [hp.2.2.2.2.2.2.1, pp, cg]
  · rw [hp.2.2.2.2.2.2.2.2.1, pp, kD]; simpa [integrate] using mD
  · rw [hp.2.2.2.2.2.2.2.2.2.2.1, pp, kb]; simpa [integrate, mb] using qb
  · rw [hp.2.2.2.2.2.1, pp, ks]; simpa [integrate, ms] using qs
  · rw [hp.2.2.2.2.2.2.2.2.2.2.2.2.2, pp, ki]
    simp [integrate, mi, qi, hmv]
  · rw [hc.1, pr, mr, qr]

/-- Lines 320-359 of a frame without input in which the idle check respawns. -/
theorem preMotion_idle_death (dt : ℚ) (g : Game)
    (hD : g.player.isDashing = false) (hA : g.player.isAttacking = false)
    (hb : g.player.jumpBufferTimer ≤ 0)
    (hm : isMoving g.player = false) (hi : g.player.idleDeathTimer - dt ≤ 0) :
    (preMotion dt noInput g).player.y = g.player.startY ∧
    (preMotion dt noInput g).player.vy = 0 ∧
    (preMotion dt noInput g).player.onGround = g.player.onGround ∧
    (preMotion dt noInput g).player.isDashing = false ∧
    (preMotion dt noInput g).player.isAttacking = false ∧
    (preMotion dt noInput g).player.jumpBufferTimer ≤ 0 ∧
    (preMotion dt noInput g).player.startY = g.player.startY ∧
    (preMotion dt noInput g).player.idleDeathTimer = 15 / 10 ∧
    (preMotion dt noInput g).respawnCalls = g.respawnCalls + 1 := by
  have hm2 : isMoving (tickTimers dt (decayScale dt g.player)) = false := by
    rw [← hm]; simp [isMoving, tickTimers, decayScale, hD]
  have hi2 : (tickTimers dt (decayScale dt g.player)).idleDeathTimer = g.player.idleDeathTimer := by
    simp [tickTimers, decayScale]
  have hbt : tick g.player.jumpBufferTimer dt ≤ 0 := by
    simp [tick, not_lt.mpr hb, hb]
  simp [preMotion, preDash, dashTrigger, jumpRequest, jumpRequested, attackTrigger,
    idleDeathCheck, callRespawn, Respawn, Game.onPlayer, noInput, hm2, hi2, hi, IDLE_DEATH_TIME]
  simp [tickTimers, decayScale, hD, hA, hbt]


/-- The frame without input in which the idle countdown of the resting player
runs out: `Respawn` is called once and the player starts to settle. -/
theorem frame_rest_death (dt : ℚ) (g : Game) (h0 : 0 < dt) (h1 : dt ≤ 1 / 20)
    (hr : AtRest g.player) (hb : g.player.jumpBufferTimer ≤ 0) (hs : g.player.startY = 200)
    (hi : g.player.idleDeathTimer ≤ dt) :
    Settling dt 0 (frame dt noInput g).player ∧
    (frame dt noInput g).respawnCalls = g.respawnCalls + 1 := by
  obtain ⟨rx, ry, rvx, rvy, rg, rD, rA⟩ := hr
  have hmv : isMoving g.player = false := by simp [isMoving, rvx, rD, rA, rg]
  obtain ⟨qy, qvy, qg, qD, qA, qb, qs, qi, qr⟩ :=
    preMotion_idle_death dt g rD rA hb hmv (by linarith)
  obtain ⟨mx, my, mvx, mvy, mg, mD, mA, mb, ms, mi, mr⟩ :=
    motion_idle dt (preMotion dt noInput g) qD qA qb (by rw [qvy])
  have iy : (integrate dt (motion dt noInput (preMotion dt noInput g)).player).y =
      200 + 3200 * dt * dt := by
    simp [integrate, my, qy, hs, mvy, qvy]
  have ivy : (integrate dt (motion dt noInput (preMotion dt noInput g)).player).vy =
      3200 * dt := by
    simp [integrate, mvy, qvy]
  have hdd : 0 < dt * dt := mul_pos h0 h0
  have hdd2 : dt * dt ≤ 1 / 400 := by nlinarith
  obtain ⟨cy, cvy, cg⟩ := (groundCollision_platform
    (integrate dt (motion dt noInput (preMotion dt noInput g)).player)).2
    (by rw [iy]; intro h; linarith [h.2.2.1])
  obtain ⟨kx, kvx, ks, ki, kb, kD, kA⟩ := groundCollision_keep platform
    (integrate dt (motion dt noInput (preMotion dt noInput g)).player)
  obtain ⟨pp, pr⟩ := physics_of_not_fallen dt (motion dt noInput (preMotion dt noInput g))
    (by rw [cy, iy]; linarith)
  have hp := present_player dt (physics dt (motion dt noInput (preMotion dt noInput g)))
  have hc := present_counters dt (physics dt (motion dt noInput (preMotion dt noInput g)))
  have hna := present_not_attacking dt (physics dt (motion dt noInput (preMotion dt noInput g)))
    (by rw [pp, kA]; simpa [integrate] using mA)
  simp only [frame]
  refine ⟨⟨?_, ?_, ?_, ?_, ?_, hna, ?_, ?_⟩, ?_⟩
  · rw [hp.2.2.2.1, pp, cy, iy]; linarith
  · rw [hp.2.1, pp, cvy, ivy]; linarith
  · rw [hp.2.1, pp, cvy, ivy]; linarith
  · rw [hp.2.2.2.2.2.2.2.2.2.2.2.2.2, pp, ki]
    simp [integrate, mi, qi]
  · rw [hp.2.2.2.2.2.2.2.2.1, pp, kD]; simpa [integrate] using mD
  · rw [hp.2.2.2.2.2.2.2.2.2.2.1, pp, kb]; simpa [integrate, mb] using qb
  · rw [hp.2.2.2.2.2.1, pp, ks]; simpa [integrate, ms, qs] using hs
  · rw [hc.1, pr, mr, qr]

/-- A frame without input on the settling player, within a tenth of a second
of the respawn: no call of `Respawn`, and the player keeps settling. -/
theorem frame_settling (dt e : ℚ) (g : Game) (h0 : 0 < dt) (h1 : dt ≤ 1 / 20) (he0 : 0 ≤ e)
    (he : e + dt ≤ 1 / 10) (hs : Settling dt e g.player) :
    Settling dt (e + dt) (frame dt noInput g).player ∧
    (frame dt noInput g).respawnCalls = g.respawnCalls := by
  obtain ⟨sy, sv0, sv1, si, sD, sA, sb, ss⟩ := hs
  obtain ⟨qx, qy, qvx, qvy, qg, qD, qA, qb, qs, qi, qr⟩ :=
    preMotion_idle dt g sD sA sb (fun h => by linarith [h.2])
  obtain ⟨mx, my, mvx, mvy, mg, mD, mA, mb, ms, mi, mr⟩ :=
    motion_idle dt (preMotion dt noInput g) qD qA qb (by rw [qvy]; exact sv0)
  have iy : (integrate dt (motion dt noInput (preMotion dt noInput g)).player).y =
      g.player.y + (g.player.vy + 3200 * dt) * dt := by
    simp [integrate, my, qy, mvy, qvy]
  have ivy : (integrate dt (motion dt noInput (preMotion dt noInput g)).player).vy =
      g.player.vy + 3200 * dt := by
    simp [integrate, mvy, qvy]
  have hv480 : g.player.vy + 3200 * dt ≤ 480 := by linarith
  have hvd : (g.player.vy + 3200 * dt) * dt ≤ 480 * dt :=
    mul_le_mul_of_nonneg_right hv480 h0.le
  have hvd0 : 0 ≤ (g.player.vy + 3200 * dt) * dt := mul_nonneg (by linarith) h0.le
  have hcy : (groundCollision platform
      (integrate dt (motion dt noInput (preMotion dt noInput g)).player)).y ≤
        210 + 480 * (e + dt) ∧
      0 ≤ (groundCollision platform
        (integrate dt (motion dt noInput (preMotion dt noInput g)).player)).vy ∧
      (groundCollision platform
        (integrate dt (motion dt noInput (preMotion dt noInput g)).player)).vy ≤
        3200 * (e + dt + dt) := by
    by_cases hc : -100 < (integrate dt (motion dt noInput (preMotion dt noInput g)).player).x ∧
        (integrate dt (motion dt noInput (preMotion dt noInput g)).player).x < 1920 ∧
        210 < (integrate dt (motion dt noInput (preMotion dt noInput g)).player).y ∧
        (integrate dt (motion dt noInput (preMotion dt noInput g)).player).y < 260 ∧
        0 ≤ (integrate dt (motion dt noInput (preMotion dt noInput g)).player).vy
    · obtain ⟨cy, cvy, _⟩ := (groundCollision_platform _).1 hc
      rw [cy, cvy]
      refine ⟨by linarith, le_refl _, by linarith⟩
    · obtain ⟨cy, cvy, _⟩ := (groundCollision_platform _).2 hc
      rw [cy, cvy, iy, ivy]
      refine ⟨by linarith, by linarith, by linarith⟩
  obtain ⟨kx, kvx, ks, ki, kb, kD, kA⟩ := groundCollision_keep platform
    (integrate dt (motion dt noInput (preMotion dt noInput g)).player)
  obtain ⟨pp, pr⟩ := physics_of_not_fallen dt (motion dt noInput (preMotion dt noInput g))
    (by linarith [hcy.1])
  have hp := present_player dt (physics dt (motion dt noInput (preMotion dt noInput g)))
  have hc := present_counters dt (physics dt (motion dt noInput (preMotion dt noInput g)))
  have hna := present_not_attacking dt (physics dt (motion dt noInput (preMotion dt noInput g)))
    (by rw [pp, kA]; simpa [integrate] using mA)
  simp only [frame]
  refine ⟨⟨?_, ?_, ?_, ?_, ?_, hna, ?_, ?_⟩, ?_⟩
  · rw [hp.2.2.2.1, pp]; exact hcy.1
  · rw [hp.2.1, pp]; exact hcy.2.1
  · rw [hp.2.1, pp]; exact hcy.2.2
  · rw [hp.2.2.2.2.2.2.2.2.2.2.2.2.2, pp, ki]
    simp only [integrate, mi, qi]
    split_ifs <;> linarith
  · rw [hp.2.2.2.2.2.2.2.2.1, pp, kD]; simpa [integrate] using mD
  · rw [hp.2.2.2.2.2.2.2.2.2.2.1, pp, kb]; simpa [integrate, mb] using qb
  · rw [hp.2.2.2.2.2.1, pp, ks]; simpa [integrate, ms, qs] using ss
  · rw [hc.1, pr, mr, qr]


theorem idleFrames_succ (dt : ℚ) (k : Nat) :
    ∀ g : Game, idleFrames dt (k + 1) g = frame dt noInput (idleFrames dt k g) := by
  induction k with
  | zero => intro g; rfl
  | succ k ih =>
    intro g
    have h : ∀ (j : Nat) (s : Game),
        idleFrames dt (j + 1) s = idleFrames dt j (frame dt noInput s) := by
      intro j s
      simp [idleFrames, List.replicate_succ, run_cons]
    rw [h (k + 1) g, ih (frame dt noInput g), ← h k g]

theorem idleFrames_add (dt : ℚ) (j k : Nat) (g : Game) :
    idleFrames dt (k + j) g = idleFrames dt j (idleFrames dt k g) := by
  induction j with
  | zero => rfl
  | succ j ih => rw [← Nat.add_assoc, idleFrames_succ, idleFrames_succ, ih]

/-- The resting player stays at rest, without a call of `Respawn`, for as many
frames without input as fit strictly into the idle countdown. -/
theorem rest_run (dt : ℚ) (g : Game) (h0 : 0 < dt) (h1 : dt ≤ 1 / 20)
    (hr : AtRest g.player) (hb : g.player.jumpBufferTimer ≤ 0) (k : Nat) :
    (k : ℚ) * dt < g.player.idleDeathTimer →
      AtRest (idleFrames dt k g).player ∧ (idleFrames dt k g).player.jumpBufferTimer ≤ 0 ∧
      (idleFrames dt k g).player.startY = g.player.startY ∧
      (idleFrames dt k g).player.idleDeathTimer = g.player.idleDeathTimer - k * dt ∧
      (idleFrames dt k g).respawnCalls = g.respawnCalls := by
  induction k with
  | zero => intro _; exact ⟨hr, hb, rfl, by simp [idleFrames, run], rfl⟩
  | succ k ih =>
    intro hk
    push_cast at hk
    obtain ⟨a1, a2, a3, a4, a5⟩ := ih (by nlinarith)
    obtain ⟨b1, b2, b3, b4, b5⟩ := frame_rest_alive dt (idleFrames dt k g) h0 h1 a1 a2
      (by rw [a4]; linarith)
    rw [idleFrames_succ]
    refine ⟨b1, b2, b3.trans a3, ?_, b5.trans a5⟩
    rw [b4, a4]; push_cast; ring

/-- The settling player settles, without a call of `Respawn`, for as many
frames without input as fit into a tenth of a second. -/
theorem settling_run (dt : ℚ) (g : Game) (h0 : 0 < dt) (h1 : dt ≤ 1 / 20)
    (hs : Settling dt 0 g.player) (j : Nat) :
    (j : ℚ) * dt ≤ 1 / 10 →
      Settling dt (j * dt) (idleFrames dt j g).player ∧
      (idleFrames dt j g).respawnCalls = g.respawnCalls := by
  induction j with
  | zero => intro _; exact ⟨by simpa [idleFrames, run] using hs, rfl⟩
  | succ j ih =>
    intro hj
    push_cast at hj
    have hjd : 0 ≤ (j : ℚ) * dt := mul_nonneg (Nat.cast_nonneg j) h0.le
    obtain ⟨a1, a2⟩ := ih (by linarith)
    obtain ⟨b1, b2⟩ := frame_settling dt (j * dt) (idleFrames dt j g) h0 h1 hjd
      (by linarith) a1
    rw [idleFrames_succ]
    refine ⟨?_, b2.trans a2⟩
    have : ((j + 1 : Nat) : ℚ) * dt = j * dt + dt := by push_cast; ring
    rw [this]; exact b1

/-- Before the motion branch `vy` changes only through a respawn or a dash
trigger. -/
theorem preMotion_vy (dt : ℚ) (inp : Input) (g : Game)
    (hr : (preMotion dt inp g).respawnCalls = g.respawnCalls)
    (hD : (preMotion dt inp g).dashesTriggered = g.dashesTriggered) :
    (preMotion dt inp g).player.vy = g.player.vy := by
  have h1 : (preDash dt inp g).respawnCalls = g.respawnCalls ∨
      (preDash dt inp g).respawnCalls = g.respawnCalls + 1 := by
    simp only [preDash, Game.onPlayer, idleDeathCheck]
    split_ifs <;> simp [callRespawn]
  have h2 : (preDash dt inp g).respawnCalls = g.respawnCalls →
      (preDash dt inp g).player.vy = g.player.vy := by
    simp only [preDash, Game.onPlayer, idleDeathCheck]
    split_ifs <;> simp [callRespawn, attackTrigger, tickTimers, decayScale]
  have h3 : (preMotion dt inp g).respawnCalls = (preDash dt inp g).respawnCalls := by
    simp [preMotion, dashTrigger, Game.onPlayer]
  rw [h3] at hr
  rw [← (preDash_dash dt inp g).2.2.1] at hD
  have h4 := h2 hr
  rw [← h4]
  revert hD
  simp only [preMotion, dashTrigger, jumpRequest, Game.onPlayer]
  by_cases hc : inp.btnDashJustPressed = true ∧ (preDash dt inp g).player.dashCooldownTimer ≤ 0 ∧
      (preDash dt inp g).player.isAttacking = false
  · simp [hc]
  · simp [hc]

/-- The `else` branch of the motion model when the jump block does not run. -/
theorem motion_no_jump (dt : ℚ) (inp : Input) (q : Game)
    (hA : q.player.isAttacking = false) (hD : q.player.isDashing = false)
    (hj : (motion dt inp q).jumpsFired = q.jumpsFired) :
    (motion dt inp q).player.vy =
      (jumpCutoff inp q.player).vy + 3200 * dt ∧
    (motion dt inp q).player.y = q.player.y ∧
    (motion dt inp q).player.onGround = q.player.onGround := by
  have hh := horizontal_timers dt inp q.player
  have hv : (horizontal dt inp q.player).vy = q.player.vy ∧
      (horizontal dt inp q.player).y = q.player.y ∧
      (horizontal dt inp q.player).onGround = q.player.onGround := by
    simp [horizontal]
  by_cases hc : (horizontal dt inp q.player).jumpBufferTimer > 0 ∧
      (horizontal dt inp q.player).coyoteTimer > 0
  · simp [motion, normalMotion, jumpExecution, Game.onPlayer, hA, hD, hc] at hj
  · simp [motion, normalMotion, jumpExecution, Game.onPlayer, hA, hD, hc, gravity, classify,
      jumpCutoff, hv.1, hv.2.1, hv.2.2, GRAVITY]

/-- C11: in every frame that takes the `else` branch of the motion model (the
player neither attacking nor dashing when the branch is chosen) and in which
the jump block does not run, the vertical velocity handed to position
integration is `0.6 * vy + 3200 * dt` when `vy < -200` and the jump input is not
held (jump button not active and d-pad not up), and `vy + 3200 * dt` otherwise,
`vy` being the velocity with which the branch is entered; that is the
velocity of the frame's start unless the idle check respawned.  The position
is integrated with exactly that velocity, so the factor is applied once. -/
theorem jump_cutoff_once (dt : ℚ) (inp : Input) (g : Game)
    (hA : (preMotion dt inp g).player.isAttacking = false)
    (hD : (preMotion dt inp g).player.isDashing = false)
    (hj : (frame dt inp g).jumpsFired = g.jumpsFired) :
    ((preMotion dt inp g).player.vy < -200 ∧ inp.btnJumpActive = false ∧ inp.dPadUp = false →
      (motion dt inp (preMotion dt inp g)).player.vy =
        6 / 10 * (preMotion dt inp g).player.vy + 3200 * dt) ∧
    (¬ ((preMotion dt inp g).player.vy < -200 ∧ inp.btnJumpActive = false ∧
        inp.dPadUp = false) →
      (motion dt inp (preMotion dt inp g)).player.vy =
        (preMotion dt inp g).player.vy + 3200 * dt) ∧
    (integrated dt inp g).vy = (motion dt inp (preMotion dt inp g)).player.vy ∧
    (integrated dt inp g).y =
      (preMotion dt inp g).player.y + (motion dt inp (preMotion dt inp g)).player.vy * dt ∧
    ((preMotion dt inp g).respawnCalls = g.respawnCalls →
      (preMotion dt inp g).player.vy = g.player.vy) := by
  rw [frame_jumpsFired, ← preMotion_jumpsFired dt inp g] at hj
  obtain ⟨mv, my, _⟩ := motion_no_jump dt inp (preMotion dt inp g) hA hD hj
  refine ⟨?_, ?_, ?_, ?_, ?_⟩
  · rintro ⟨h1, h2, h3⟩
    rw [mv]
    simp [jumpCutoff, isJumpHeld, h1, h2, h3]
    ring
  · intro h
    rw [mv]
    have : ¬ ((preMotion dt inp g).player.vy < -200 ∧ isJumpHeld inp = false) := by
      intro ⟨h1, h2⟩
      simp [isJumpHeld] at h2
      exact h ⟨h1, h2.1, h2.2⟩
    simp [jumpCutoff, this]
  · simp [integrated, integrate]
  · simp [integrated, integrate, my]
  · intro hr
    have hd : (preMotion dt inp g).dashesTriggered = g.dashesTriggered := by
      rcases (em (inp.btnDashJustPressed = true ∧
        (preDash dt inp g).player.dashCooldownTimer ≤ 0 ∧
        (preDash dt inp g).player.isAttacking = false)) with hc | hc
      · have := ((preMotion_dashTrigger dt inp g).1 hc).2.1
        rw [hD] at this
        exact absurd this (by decide)
      · exact ((preMotion_dashTrigger dt inp g).2 hc).1
    exact preMotion_vy dt inp g hr hd

theorem jump_cutoff_once_witness :
    rising.player.vy = -500 ∧ rising.player.onGround = false ∧
    (motion (1 / 50) noInput (preMotion (1 / 50) noInput rising)).player.vy =
      -300 + 3200 * (1 / 50) ∧
    (frame (1 / 50) noInput rising).player.vy = -300 + 3200 * (1 / 50) := by
  have h := jump_cutoff_once (1 / 50) noInput rising (by with_unfolding_all decide)
    (by with_unfolding_all decide) (by with_unfolding_all decide)
  have hv := h.2.2.2.2 (by with_unfolding_all decide)
  have h1 := h.1 ⟨by with_unfolding_all decide, rfl, rfl⟩
  refine ⟨by with_unfolding_all decide, rfl, ?_, by with_unfolding_all decide⟩
  rw [h1, hv]
  norm_num [rising, initPlayer]

/-! ## Respawn -/

/-- C12: `Respawn` is idempotent, and `Respawn p` has `x = startX`, `y = startY`,
`vx = vy = 0`, `idleDeathTimer = 1.5` and scale `(0.1, 2.0)`, every other field
(spawn point, facing, state and last state, the four ticked timers, the dash
and attack flags, `onGround`, the animation cursor) being that of `p`. -/
theorem respawn_idempotent (p : Player) :
    Respawn (Respawn p) = Respawn p ∧
    ((Respawn p).x = p.startX ∧ (Respawn p).y = p.startY ∧ (Respawn p).vx = 0 ∧
      (Respawn p).vy = 0 ∧ (Respawn p).idleDeathTimer = 15 / 10 ∧
      (Respawn p).scaleX = 1 / 10 ∧ (Respawn p).scaleY = 2) ∧
    ((Respawn p).startX = p.startX ∧ (Respawn p).startY = p.startY ∧
      (Respawn p).facingRight = p.facingRight ∧ (Respawn p).state = p.state ∧
      (Respawn p).lastState = p.lastState ∧ (Respawn p).coyoteTimer = p.coyoteTimer ∧
      (Respawn p).jumpBufferTimer = p.jumpBufferTimer ∧ (Respawn p).dashTimer = p.dashTimer ∧
      (Respawn p).dashCooldownTimer = p.dashCooldownTimer ∧
      (Respawn p).isDashing = p.isDashing ∧ (Respawn p).isAttacking = p.isAttacking ∧
      (Respawn p).onGround = p.onGround ∧ (Respawn p).animTimer = p.animTimer ∧
      (Respawn p).currentFrame = p.currentFrame) := by
  refine ⟨rfl, ⟨rfl, rfl, rfl, rfl, ?_, rfl, rfl⟩,
    ⟨rfl, rfl, rfl, rfl, rfl, rfl, rfl, rfl, rfl, rfl, rfl, rfl, rfl, rfl⟩⟩
  simp [Respawn, IDLE_DEATH_TIME]

/-! ## The ghost ring buffer -/

/-- One call of `SpawnGhost` on a buffer of 20 slots with the cursor in range. -/
theorem spawnGhost_slot (g : Game) (fx fy : Int) (hl : g.ghosts.length = 20)
    (h0 : 0 ≤ g.ghostHead) (h1 : g.ghostHead < 20) :
    (SpawnGhost g fx fy).ghosts[g.ghostHead.toNat]? =
      some { x := g.player.x, y := g.player.y, frameX := fx, frameY := fy,
             facingRight := g.player.facingRight, alpha := 6 / 10 } ∧
    (∀ i : Nat, i ≠ g.ghostHead.toNat → (SpawnGhost g fx fy).ghosts[i]? = g.ghosts[i]?) ∧
    (SpawnGhost g fx fy).ghosts.length = 20 ∧
    (SpawnGhost g fx fy).ghostHead = (g.ghostHead + 1) % 20 ∧
    0 ≤ (SpawnGhost g fx fy).ghostHead ∧ (SpawnGhost g fx fy).ghostHead < 20 ∧
    (SpawnGhost g fx fy).player = g.player := by
  have hn : g.ghostHead.toNat < g.ghosts.length := by
    rw [hl]; omega
  have hm : (g.ghostHead + 1).tmod 20 = (g.ghostHead + 1) % 20 :=
    Int.tmod_eq_emod (by omega) (by norm_num)
  refine ⟨?_, ?_, ?_, ?_, ?_, ?_, rfl⟩
  · simp [SpawnGhost, List.getElem?_set_self hn]
  · intro i hi
    simp [SpawnGhost, List.getElem?_set_ne (Ne.symm hi)]
  · simp [SpawnGhost, hl]
  · simp [SpawnGhost, MAX_GHOSTS, hm]
  · simp only [SpawnGhost, MAX_GHOSTS, hm]; omega
  · simp only [SpawnGhost, MAX_GHOSTS, hm]; omega

theorem spawnGhostsFor_cons (p : Player) (ps : List Player) (fx fy : Int) (g : Game) :
    spawnGhostsFor (p :: ps) fx fy g =
      spawnGhostsFor ps fx fy (SpawnGhost { g with player := p } fx fy) := rfl

theorem spawnGhostsFor_snoc (ps : List Player) (p : Player) (fx fy : Int) (g : Game) :
    spawnGhostsFor (ps ++ [p]) fx fy g =
      SpawnGhost { (spawnGhostsFor ps fx fy g) with player := p } fx fy := by
  simp [spawnGhostsFor, List.foldl_append]

/-- The cursor after a sequence of writes. -/
theorem spawnGhostsFor_head (ps : List Player) (fx fy : Int) :
    ∀ g : Game, g.ghosts.length = 20 → 0 ≤ g.ghostHead → g.ghostHead < 20 →
      (spawnGhostsFor ps fx fy g).ghostHead = (g.ghostHead + ps.length) % 20 ∧
      (spawnGhostsFor ps fx fy g).ghosts.length = 20 := by
  induction ps with
  | nil =>
    intro g hl h0 h1
    simp only [spawnGhostsFor, List.foldl_nil, List.length_nil, Nat.cast_zero, add_zero]
    exact ⟨by omega, hl⟩
  | cons p ps ih =>
    intro g hl h0 h1
    obtain ⟨_, _, s3, s4, s5, s6, _⟩ :=
      spawnGhost_slot { g with player := p } fx fy hl h0 h1
    obtain ⟨i1, i2⟩ := ih (SpawnGhost { g with player := p } fx fy) s3 s5 s6
    rw [spawnGhostsFor_cons, i1, s4]
    refine ⟨?_, i2⟩
    simp only [List.length_cons, Nat.cast_add, Nat.cast_one]
    omega

/-- C13: on the buffer of 20 slots with `0 ≤ ghostHead < 20`, `SpawnGhost`
writes the slot at index `ghostHead` (position and facing of the player, the
given frame, alpha 0.6), leaves the other slots unchanged and sets `ghostHead`
to `(ghostHead + 1) mod 20`, which is again in range; hence after `n` writes
from the cursor `h` the cursor is `(h + n) mod 20`, and the 21st write lands in
the slot written by the 1st. -/
theorem ghost_ring_buffer (g : Game) (fx fy : Int) (hl : g.ghosts.length = 20)
    (h0 : 0 ≤ g.ghostHead) (h1 : g.ghostHead < 20) :
    ((SpawnGhost g fx fy).ghosts[g.ghostHead.toNat]? =
      some { x := g.player.x, y := g.player.y, frameX := fx, frameY := fy,
             facingRight := g.player.facingRight, alpha := 6 / 10 } ∧
     (∀ i : Nat, i ≠ g.ghostHead.toNat → (SpawnGhost g fx fy).ghosts[i]? = g.ghosts[i]?) ∧
     (SpawnGhost g fx fy).ghosts.length = 20 ∧
     (SpawnGhost g fx fy).ghostHead = (g.ghostHead + 1) % 20 ∧
     0 ≤ (SpawnGhost g fx fy).ghostHead ∧ (SpawnGhost g fx fy).ghostHead < 20) ∧
    (∀ ps : List Player,
      (spawnGhostsFor ps fx fy g).ghostHead = (g.ghostHead + ps.length) % 20) ∧
    (∀ (p1 : Player) (ps : List Player) (p21 : Player), ps.length = 19 →
      (spawnGhostsFor [p1] fx fy g).ghosts[g.ghostHead.toNat]? =
        some { x := p1.x, y := p1.y, frameX := fx, frameY := fy,
               facingRight := p1.facingRight, alpha := 6 / 10 } ∧
      (spawnGhostsFor (p1 :: ps) fx fy g).ghostHead = g.ghostHead ∧
      (spawnGhostsFor (p1 :: ps ++ [p21]) fx fy g).ghosts[g.ghostHead.toNat]? =
        some { x := p21.x, y := p21.y, frameX := fx, frameY := fy,
               facingRight := p21.facingRight, alpha := 6 / 10 }) := by
  obtain ⟨s1, s2, s3, s4, s5, s6, _⟩ := spawnGhost_slot g fx fy hl h0 h1
  refine ⟨⟨s1, s2, s3, s4, s5, s6⟩, fun ps => (spawnGhostsFor_head ps fx fy g hl h0 h1).1, ?_⟩
  intro p1 ps p21 hps
  obtain ⟨c1, c2⟩ := spawnGhostsFor_head (p1 :: ps) fx fy g hl h0 h1
  have hback : (spawnGhostsFor (p1 :: ps) fx fy g).ghostHead = g.ghostHead := by
    rw [c1]
    simp only [List.length_cons, hps]
    omega
  refine ⟨?_, hback, ?_⟩
  · exact (spawnGhost_slot { g with player := p1 } fx fy hl h0 h1).1
  · have hw := (spawnGhost_slot
      { (spawnGhostsFor (p1 :: ps) fx fy g) with player := p21 } fx fy c2
      (by simp only [hback]; exact h0) (by simp only [hback]; exact h1)).1
    have he : p1 :: ps ++ [p21] = (p1 :: ps) ++ [p21] := rfl
    rw [he, spawnGhostsFor_snoc]
    simpa only [hback] using hw

theorem ghost_ring_buffer_witness :
    (SpawnGhost initGame 340 40).ghostHead = 1 ∧
    (spawnGhostsFor (List.replicate 20 initPlayer) 340 40 initGame).ghostHead = 0 :=
  have h := ghost_ring_buffer initGame 340 40 (by simp [initGame]) (by simp [initGame])
    (by simp [initGame])
  ⟨by rw [h.1.2.2.2.1]; simp [initGame], by rw [h.2.1]; simp [initGame]⟩

/-! ## Timers -/

/-- C15: for every state, input and frame time, at the end of a frame
`isDashing` holds only if `dashTimer > 0`, and the same is true at the point
where the motion branch is chosen. -/
theorem dashing_needs_timer (dt : ℚ) (inp : Input) (g : Game) :
    ((frame dt inp g).player.isDashing = true → 0 < (frame dt inp g).player.dashTimer) ∧
    ((preMotion dt inp g).player.isDashing = true →
      0 < (preMotion dt inp g).player.dashTimer) := by
  obtain ⟨f1, _, _, f4⟩ := frame_dash_fields dt inp g
  have key : (frame dt inp g).player.isDashing = true →
      0 < (frame dt inp g).player.dashTimer := by
    intro hD
    rcases frame_dash_cases dt inp g with h | h
    · rw [h.2.2.2.2.1]; norm_num
    · rw [h.2.1, tickTimers_isDashing] at hD
      rw [h.2.2.1]; exact hD.2
  refine ⟨key, ?_⟩
  rw [← f1, ← f4]
  exact key

theorem tickAll_cons (t d : ℚ) (dts : List ℚ) : tickAll t (d :: dts) = tickAll (tick t d) dts :=
  rfl

theorem tick_ready (t dt : ℚ) (h : t ≤ 0) : tick t dt = t := by
  simp [tick, not_lt.mpr h]

theorem tick_floor (t dt : ℚ) (h1 : dt ≤ 1 / 20) (ht : -(1 / 20) ≤ t) :
    -(1 / 20) ≤ tick t dt := by
  unfold tick
  split_ifs with h <;> linarith

theorem run_excl (steps : List (ℚ × Input)) :
    ∀ g : Game, ¬ (g.player.isDashing = true ∧ g.player.isAttacking = true) →
      ¬ ((run steps g).player.isDashing = true ∧ (run steps g).player.isAttacking = true) := by
  induction steps with
  | nil => intro g h; exact h
  | cons s rest ih =>
    intro g h
    rw [run_cons]
    exact ih (frame s.1 s.2 g) (frame_excl s.1 s.2 g h)

/-- Attack and dash pressed together on a player who is neither dashing nor
attacking: the attack trigger fires and blocks the dash trigger. -/
theorem preMotion_attack_first (dt : ℚ) (inp : Input) (g : Game)
    (hD : g.player.isDashing = false) (hA : g.player.isAttacking = false)
    (hPa : inp.btnAttackJustPressed = true) :
    (preMotion dt inp g).player.isAttacking = true ∧
    (preMotion dt inp g).player.isDashing = false ∧
    (preMotion dt inp g).player.state = 4 ∧
    (preMotion dt inp g).dashesTriggered = g.dashesTriggered ∧
    (preMotion dt inp g).player.dashTimer = tick g.player.dashTimer dt ∧
    (preMotion dt inp g).player.dashCooldownTimer = tick g.player.dashCooldownTimer dt := by
  have hd : (preDash dt inp g).player.isAttacking = true ∧
      (preDash dt inp g).player.isDashing = false ∧ (preDash dt inp g).player.state = 4 := by
    have hi := idleDeathCheck_flags dt (g.onPlayer (fun p => tickTimers dt (decayScale dt p)))
    have ht : (tickTimers dt (decayScale dt g.player)).isDashing = false ∧
        (tickTimers dt (decayScale dt g.player)).isAttacking = false := by
      simp [tickTimers, decayScale, hD, hA]
    have hg : (g.onPlayer (fun p => tickTimers dt (decayScale dt p))).player =
        tickTimers dt (decayScale dt g.player) := rfl
    rw [hg, ht.1, ht.2] at hi
    unfold preDash
    generalize idleDeathCheck dt (g.onPlayer (fun p => tickTimers dt (decayScale dt p))) = i at hi
    simp [Game.onPlayer, attackTrigger, hPa, hi.1, hi.2]
  have hn : ¬ (inp.btnDashJustPressed = true ∧ (preDash dt inp g).player.dashCooldownTimer ≤ 0 ∧
      (preDash dt inp g).player.isAttacking = false) := by
    rw [hd.1]; simp
  obtain ⟨t1, t2, t3, t4⟩ := (preMotion_dashTrigger dt inp g).2 hn
  obtain ⟨d1, d2, _, _⟩ := preDash_dash dt inp g
  have hs : (preMotion dt inp g).player.isAttacking = (preDash dt inp g).player.isAttacking ∧
      (preMotion dt inp g).player.state = (preDash dt inp g).player.state := by
    simp [preMotion, dashTrigger, jumpRequest, Game.onPlayer, hn]
  exact ⟨hs.1.trans hd.1, t2.trans hd.2.1, hs.2.trans hd.2.2, t1, t3.trans d2, t4.trans d1⟩

/-- C19: along every run from the initial state (any inputs, any frame times)
`isDashing` and `isAttacking` are never both true, neither at the end of a
frame nor at the point where the motion branch is chosen; and when attack and
dash are both just-pressed in a frame that the player starts neither dashing
nor attacking, only the attack starts: no dash is triggered, and `dashTimer`
and `dashCooldownTimer` are the ticked values, not the armed ones. -/
theorem dash_attack_exclusive :
    (∀ steps : List (ℚ × Input),
      ¬ ((run steps initGame).player.isDashing = true ∧
        (run steps initGame).player.isAttacking = true)) ∧
    (∀ (steps : List (ℚ × Input)) (dt : ℚ) (inp : Input),
      ¬ ((preMotion dt inp (run steps initGame)).player.isDashing = true ∧
        (preMotion dt inp (run steps initGame)).player.isAttacking = true)) ∧
    (∀ (g : Game) (dt : ℚ) (inp : Input),
      g.player.isDashing = false → g.player.isAttacking = false →
      inp.btnAttackJustPressed = true → inp.btnDashJustPressed = true →
      (preMotion dt inp g).player.isAttacking = true ∧
      (preMotion dt inp g).player.state = 4 ∧
      (frame dt inp g).player.isDashing = false ∧
      (frame dt inp g).dashesTriggered = g.dashesTriggered ∧
      (frame dt inp g).player.dashTimer = tick g.player.dashTimer dt ∧
      (frame dt inp g).player.dashCooldownTimer = tick g.player.dashCooldownTimer dt) := by
  have h0 : ¬ (initGame.player.isDashing = true ∧ initGame.player.isAttacking = true) := by
    simp [initGame, initPlayer]
  refine ⟨fun steps => run_excl steps initGame h0,
    fun steps dt inp => preMotion_excl dt inp _ (run_excl steps initGame h0), ?_⟩
  intro g dt inp hD hA hPa _
  obtain ⟨a1, a2, a3, a4, a5, a6⟩ := preMotion_attack_first dt inp g hD hA hPa
  obtain ⟨f1, f2, f3, f4⟩ := frame_dash_fields dt inp g
  exact ⟨a1, a3, f4.trans a2, f3.trans a4, f1.trans a5, f2.trans a6⟩

theorem dash_attack_exclusive_witness :
    (frame (1 / 20) pressAttackDash landed).player.isDashing = false ∧
    (preMotion (1 / 20) pressAttackDash landed).player.isAttacking = true ∧
    (frame (1 / 20) pressAttackDash landed).dashesTriggered = landed.dashesTriggered :=
  have h := dash_attack_exclusive.2.2 landed (1 / 20) pressAttackDash
    (by with_unfolding_all decide) (by with_unfolding_all decide) rfl rfl
  ⟨h.2.2.1, h.1, h.2.2.2.1⟩

/-! ## Grounding and coyote arming -/

theorem preMotion_onGround (dt : ℚ) (inp : Input) (g : Game) :
    (preMotion dt inp g).player.onGround = g.player.onGround ∧
    ((preMotion dt inp g).respawnCalls = g.respawnCalls ∨
      (preMotion dt inp g).respawnCalls = g.respawnCalls + 1) ∧
    ((preMotion dt inp g).player.vy = g.player.vy ∨ (preMotion dt inp g).player.vy = 0) := by
  have h1 : (preDash dt inp g).player.onGround = g.player.onGround ∧
      ((preDash dt inp g).respawnCalls = g.respawnCalls ∨
        (preDash dt inp g).respawnCalls = g.respawnCalls + 1) ∧
      ((preDash dt inp g).player.vy = g.player.vy ∨ (preDash dt inp g).player.vy = 0) := by
    simp only [preDash, Game.onPlayer, idleDeathCheck]
    split_ifs <;> simp [callRespawn, Respawn, attackTrigger, tickTimers, decayScale]
  have h3 : (preMotion dt inp g).respawnCalls = (preDash dt inp g).respawnCalls ∧
      (preMotion dt inp g).player.onGround = (preDash dt inp g).player.onGround := by
    simp [preMotion, dashTrigger, jumpRequest, Game.onPlayer]
  have h4 : (preMotion dt inp g).player.vy = (preDash dt inp g).player.vy ∨
      (preMotion dt inp g).player.vy = 0 := by
    by_cases hc : inp.btnDashJustPressed = true ∧
        (preDash dt inp g).player.dashCooldownTimer ≤ 0 ∧
        (preDash dt inp g).player.isAttacking = false
    · right; simp [preMotion, dashTrigger, jumpRequest, Game.onPlayer, hc]
    · left; simp [preMotion, dashTrigger, jumpRequest, Game.onPlayer, hc]
  rw [h3.1, h3.2]
  refine ⟨h1.1, h1.2.1, ?_⟩
  rcases h4 with h | h
  · rw [h]; exact h1.2.2
  · exact Or.inr h

theorem preMotion_y (dt : ℚ) (inp : Input) (g : Game)
    (hr : (preMotion dt inp g).respawnCalls = g.respawnCalls) :
    (preMotion dt inp g).player.y = g.player.y := by
  have h2 : (preDash dt inp g).respawnCalls = g.respawnCalls →
      (preDash dt inp g).player.y = g.player.y := by
    simp only [preDash, Game.onPlayer, idleDeathCheck]
    split_ifs <;> simp [callRespawn, attackTrigger, tickTimers, decayScale]
  have h3 : (preMotion dt inp g).respawnCalls = (preDash dt inp g).respawnCalls := by
    simp [preMotion, dashTrigger, Game.onPlayer]
  rw [(preMotion_pos dt inp g).2]
  exact h2 (h3 ▸ hr)

theorem motion_respawnCalls (dt : ℚ) (inp : Input) (q : Game) :
    (motion dt inp q).respawnCalls = q.respawnCalls := by
  simp [motion, normalMotion, dashMotion, SpawnGhost, jumpExecution, Game.onPlayer]

theorem physics_respawnCalls (dt : ℚ) (m : Game) :
    (physics dt m).respawnCalls = m.respawnCalls ∨
    (physics dt m).respawnCalls = m.respawnCalls + 1 := by
  unfold physics fallCheck
  split_ifs <;> simp [callRespawn, Game.onPlayer]

/-- The attack branch (lines 362-363). -/
theorem motion_attack (dt : ℚ) (inp : Input) (q : Game) (hA : q.player.isAttacking = true) :
    (motion dt inp q).player.vy = q.player.vy + 3200 * dt ∧
    (motion dt inp q).player.y = q.player.y ∧
    (motion dt inp q).player.onGround = q.player.onGround ∧
    (motion dt inp q).jumpsFired = q.jumpsFired := by
  simp [motion, attackMotion, Game.onPlayer, hA, GRAVITY]

/-- A player who is still grounded after the motion model was grounded before
it, and did not jump. -/
theorem motion_grounded (dt : ℚ) (inp : Input) (q : Game)
    (hg : (motion dt inp q).player.onGround = true) :
    q.player.onGround = true ∧ (motion dt inp q).jumpsFired = q.jumpsFired := by
  cases hA : q.player.isAttacking
  · cases hD : q.player.isDashing
    · have hh : (horizontal dt inp q.player).onGround = q.player.onGround := by
        simp [horizontal]
      by_cases hc : (horizontal dt inp q.player).jumpBufferTimer > 0 ∧
          (horizontal dt inp q.player).coyoteTimer > 0
      · simp [motion, normalMotion, jumpExecution, Game.onPlayer, hA, hD, hc, gravity,
          classify, jumpCutoff] at hg
      · simp [motion, normalMotion, jumpExecution, Game.onPlayer, hA, hD, hc, gravity,
          classify, jumpCutoff, hh] at hg ⊢
        exact hg
    · simp [motion, dashMotion, SpawnGhost, hA, hD] at hg ⊢
      exact hg
  · have := motion_attack dt inp q hA
    rw [this.2.2.1] at hg
    exact ⟨hg, this.2.2.2⟩

/-- Without a jump, a player without vertical velocity leaves the motion model
with `vy ≥ 0`, and in the attack branch and the `else` branch with
`vy = 3200 * dt`. -/
theorem motion_vy_of_rest (dt : ℚ) (inp : Input) (q : Game) (h0 : 0 ≤ dt)
    (hv : q.player.vy = 0) (hj : (motion dt inp q).jumpsFired = q.jumpsFired) :
    0 ≤ (motion dt inp q).player.vy ∧ (motion dt inp q).player.y = q.player.y ∧
    (q.player.isDashing = false ∨ q.player.isAttacking = true →
      (motion dt inp q).player.vy = 3200 * dt) := by
  cases hA : q.player.isAttacking
  · cases hD : q.player.isDashing
    · obtain ⟨mv, my, _⟩ := motion_no_jump dt inp q hA hD hj
      have hc : (jumpCutoff inp q.player).vy = 0 := by simp [jumpCutoff, hv]
      rw [hc, zero_add] at mv
      exact ⟨by rw [mv]; positivity, my, fun _ => mv⟩
    · obtain ⟨_, mv, my, _⟩ := motion_dash dt inp q hA hD
      exact ⟨by rw [mv], my, by simp⟩
  · obtain ⟨mv, my, _⟩ := motion_attack dt inp q hA
    rw [hv, zero_add] at mv
    exact ⟨by rw [mv]; positivity, my, fun _ => mv⟩

/-- What the collision block does to the coyote timer and the scale. -/
theorem groundCollision_coyote (w : RectF) (p : Player) :
    ((groundCollision w p).onGround = true →
      (groundCollision w p).coyoteTimer = 1 / 10 ∧
      (p.onGround = false →
        (groundCollision w p).scaleX = 13 / 10 ∧ (groundCollision w p).scaleY = 7 / 10)) ∧
    (checkCol (footRect p) w = false → p.onGround = true → 0 ≤ p.vy → p.isDashing = false →
      (groundCollision w p).coyoteTimer = 1 / 10) := by
  constructor
  · intro hg
    by_cases hc : checkCol (footRect p) w = true
    · by_cases hs : p.vy ≥ 0 ∧ (footRect p).y + (footRect p).h - w.y < 50
      · constructor
        · simp [groundCollision, hc, hs.1, hs.2]
        · intro hw
          simp [groundCollision, hc, hs.1, hs.2, hw]
      · simp [groundCollision, hc, hs] at hg
    · simp [groundCollision, hc] at hg
  · intro hc hw hv hD
    simp [groundCollision, hc, hw, hv, hD]

theorem physics_coyote (dt : ℚ) (m : Game) :
    (physics dt m).player.coyoteTimer =
      (groundCollision platform (integrate dt m.player)).coyoteTimer := by
  simp [physics, fallCheck, callRespawn, Respawn, Game.onPlayer]

theorem present_scale (dt : ℚ) (g : Game) :
    (present dt g).player.scaleX = g.player.scaleX ∧
    (present dt g).player.scaleY = g.player.scaleY := by
  simp [present, animate, stateChange, Game.onPlayer]

/-- A grounded player at the end of a frame has no vertical velocity. -/
theorem frame_grounded_vy (dt : ℚ) (inp : Input) (g : Game)
    (hg : (frame dt inp g).player.onGround = true) : (frame dt inp g).player.vy = 0 := by
  have hp := present_player dt (physics dt (motion dt inp (preMotion dt inp g)))
  simp only [frame] at hg ⊢
  rw [hp.2.2.2.2.2.2.1] at hg
  rw [hp.2.1]
  revert hg
  generalize motion dt inp (preMotion dt inp g) = m
  unfold physics fallCheck
  simp only [Game.onPlayer]
  split_ifs
  · intro _; simp [callRespawn, Respawn]
  · intro hg
    by_cases hc : checkCol (footRect (integrate dt m.player)) platform = true
    · by_cases hs : (integrate dt m.player).vy ≥ 0 ∧
          (footRect (integrate dt m.player)).y + (footRect (integrate dt m.player)).h -
            platform.y < 50
      · simp [groundCollision, hc, hs.1, hs.2]
      · simp [groundCollision, hc, hs] at hg
    · simp [groundCollision, hc] at hg

theorem reachable_grounded_vy (g : Game) (hr : Reachable g) :
    g.player.onGround = true → g.player.vy = 0 := by
  induction hr with
  | init => intro h; simp [initGame, initPlayer] at h
  | step g dt inp _ _ _ _ => exact frame_grounded_vy dt inp g


/-- C17: in every state reachable from the initial state, for every frame with
`dt` in `[0, 0.05]`: (a) if ground resolution snaps the player (the collision
block grounds the integrated player) and the player was not grounded at the
end of the previous frame, the frame ends with `coyoteTimer = 0.1` and the
landing scale `(1.3, 0.7)`; (b) if the foot rectangle does not overlap the
platform, the player was grounded going into the collision block and is not
dashing, the frame ends with `coyoteTimer = 0.1`. -/
theorem coyote_arming (g : Game) (hr : Reachable g) (dt : ℚ) (h0 : 0 ≤ dt) (_h1 : dt ≤ 1 / 20)
    (inp : Input) :
    ((groundCollision platform (integrated dt inp g)).onGround = true →
        g.player.onGround = false →
      (frame dt inp g).player.coyoteTimer = 1 / 10 ∧
      (frame dt inp g).player.scaleX = 13 / 10 ∧ (frame dt inp g).player.scaleY = 7 / 10 ∧
      (frame dt inp g).player.onGround = true) ∧
    (checkCol (footRect (integrated dt inp g)) platform = false →
        (integrated dt inp g).onGround = true → (integrated dt inp g).isDashing = false →
      (frame dt inp g).player.coyoteTimer = 1 / 10 ∧
      (frame dt inp g).player.onGround = false) := by
  have hp := present_player dt (physics dt (motion dt inp (preMotion dt inp g)))
  have hsc := present_scale dt (physics dt (motion dt inp (preMotion dt inp g)))
  have hco := physics_coyote dt (motion dt inp (preMotion dt inp g))
  have hio : (integrated dt inp g).onGround =
      (motion dt inp (preMotion dt inp g)).player.onGround := by
    simp [integrated, integrate]
  constructor
  · intro hs hg
    have hw : (integrated dt inp g).onGround = false := by
      cases hm : (integrated dt inp g).onGround
      · rfl
      · rw [hio] at hm
        have := (motion_grounded dt inp _ hm).1
        rw [(preMotion_onGround dt inp g).1, hg] at this
        exact absurd this (by decide)
    obtain ⟨c1, c2⟩ := (groundCollision_coyote platform (integrated dt inp g)).1 hs
    obtain ⟨c3, c4⟩ := c2 hw
    have hy : (groundCollision platform (integrated dt inp g)).y = 210 := by
      by_cases hc : -100 < (integrated dt inp g).x ∧ (integrated dt inp g).x < 1920 ∧
          210 < (integrated dt inp g).y ∧ (integrated dt inp g).y < 260 ∧
          0 ≤ (integrated dt inp g).vy
      · exact ((groundCollision_platform _).1 hc).1
      · have := ((groundCollision_platform _).2 hc).2.2
        rw [this] at hs
        exact absurd hs (by decide)
    obtain ⟨pp, _⟩ := physics_of_not_fallen dt (motion dt inp (preMotion dt inp g))
      (by
        have : (groundCollision platform
            (integrate dt (motion dt inp (preMotion dt inp g)).player)).y = 210 := hy
        rw [this]; norm_num)
    simp only [frame]
    rw [hp.2.2.2.2.2.2.2.2.2.1, hsc.1, hsc.2, hp.2.2.2.2.2.2.1, pp]
    exact ⟨c1, c3, c4, hs⟩
  · intro hc hw hD
    have hm := hw
    rw [hio] at hm
    obtain ⟨qg, qj⟩ := motion_grounded dt inp _ hm
    rw [(preMotion_onGround dt inp g).1] at qg
    have hgv := reachable_grounded_vy g hr qg
    have hqv : (preMotion dt inp g).player.vy = 0 := by
      rcases (preMotion_onGround dt inp g).2.2 with h | h
      · rw [h, hgv]
      · exact h
    have hmv := (motion_vy_of_rest dt inp _ h0 hqv qj).1
    have hiv : 0 ≤ (integrated dt inp g).vy := by
      simpa [integrated, integrate] using hmv
    have c := (groundCollision_coyote platform (integrated dt inp g)).2 hc hw hiv hD
    have hog : (groundCollision platform (integrated dt inp g)).onGround = false := by
      simp [groundCollision, hc]
    have hpo : (physics dt (motion dt inp (preMotion dt inp g))).player.onGround =
        (groundCollision platform (integrated dt inp g)).onGround := by
      simp [physics, fallCheck, callRespawn, Respawn, Game.onPlayer, integrated]
    simp only [frame]
    rw [hp.2.2.2.2.2.2.2.2.2.1, hco, hp.2.2.2.2.2.2.1, hpo, hog]
    exact ⟨c, rfl⟩

theorem coyote_arming_witness :
    Reachable initGame ∧
    (frame (1 / 20) noInput initGame).player.onGround = false ∧
    (frame (1 / 20) noInput (frame (1 / 20) noInput initGame)).player.coyoteTimer = 1 / 10 ∧
    (frame (1 / 20) noInput (frame (1 / 20) noInput initGame)).player.scaleX = 13 / 10 :=
  have hr : Reachable (frame (1 / 20) noInput initGame) :=
    Reachable.step _ _ _ Reachable.init (by norm_num) (by norm_num)
  have h := (coyote_arming (frame (1 / 20) noInput initGame) hr (1 / 20) (by norm_num)
    (by norm_num) noInput).1 (by with_unfolding_all decide) (by with_unfolding_all decide)
  ⟨Reachable.init, by with_unfolding_all decide, h.1, h.2.1⟩

/-- The animation fields from the motion branch to the state-change block. -/
theorem branch_to_stateChange (dt : ℚ) (inp : Input) (q : Game) :
    (physics dt (motion dt inp q)).player.lastState = q.player.lastState ∧
    (physics dt (motion dt inp q)).player.currentFrame = q.player.currentFrame ∧
    (physics dt (motion dt inp q)).player.animTimer = q.player.animTimer ∧
    (physics dt (motion dt inp q)).player.isAttacking = q.player.isAttacking ∧
    (physics dt (motion dt inp q)).player.isDashing = q.player.isDashing ∧
    (q.player.isAttacking = true ∨ q.player.isDashing = true →
      (physics dt (motion dt inp q)).player.state = q.player.state) ∧
    (q.player.isAttacking = false → q.player.isDashing = false →
      (physics dt (motion dt inp q)).player.state = 0 ∨
      (physics dt (motion dt inp q)).player.state = 1 ∨
      (physics dt (motion dt inp q)).player.state = 2) := by
  have hp : (physics dt (motion dt inp q)).player.lastState = (motion dt inp q).player.lastState ∧
      (physics dt (motion dt inp q)).player.currentFrame = (motion dt inp q).player.currentFrame ∧
      (physics dt (motion dt inp q)).player.animTimer = (motion dt inp q).player.animTimer ∧
      (physics dt (motion dt inp q)).player.state = (motion dt inp q).player.state := by
    simp [physics, fallCheck, callRespawn, Respawn, groundCollision, integrate, Game.onPlayer]
  have hf := physics_flags dt (motion dt inp q)
  have hm := motion_flags dt inp q
  have hk : (motion dt inp q).player.lastState = q.player.lastState ∧
      (motion dt inp q).player.currentFrame = q.player.currentFrame ∧
      (motion dt inp q).player.animTimer = q.player.animTimer := by
    simp [motion, normalMotion, dashMotion, SpawnGhost, attackMotion, jumpExecution, gravity,
      classify, jumpCutoff, horizontal, Game.onPlayer]
  rw [hp.1, hp.2.1, hp.2.2.1, hp.2.2.2, hf.1, hf.2.1, hm.1, hm.2]
  refine ⟨hk.1, hk.2.1, hk.2.2, rfl, rfl, ?_, ?_⟩
  · intro h
    cases hA : q.player.isAttacking
    · have hD : q.player.isDashing = true := by
        rcases h with h | h
        · rw [hA] at h; exact absurd h (by decide)
        · exact h
      simp [motion, dashMotion, SpawnGhost, hA, hD]
    · simp [motion, attackMotion, Game.onPlayer, hA]
  · intro hA hD
    have hcl : ∀ p : Player, (classify p).state = 0 ∨ (classify p).state = 1 ∨
        (classify p).state = 2 := by
      intro p
      unfold classify
      split_ifs <;> simp
    simp only [motion, hA, hD, normalMotion, Game.onPlayer, gravity, Bool.false_eq_true,
      if_false]
    exact hcl _

/-- The state-change block (lines 443-446). -/
theorem stateChange_fields (b : Player) :
    (stateChange b).state = b.state ∧ (stateChange b).lastState = b.state ∧
    (stateChange b).isAttacking = b.isAttacking ∧ (stateChange b).isDashing = b.isDashing ∧
    (stateChange b).vy = b.vy ∧
    (b.state = b.lastState ∨ b.state = 2 →
      (stateChange b).currentFrame = b.currentFrame ∧
      (stateChange b).animTimer = b.animTimer) ∧
    (b.state ≠ b.lastState → b.state ≠ 2 →
      (stateChange b).currentFrame = 0 ∧ (stateChange b).animTimer = 0) := by
  by_cases h1 : b.state = b.lastState
  · simp [stateChange, h1]
  · by_cases h2 : b.state = 2
    · simp [stateChange, h1, h2]
      exact fun h => h.symm
    · simp [stateChange, h1, h2]

theorem preAnimate_player (dt : ℚ) (inp : Input) (g : Game) :
    (preAnimate dt inp g).player =
      stateChange (physics dt (motion dt inp (preMotion dt inp g))).player ∧
    (frame dt inp g).player = (animate dt (preAnimate dt inp g)).player ∧
    (frame dt inp g).srcX = (animate dt (preAnimate dt inp g)).srcX ∧
    (frame dt inp g).srcY = (animate dt (preAnimate dt inp g)).srcY := by
  simp [preAnimate, frame, present, Game.onPlayer]

/-- The attack row of the animation block (lines 450-457). -/
theorem animate_attack (dt : ℚ) (a : Game) (hD : a.player.isDashing = false)
    (hA : a.player.isAttacking = true) :
    (a.player.animTimer + dt < 8 / 100 →
      (animate dt a).player.isAttacking = true ∧ (animate dt a).player.state = a.player.state ∧
      (animate dt a).player.currentFrame = a.player.currentFrame ∧
      (animate dt a).player.animTimer = a.player.animTimer + dt) ∧
    (8 / 100 ≤ a.player.animTimer + dt → a.player.currentFrame + 1 < 4 →
      (animate dt a).player.isAttacking = true ∧ (animate dt a).player.state = a.player.state ∧
      (animate dt a).player.currentFrame = a.player.currentFrame + 1 ∧
      (animate dt a).player.animTimer = 0) ∧
    (8 / 100 ≤ a.player.animTimer + dt → 4 ≤ a.player.currentFrame + 1 →
      (animate dt a).player.isAttacking = false ∧ (animate dt a).player.state = 0 ∧
      (animate dt a).player.currentFrame = 0 ∧ (animate dt a).player.animTimer = 0) ∧
    (animate dt a).player.isDashing = false ∧
    (animate dt a).player.lastState = a.player.lastState ∧
    (animate dt a).srcX = 300 + (animate dt a).player.currentFrame * 20 := by
  refine ⟨?_, ?_, ?_, ?_, ?_, ?_⟩
  · intro h
    have h' : ¬ (8 / 100 ≤ a.player.animTimer + dt) := not_le.mpr h
    simp [animate, hD, hA, h']
  · intro h h2
    have h2' : ¬ (4 ≤ a.player.currentFrame + 1) := not_le.mpr h2
    simp [animate, hD, hA, h, h2']
  · intro h h2
    simp [animate, hD, hA, h, h2]
  · simp [animate, hD, hA]
  · simp [animate, hD, hA]
  · simp [animate, hD, hA]


theorem idleDeathCheck_anim (dt : ℚ) (t : Game) :
    (idleDeathCheck dt t).player.state = t.player.state ∧
    (idleDeathCheck dt t).player.lastState = t.player.lastState ∧
    (idleDeathCheck dt t).player.currentFrame = t.player.currentFrame ∧
    (idleDeathCheck dt t).player.animTimer = t.player.animTimer := by
  simp [idleDeathCheck, callRespawn, Respawn]

/-- The animation fields and the ability flags after the attack trigger. -/
theorem preDash_anim (dt : ℚ) (inp : Input) (g : Game) :
    (preDash dt inp g).player.lastState = g.player.lastState ∧
    (preDash dt inp g).player.isDashing = (tickTimers dt g.player).isDashing ∧
    (inp.btnAttackJustPressed = true ∧ (tickTimers dt g.player).isDashing = false ∧
        g.player.isAttacking = false →
      (preDash dt inp g).player.isAttacking = true ∧ (preDash dt inp g).player.state = 4 ∧
      (preDash dt inp g).player.currentFrame = 0 ∧ (preDash dt inp g).player.animTimer = 0) ∧
    (¬ (inp.btnAttackJustPressed = true ∧ (tickTimers dt g.player).isDashing = false ∧
        g.player.isAttacking = false) →
      (preDash dt inp g).player.isAttacking = g.player.isAttacking ∧
      (preDash dt inp g).player.state = g.player.state ∧
      (preDash dt inp g).player.currentFrame = g.player.currentFrame ∧
      (preDash dt inp g).player.animTimer = g.player.animTimer) := by
  have hi := idleDeathCheck_anim dt (g.onPlayer (fun p => tickTimers dt (decayScale dt p)))
  have hf := idleDeathCheck_flags dt (g.onPlayer (fun p => tickTimers dt (decayScale dt p)))
  have hg : (g.onPlayer (fun p => tickTimers dt (decayScale dt p))).player =
      tickTimers dt (decayScale dt g.player) := rfl
  have ht : (tickTimers dt (decayScale dt g.player)).isDashing = (tickTimers dt g.player).isDashing ∧
      (tickTimers dt (decayScale dt g.player)).isAttacking = g.player.isAttacking ∧
      (tickTimers dt (decayScale dt g.player)).state = g.player.state ∧
      (tickTimers dt (decayScale dt g.player)).lastState = g.player.lastState ∧
      (tickTimers dt (decayScale dt g.player)).currentFrame = g.player.currentFrame ∧
      (tickTimers dt (decayScale dt g.player)).animTimer = g.player.animTimer := by
    simp [tickTimers, decayScale]
  rw [hg, ht.2.2.1, ht.2.2.2.1, ht.2.2.2.2.1, ht.2.2.2.2.2] at hi
  rw [hg, ht.1, ht.2.1] at hf
  unfold preDash
  generalize idleDeathCheck dt (g.onPlayer (fun p => tickTimers dt (decayScale dt p))) = i
    at hi hf
  obtain ⟨i1, i2, i3, i4⟩ := hi
  obtain ⟨f1, f2⟩ := hf
  refine ⟨?_, ?_, ?_, ?_⟩
  · simp [Game.onPlayer, attackTrigger, i2]
  · simp [Game.onPlayer, attackTrigger, f1]
  · intro hc
    have hc' : inp.btnAttackJustPressed = true ∧ i.player.isDashing = false ∧
        i.player.isAttacking = false := by rw [f1, f2]; exact hc
    simp [Game.onPlayer, attackTrigger, hc']
  · intro hc
    have hc' : ¬ (inp.btnAttackJustPressed = true ∧ i.player.isDashing = false ∧
        i.player.isAttacking = false) := by rw [f1, f2]; exact hc
    simp only [Game.onPlayer, attackTrigger, hc', if_false]
    exact ⟨f2, i1, i3, i4⟩

/-- The animation fields and the ability flags after the dash trigger and the
jump request. -/
theorem preMotion_anim (dt : ℚ) (inp : Input) (g : Game) :
    (preMotion dt inp g).player.lastState = (preDash dt inp g).player.lastState ∧
    (preMotion dt inp g).player.currentFrame = (preDash dt inp g).player.currentFrame ∧
    (preMotion dt inp g).player.animTimer = (preDash dt inp g).player.animTimer ∧
    (preMotion dt inp g).player.isAttacking = (preDash dt inp g).player.isAttacking ∧
    ((preDash dt inp g).player.isAttacking = true →
      (preMotion dt inp g).player.state = (preDash dt inp g).player.state ∧
      (preMotion dt inp g).player.isDashing = (preDash dt inp g).player.isDashing) := by
  refine ⟨?_, ?_, ?_, ?_, ?_⟩
  · simp [preMotion, dashTrigger, jumpRequest, Game.onPlayer]
  · simp [preMotion, dashTrigger, jumpRequest, Game.onPlayer]
  · simp [preMotion, dashTrigger, jumpRequest, Game.onPlayer]
  · simp [preMotion, dashTrigger, jumpRequest, Game.onPlayer]
  · intro hA
    simp [preMotion, dashTrigger, jumpRequest, Game.onPlayer, hA]

/-- From the motion branch to the end of the frame, for an attacking player:
the attack animation advances by `dt`. -/
theorem attack_from_branch (dt : ℚ) (inp : Input) (g : Game) (c : Int) (a : ℚ)
    (hA : (preMotion dt inp g).player.isAttacking = true)
    (hD : (preMotion dt inp g).player.isDashing = false)
    (hs : (preMotion dt inp g).player.state = 4)
    (hc : (preMotion dt inp g).player.currentFrame = c)
    (ha : (preMotion dt inp g).player.animTimer = a)
    (hl : (preMotion dt inp g).player.lastState = 4 ∨ (c = 0 ∧ a = 0)) :
    (frame dt inp g).player.isDashing = false ∧ (frame dt inp g).player.lastState = 4 ∧
    (a + dt < 8 / 100 →
      (frame dt inp g).player.isAttacking = true ∧ (frame dt inp g).player.state = 4 ∧
      (frame dt inp g).player.currentFrame = c ∧ (frame dt inp g).player.animTimer = a + dt) ∧
    (8 / 100 ≤ a + dt → c + 1 < 4 →
      (frame dt inp g).player.isAttacking = true ∧ (frame dt inp g).player.state = 4 ∧
      (frame dt inp g).player.currentFrame = c + 1 ∧ (frame dt inp g).player.animTimer = 0) ∧
    (8 / 100 ≤ a + dt → 4 ≤ c + 1 →
      (frame dt inp g).player.isAttacking = false ∧ (frame dt inp g).player.state = 0 ∧
      (frame dt inp g).player.currentFrame = 0 ∧ (frame dt inp g).player.animTimer = 0) ∧
    (frame dt inp g).srcX = 300 + (frame dt inp g).player.currentFrame * 20 := by
  obtain ⟨b1, b2, b3, b4, b5, b6, _⟩ := branch_to_stateChange dt inp (preMotion dt inp g)
  have b6 := b6 (Or.inl hA)
  obtain ⟨s1, s2, s3, s4, _, s6, s7⟩ :=
    stateChange_fields (physics dt (motion dt inp (preMotion dt inp g))).player
  obtain ⟨e1, e2, e3, _⟩ := preAnimate_player dt inp g
  rw [b6, hs] at s1 s2
  rw [b4, hA] at s3
  rw [b5, hD] at s4
  have hcf : (preAnimate dt inp g).player.currentFrame = c ∧
      (preAnimate dt inp g).player.animTimer = a := by
    rw [e1]
    by_cases h : (physics dt (motion dt inp (preMotion dt inp g))).player.state =
        (physics dt (motion dt inp (preMotion dt inp g))).player.lastState
    · obtain ⟨x, y⟩ := s6 (Or.inl h)
      rw [x, y, b2, b3]; exact ⟨hc, ha⟩
    · obtain ⟨x, y⟩ := s7 h (by rw [b6, hs]; decide)
      rw [b6, hs, b1] at h
      rcases hl with hl | hl
      · exact absurd hl.symm h
      · rw [x, y]; exact ⟨hl.1.symm, hl.2.symm⟩
  rw [← e1] at s1 s2 s3 s4
  obtain ⟨a1, a2, a3, a4, a5, a6⟩ := animate_attack dt (preAnimate dt inp g) s4 s3
  rw [hcf.1, hcf.2, s1] at a1 a2
  rw [hcf.1, hcf.2] at a3
  rw [s2] at a5
  rw [e2, e3]
  exact ⟨a4, a5, a1, a2, a3, a6⟩

/-! ## The attack sequence -/

/-- A frame on a player in the middle of an attack, whatever the input. -/
theorem attack_frame (dt : ℚ) (inp : Input) (g : Game) (c : Int) (a : ℚ)
    (h : InAttack c a g.player) :
    (a + dt < 8 / 100 → InAttack c (a + dt) (frame dt inp g).player) ∧
    (8 / 100 ≤ a + dt → c + 1 < 4 → InAttack (c + 1) 0 (frame dt inp g).player) ∧
    (8 / 100 ≤ a + dt → 4 ≤ c + 1 →
      (frame dt inp g).player.isAttacking = false ∧ (frame dt inp g).player.state = 0 ∧
      (frame dt inp g).player.currentFrame = 0) := by
  obtain ⟨hA, hD, hs, hl, hc, ha⟩ := h
  have htD : (tickTimers dt g.player).isDashing = false := by
    cases ht : (tickTimers dt g.player).isDashing
    · rfl
    · rw [tickTimers_isDashing, hD] at ht
      exact absurd ht.1 (by decide)
  obtain ⟨d1, d2, _, d4⟩ := preDash_anim dt inp g
  obtain ⟨d5, d6, d7, d8⟩ := d4 (by rw [hA]; simp)
  obtain ⟨m1, m2, m3, m4, m5⟩ := preMotion_anim dt inp g
  obtain ⟨m6, m7⟩ := m5 (d5.trans hA)
  obtain ⟨r1, r2, r3, r4, r5, _⟩ := attack_from_branch dt inp g c a
    (by rw [m4, d5, hA]) (by rw [m7, d2, htD]) (by rw [m6, d6, hs]) (by rw [m2, d7, hc])
    (by rw [m3, d8, ha]) (Or.inl (by rw [m1, d1, hl]))
  refine ⟨fun h => ?_, fun h h2 => ?_, fun h h2 => ?_⟩
  · obtain ⟨x1, x2, x3, x4⟩ := r3 h
    exact ⟨x1, r1, x2, r2, x3, x4⟩
  · obtain ⟨x1, x2, x3, x4⟩ := r4 h h2
    exact ⟨x1, r1, x2, r2, x3, x4⟩
  · obtain ⟨x1, x2, x3, _⟩ := r5 h h2
    exact ⟨x1, x2, x3⟩

/-- The frame in which the attack trigger of line 336 fires. -/
theorem attack_start (dt : ℚ) (inp : Input) (g : Game)
    (hP : inp.btnAttackJustPressed = true) (hD : (tickTimers dt g.player).isDashing = false)
    (hA : g.player.isAttacking = false) :
    (dt < 8 / 100 → InAttack 0 dt (frame dt inp g).player) ∧
    (8 / 100 ≤ dt → InAttack 1 0 (frame dt inp g).player) := by
  obtain ⟨_, d2, d3, _⟩ := preDash_anim dt inp g
  obtain ⟨d5, d6, d7, d8⟩ := d3 ⟨hP, hD, hA⟩
  obtain ⟨_, m2, m3, m4, m5⟩ := preMotion_anim dt inp g
  obtain ⟨m6, m7⟩ := m5 d5
  obtain ⟨r1, r2, r3, r4, _, _⟩ := attack_from_branch dt inp g 0 0
    (by rw [m4, d5]) (by rw [m7, d2, hD]) (by rw [m6, d6]) (by rw [m2, d7])
    (by rw [m3, d8]) (Or.inr ⟨rfl, rfl⟩)
  refine ⟨fun h => ?_, fun h => ?_⟩
  · obtain ⟨x1, x2, x3, x4⟩ := r3 (by linarith)
    exact ⟨x1, r1, x2, r2, x3, by rw [x4]; ring⟩
  · obtain ⟨x1, x2, x3, x4⟩ := r4 (by linarith) (by norm_num)
    exact ⟨x1, r1, x2, r2, by rw [x3]; norm_num, x4⟩

theorem runConst_snoc (dt : ℚ) (inps : List Input) (i : Input) (g : Game) :
    runConst dt (inps ++ [i]) g = frame dt i (runConst dt inps g) := by
  simp [runConst, run, List.foldl_append]

/-- The attack animation frame by frame: after `c * k + r` frames, `r < k`, the
player shows attack frame `c`, where `k` frames make 0.08 s. -/
theorem attack_run (dt : ℚ) (k : Nat) (g1 : Game)
    (hk : 8 / 100 ≤ (k : ℚ) * dt) (hmin : ∀ m : Nat, 8 / 100 ≤ (m : ℚ) * dt → k ≤ m)
    (hs : (dt < 8 / 100 → InAttack 0 dt g1.player) ∧ (8 / 100 ≤ dt → InAttack 1 0 g1.player))
    (inps : List Input) :
    ∀ c r : Nat, c < 4 → r < k → inps.length + 1 = c * k + r →
      InAttack (c : Int) ((r : ℚ) * dt) (runConst dt inps g1).player := by
  have hlt : ∀ r : Nat, r < k → (r : ℚ) * dt < 8 / 100 := by
    intro r hr
    by_contra hc
    exact absurd (hmin r (not_lt.mp hc)) (by omega)
  induction inps using List.reverseRecOn with
  | nil =>
    intro c r hc hr hn
    simp only [List.length_nil, zero_add] at hn
    have hrun : runConst dt [] g1 = g1 := rfl
    rw [hrun]
    rcases Nat.eq_zero_or_pos c with h | h
    · subst h
      have hr1 : r = 1 := by omega
      subst hr1
      have := hs.1 (by simpa using hlt 1 hr)
      simpa using this
    · have hk1 : k = 1 ∧ c = 1 ∧ r = 0 := by
        have : c * k ≥ k := Nat.le_mul_of_pos_left k h
        have hkpos : 0 < k := by omega
        have h1 : c * k ≤ 1 := by omega
        have h2 : k ≤ 1 := le_trans this h1
        have h3 : k = 1 := by omega
        subst h3
        omega
      obtain ⟨rfl, rfl, rfl⟩ := hk1
      have := hs.2 (by simpa using hk)
      simpa using this
  | append_singleton inps i ih =>
    intro c r hc hr hn
    simp only [List.length_append, List.length_singleton] at hn
    rw [runConst_snoc]
    rcases Nat.eq_zero_or_pos r with h | h
    · subst h
      obtain ⟨c', rfl⟩ : ∃ c', c = c' + 1 := by
        rcases Nat.eq_zero_or_pos c with h | h
        · subst h; omega
        · exact ⟨c - 1, by omega⟩
      have hkpos : 0 < k := hr
      have hprev := ih c' (k - 1) (by omega) (by omega) (by
        have : (c' + 1) * k = c' * k + k := by ring
        omega)
      have hsum : ((k - 1 : Nat) : ℚ) * dt + dt = (k : ℚ) * dt := by
        have : ((k - 1 : Nat) : ℚ) = (k : ℚ) - 1 := by
          rw [Nat.cast_sub hkpos]; simp
        rw [this]; ring
      have := (attack_frame dt i _ (c' : Int) _ hprev).2.1 (by rw [hsum]; exact hk)
        (by omega)
      simpa using this
    · obtain ⟨r', rfl⟩ : ∃ r', r = r' + 1 := ⟨r - 1, by omega⟩
      have hprev := ih c r' hc (by omega) (by omega)
      have hsum : (r' : ℚ) * dt + dt = ((r' + 1 : Nat) : ℚ) * dt := by push_cast; ring
      have := (attack_frame dt i _ (c : Int) _ hprev).1 (by rw [hsum]; exact hlt _ hr)
      rw [hsum] at this
      exact this


/-- The dashing row of the animation block (line 449). -/
theorem animate_dashing (dt : ℚ) (a : Game) (hD : a.player.isDashing = true) :
    (animate dt a).player = a.player := by
  simp [animate, hD]

/-- The idle, run and air rows of the animation block (lines 458-473). -/
theorem animate_locomotion (dt : ℚ) (a : Game) (hD : a.player.isDashing = false)
    (hA : a.player.isAttacking = false) (h0 : 0 ≤ a.player.currentFrame)
    (h3 : a.player.currentFrame ≤ 3) :
    (animate dt a).player.isAttacking = false ∧
    (animate dt a).player.state = a.player.state ∧
    (animate dt a).player.lastState = a.player.lastState ∧
    0 ≤ (animate dt a).player.currentFrame ∧ (animate dt a).player.currentFrame ≤ 3 ∧
    (a.player.state = 0 → a.player.currentFrame ≤ 1 →
      (animate dt a).player.currentFrame ≤ 1 ∧
      (animate dt a).srcX = 100 + (animate dt a).player.currentFrame * 20 ∧
      (animate dt a).srcY = 40) ∧
    (a.player.state = 1 →
      (animate dt a).srcX = 100 + (animate dt a).player.currentFrame * 20 ∧
      (animate dt a).srcY = 140) := by
  have m2 : (a.player.currentFrame + 1).tmod 2 = (a.player.currentFrame + 1) % 2 :=
    Int.tmod_eq_emod (by omega) (by norm_num)
  have m4 : (a.player.currentFrame + 1).tmod 4 = (a.player.currentFrame + 1) % 4 :=
    Int.tmod_eq_emod (by omega) (by norm_num)
  by_cases s0 : a.player.state = 0
  · simp [animate, hD, hA, s0, ARMED_OFFSET_X, m2]
    split_ifs <;> omega
  · by_cases s1 : a.player.state = 1
    · simp [animate, hD, hA, s1, ARMED_OFFSET_X, m4]
      split_ifs <;> omega
    · by_cases s2 : a.player.state = 2
      · simp [animate, hD, hA, s2, h0, h3]
      · simp [animate, hD, hA, s0, s1, s2, h0, h3]


/-- The animation fields with which the sprite row is selected, from those of
the frame's start. -/
theorem preAnimate_animOk (dt : ℚ) (inp : Input) (g : Game) (h : AnimOk g.player) :
    0 ≤ (preAnimate dt inp g).player.currentFrame ∧
    (preAnimate dt inp g).player.currentFrame ≤ 3 ∧
    ((preAnimate dt inp g).player.isAttacking = true →
      (preAnimate dt inp g).player.state = 4) ∧
    ((preAnimate dt inp g).player.state = 0 →
      (preAnimate dt inp g).player.currentFrame ≤ 1) ∧
    (preAnimate dt inp g).player.lastState = (preAnimate dt inp g).player.state := by
  obtain ⟨g0, g3, gA, gl⟩ := h
  obtain ⟨d1, _, d3, d4⟩ := preDash_anim dt inp g
  obtain ⟨m1, m2, _, m4, m5⟩ := preMotion_anim dt inp g
  have q : ((preMotion dt inp g).player.currentFrame = g.player.currentFrame ∨
        (preMotion dt inp g).player.currentFrame = 0) ∧
      ((preMotion dt inp g).player.isAttacking = true →
        (preMotion dt inp g).player.state = 4) := by
    by_cases hc : inp.btnAttackJustPressed = true ∧ (tickTimers dt g.player).isDashing = false ∧
        g.player.isAttacking = false
    · obtain ⟨x1, x2, x3, _⟩ := d3 hc
      exact ⟨Or.inr (m2.trans x3), fun _ => ((m5 x1).1).trans x2⟩
    · obtain ⟨x1, x2, x3, _⟩ := d4 hc
      refine ⟨Or.inl (m2.trans x3), fun hA => ?_⟩
      rw [m4] at hA
      rw [(m5 hA).1, x2]
      exact gA (x1 ▸ hA)
  have ql : (preMotion dt inp g).player.lastState = g.player.lastState := m1.trans d1
  obtain ⟨b1, b2, _, b4, b5, b6, _⟩ := branch_to_stateChange dt inp (preMotion dt inp g)
  obtain ⟨s1, s2, s3, _, _, s6, s7⟩ :=
    stateChange_fields (physics dt (motion dt inp (preMotion dt inp g))).player
  obtain ⟨e1, _⟩ := preAnimate_player dt inp g
  rw [← e1] at s1 s2 s3 s6 s7
  have hq03 : 0 ≤ (preMotion dt inp g).player.currentFrame ∧
      (preMotion dt inp g).player.currentFrame ≤ 3 := by
    rcases q.1 with h | h <;> rw [h] <;> omega
  have hcf : (preAnimate dt inp g).player.currentFrame = 0 ∨
      ((preAnimate dt inp g).player.currentFrame = (preMotion dt inp g).player.currentFrame ∧
        ((physics dt (motion dt inp (preMotion dt inp g))).player.state = g.player.lastState ∨
          (physics dt (motion dt inp (preMotion dt inp g))).player.state = 2)) := by
    by_cases h1 : (physics dt (motion dt inp (preMotion dt inp g))).player.state =
        (physics dt (motion dt inp (preMotion dt inp g))).player.lastState
    · right
      exact ⟨(s6 (Or.inl h1)).1.trans b2, Or.inl (by rw [h1, b1, ql])⟩
    · by_cases h2 : (physics dt (motion dt inp (preMotion dt inp g))).player.state = 2
      · right
        exact ⟨(s6 (Or.inr h2)).1.trans b2, Or.inr h2⟩
      · left
        exact (s7 h1 h2).1
  refine ⟨?_, ?_, ?_, ?_, s2.trans s1.symm⟩
  · rcases hcf with h | h
    · rw [h]
    · rw [h.1]; exact hq03.1
  · rcases hcf with h | h
    · rw [h]; norm_num
    · rw [h.1]; exact hq03.2
  · intro hA
    rw [s3, b4] at hA
    rw [s1, b6 (Or.inl hA)]
    exact q.2 hA
  · intro hs
    rw [s1] at hs
    rcases hcf with h | h
    · rw [h]; norm_num
    · rw [h.1]
      rcases h.2 with h2 | h2
      · have := gl (h2.symm.trans hs)
        rcases q.1 with h3 | h3 <;> rw [h3] <;> omega
      · rw [hs] at h2
        exact absurd h2 (by decide)

/-- One frame keeps the animation cursor in range, and selects a sprite of the
row that is shown. -/
theorem frame_animOk (dt : ℚ) (inp : Input) (g : Game) (h : AnimOk g.player) :
    AnimOk (frame dt inp g).player ∧
    ((preAnimate dt inp g).player.isDashing = false →
      (preAnimate dt inp g).player.isAttacking = false →
      (preAnimate dt inp g).player.state = 0 →
      ((frame dt inp g).player.currentFrame = 0 ∨ (frame dt inp g).player.currentFrame = 1) ∧
      ((frame dt inp g).srcX = 100 ∨ (frame dt inp g).srcX = 120)) ∧
    ((preAnimate dt inp g).player.isDashing = false →
      (preAnimate dt inp g).player.isAttacking = false →
      (preAnimate dt inp g).player.state = 1 →
      (frame dt inp g).srcX = 100 ∨ (frame dt inp g).srcX = 120 ∨
      (frame dt inp g).srcX = 140 ∨ (frame dt inp g).srcX = 160) ∧
    ((preAnimate dt inp g).player.isDashing = false →
      (preAnimate dt inp g).player.isAttacking = true →
      (frame dt inp g).srcX = 300 ∨ (frame dt inp g).srcX = 320 ∨
      (frame dt inp g).srcX = 340 ∨ (frame dt inp g).srcX = 360) := by
  obtain ⟨a0, a3, aA, as0, al⟩ := preAnimate_animOk dt inp g h
  obtain ⟨_, e2, e3, _⟩ := preAnimate_player dt inp g
  rw [e2, e3]
  cases hD : (preAnimate dt inp g).player.isDashing
  · cases hA : (preAnimate dt inp g).player.isAttacking
    · obtain ⟨l1, l2, l3, l4, l5, l6, l7⟩ :=
        animate_locomotion dt (preAnimate dt inp g) hD hA a0 a3
      refine ⟨⟨l4, l5, fun hx => ?_, fun hx => ?_⟩, fun _ _ hs => ?_, fun _ _ hs => ?_,
        fun _ hx => ?_⟩
      · rw [l1] at hx; exact absurd hx (by decide)
      · rw [l3, al] at hx
        exact (l6 hx (as0 hx)).1
      · obtain ⟨x1, x2, _⟩ := l6 hs (as0 hs)
        rw [x2]
        omega
      · rw [(l7 hs).1]
        omega
      · exact absurd hx (by decide)
    · have hs4 := aA hA
      obtain ⟨t1, t2, t3, t4, t5, t6⟩ := animate_attack dt (preAnimate dt inp g) hD hA
      have hrange : AnimOk (animate dt (preAnimate dt inp g)).player := by
        have hl : (animate dt (preAnimate dt inp g)).player.lastState ≠ 0 := by
          rw [t5, al, hs4]; decide
        by_cases c1 : (preAnimate dt inp g).player.animTimer + dt < 8 / 100
        · obtain ⟨x1, x2, x3, _⟩ := t1 c1
          exact ⟨by rw [x3]; exact a0, by rw [x3]; exact a3, fun _ => x2.trans hs4,
            fun hx => absurd hx hl⟩
        · by_cases c2 : (preAnimate dt inp g).player.currentFrame + 1 < 4
          · obtain ⟨x1, x2, x3, _⟩ := t2 (not_lt.mp c1) c2
            exact ⟨by rw [x3]; omega, by rw [x3]; omega, fun _ => x2.trans hs4,
              fun hx => absurd hx hl⟩
          · obtain ⟨x1, x2, x3, _⟩ := t3 (not_lt.mp c1) (not_lt.mp c2)
            refine ⟨by rw [x3], by rw [x3]; norm_num, fun hx => ?_, fun hx => absurd hx hl⟩
            rw [x1] at hx; exact absurd hx (by decide)
      refine ⟨hrange, fun _ hx => absurd hx (by decide), fun _ hx => absurd hx (by decide),
        fun _ _ => ?_⟩
      rw [t6]
      obtain ⟨r0, r3, _, _⟩ := hrange
      omega
  · have he := animate_dashing dt (preAnimate dt inp g) hD
    rw [he]
    refine ⟨⟨a0, a3, aA, fun hx => as0 (al ▸ hx)⟩, fun hx => absurd hx (by decide),
      fun hx => absurd hx (by decide), fun hx => absurd hx (by decide)⟩


theorem run_animOk (steps : List (ℚ × Input)) :
    ∀ g : Game, AnimOk g.player → AnimOk (run steps g).player := by
  induction steps with
  | nil => intro g h; exact h
  | cons s rest ih =>
    intro g h
    rw [run_cons]
    exact ih (frame s.1 s.2 g) (frame_animOk s.1 s.2 g h).1

/-- C14: along every run from the initial state (any inputs, any frame times),
every frame ends with `0 ≤ currentFrame ≤ 3`; when the idle row is selected
(state 0, not dashing, not attacking at line 460) `currentFrame` is 0 or 1 and
the sprite x-coordinate is 100 or 120; when the run row is selected it is one
of 100, 120, 140, 160; and when the attack row is selected it is one of 300,
320, 340, 360. -/
theorem frame_index_in_range (steps : List (ℚ × Input)) (dt : ℚ) (inp : Input) :
    (0 ≤ (frame dt inp (run steps initGame)).player.currentFrame ∧
      (frame dt inp (run steps initGame)).player.currentFrame ≤ 3) ∧
    ((preAnimate dt inp (run steps initGame)).player.isDashing = false →
      (preAnimate dt inp (run steps initGame)).player.isAttacking = false →
      (preAnimate dt inp (run steps initGame)).player.state = 0 →
      ((frame dt inp (run steps initGame)).player.currentFrame = 0 ∨
        (frame dt inp (run steps initGame)).player.currentFrame = 1) ∧
      ((frame dt inp (run steps initGame)).srcX = 100 ∨
        (frame dt inp (run steps initGame)).srcX = 120)) ∧
    ((preAnimate dt inp (run steps initGame)).player.isDashing = false →
      (preAnimate dt inp (run steps initGame)).player.isAttacking = false →
      (preAnimate dt inp (run steps initGame)).player.state = 1 →
      (frame dt inp (run steps initGame)).srcX = 100 ∨
      (frame dt inp (run steps initGame)).srcX = 120 ∨
      (frame dt inp (run steps initGame)).srcX = 140 ∨
      (frame dt inp (run steps initGame)).srcX = 160) ∧
    ((preAnimate dt inp (run steps initGame)).player.isDashing = false →
      (preAnimate dt inp (run steps initGame)).player.isAttacking = true →
      (frame dt inp (run steps initGame)).srcX = 300 ∨
      (frame dt inp (run steps initGame)).srcX = 320 ∨
      (frame dt inp (run steps initGame)).srcX = 340 ∨
      (frame dt inp (run steps initGame)).srcX = 360) := by
  have hi : AnimOk initGame.player := by
    refine ⟨?_, ?_, ?_, ?_⟩ <;> simp [initGame, initPlayer]
  obtain ⟨⟨r0, r3, _, _⟩, h1, h2, h3⟩ :=
    frame_animOk dt inp (run steps initGame) (run_animOk steps initGame hi)
  exact ⟨⟨r0, r3⟩, h1, h2, h3⟩

theorem frame_index_in_range_witness :
    (preAnimate (1 / 20) noInput (run [(1 / 20, noInput), (1 / 20, noInput)] initGame)).player.state
      = 0 ∧
    ((frame (1 / 20) noInput
        (run [(1 / 20, noInput), (1 / 20, noInput)] initGame)).player.currentFrame = 0 ∨
      (frame (1 / 20) noInput
        (run [(1 / 20, noInput), (1 / 20, noInput)] initGame)).player.currentFrame = 1) ∧
    ((frame (1 / 20) noInput (run [(1 / 20, noInput), (1 / 20, noInput)] initGame)).srcX = 100 ∨
      (frame (1 / 20) noInput (run [(1 / 20, noInput), (1 / 20, noInput)] initGame)).srcX = 120) :=
  have h := (frame_index_in_range [(1 / 20, noInput), (1 / 20, noInput)] (1 / 20) noInput).2.1
    (by with_unfolding_all decide) (by with_unfolding_all decide) (by with_unfolding_all decide)
  ⟨by with_unfolding_all decide, h.1, h.2⟩

/-! ## The idle countdown -/

/-- The idle check (lines 329-334) on a countdown of at most 1.5. -/
theorem idleDeathCheck_idle (dt : ℚ) (t : Game) (h0 : 0 ≤ dt)
    (hi : t.player.idleDeathTimer ≤ 15 / 10) :
    0 < (idleDeathCheck dt t).player.idleDeathTimer ∧
    (idleDeathCheck dt t).player.idleDeathTimer ≤ 15 / 10 ∧
    (isMoving t.player = true → (idleDeathCheck dt t).player.idleDeathTimer = 15 / 10) ∧
    ((idleDeathCheck dt t).respawnCalls = t.respawnCalls ∨
      ((idleDeathCheck dt t).respawnCalls = t.respawnCalls + 1 ∧
        (idleDeathCheck dt t).player.idleDeathTimer = 15 / 10)) := by
  cases hm : isMoving t.player
  · by_cases hc : t.player.idleDeathTimer - dt ≤ 0
    · simp [idleDeathCheck, hm, hc, callRespawn, Respawn, IDLE_DEATH_TIME]
    · have hc' : 0 < t.player.idleDeathTimer - dt := not_le.mp hc
      simp only [idleDeathCheck, hm, hc, Bool.false_eq_true, if_false]
      exact ⟨hc', by linarith, fun h => h.elim, Or.inl trivial⟩
  · simp [idleDeathCheck, hm, IDLE_DEATH_TIME]

/-- Between the idle check and the fall check nothing touches the countdown. -/
theorem preMotion_idleDeathTimer (dt : ℚ) (inp : Input) (g : Game) :
    (motion dt inp (preMotion dt inp g)).player.idleDeathTimer =
      (idleDeathCheck dt
        (g.onPlayer (fun p => tickTimers dt (decayScale dt p)))).player.idleDeathTimer ∧
    (motion dt inp (preMotion dt inp g)).respawnCalls =
      (idleDeathCheck dt (g.onPlayer (fun p => tickTimers dt (decayScale dt p)))).respawnCalls := by
  have hm : (motion dt inp (preMotion dt inp g)).player.idleDeathTimer =
      (preMotion dt inp g).player.idleDeathTimer := by
    simp [motion, normalMotion, dashMotion, SpawnGhost, attackMotion, jumpExecution, gravity,
      classify, jumpCutoff, horizontal, Game.onPlayer]
  rw [hm, motion_respawnCalls]
  unfold preMotion preDash
  generalize idleDeathCheck dt (g.onPlayer (fun p => tickTimers dt (decayScale dt p))) = i
  simp [dashTrigger, jumpRequest, attackTrigger, Game.onPlayer]

/-- The fall check (line 441) either leaves the countdown or resets it. -/
theorem physics_idle (dt : ℚ) (m : Game) :
    ((physics dt m).player.idleDeathTimer = m.player.idleDeathTimer ∧
      (physics dt m).respawnCalls = m.respawnCalls) ∨
    ((physics dt m).player.idleDeathTimer = 15 / 10 ∧
      (physics dt m).respawnCalls = m.respawnCalls + 1) := by
  have hk := (groundCollision_keep platform (integrate dt m.player)).2.2.2.1
  have hi : (integrate dt m.player).idleDeathTimer = m.player.idleDeathTimer := by
    simp [integrate]
  unfold physics fallCheck
  simp only [Game.onPlayer]
  split_ifs
  · right
    simp [callRespawn, Respawn, IDLE_DEATH_TIME]
  · left
    exact ⟨hk.trans hi, rfl⟩

/-- C21: for every player state with `idleDeathTimer ≤ 1.5`, every input and
every `dt ≥ 0`, a frame ends with `0 < idleDeathTimer ≤ 1.5`. The countdown is
1.5 at the end of the frame whenever the player was moving at the idle check of
line 329 (`|vx| > 10`, dashing, attacking or airborne in the state the check
reads, which is the frame's start state after the scale decay and the timer
tick) and whenever `Respawn` was called in the frame; so the stored countdown is
never zero or negative at the end of a frame. -/
theorem idle_countdown_in_range (g : Game) (dt : ℚ) (inp : Input) (h0 : 0 ≤ dt)
    (hi : g.player.idleDeathTimer ≤ 15 / 10) :
    0 < (frame dt inp g).player.idleDeathTimer ∧
    (frame dt inp g).player.idleDeathTimer ≤ 15 / 10 ∧
    (isMoving (tickTimers dt (decayScale dt g.player)) = true →
      (frame dt inp g).player.idleDeathTimer = 15 / 10) ∧
    (|g.player.vx| > 10 ∨ (tickTimers dt (decayScale dt g.player)).isDashing = true ∨
        g.player.isAttacking = true ∨ g.player.onGround = false →
      (frame dt inp g).player.idleDeathTimer = 15 / 10) ∧
    ((frame dt inp g).respawnCalls ≠ g.respawnCalls →
      (frame dt inp g).player.idleDeathTimer = 15 / 10) := by
  have ht : (g.onPlayer (fun p => tickTimers dt (decayScale dt p))).player.idleDeathTimer =
        g.player.idleDeathTimer ∧
      (g.onPlayer (fun p => tickTimers dt (decayScale dt p))).respawnCalls = g.respawnCalls := by
    simp [Game.onPlayer, tickTimers, decayScale]
  have hs : (g.onPlayer (fun p => tickTimers dt (decayScale dt p))).player =
      tickTimers dt (decayScale dt g.player) := rfl
  obtain ⟨c1, c2, c3, c4⟩ := idleDeathCheck_idle dt
    (g.onPlayer (fun p => tickTimers dt (decayScale dt p))) h0 (by rw [ht.1]; exact hi)
  rw [hs] at c3
  rw [ht.2] at c4
  obtain ⟨m1, m2⟩ := preMotion_idleDeathTimer dt inp g
  rw [← m1] at c1 c2 c3 c4
  rw [← m2] at c4
  have hfi : (frame dt inp g).player.idleDeathTimer =
      (physics dt (motion dt inp (preMotion dt inp g))).player.idleDeathTimer :=
    (present_player dt (physics dt (motion dt inp (preMotion dt inp g)))).2.2.2.2.2.2.2.2.2.2.2.2.2
  have hfr : (frame dt inp g).respawnCalls =
      (physics dt (motion dt inp (preMotion dt inp g))).respawnCalls :=
    (present_counters dt (physics dt (motion dt inp (preMotion dt inp g)))).1
  have hmv : isMoving (tickTimers dt (decayScale dt g.player)) = true →
      (frame dt inp g).player.idleDeathTimer = 15 / 10 := by
    intro h
    rw [hfi]
    rcases physics_idle dt (motion dt inp (preMotion dt inp g)) with p | p
    · rw [p.1]; exact c3 h
    · exact p.1
  refine ⟨?_, ?_, hmv, ?_, ?_⟩
  · rw [hfi]
    rcases physics_idle dt (motion dt inp (preMotion dt inp g)) with p | p
    · rw [p.1]; exact c1
    · rw [p.1]; norm_num
  · rw [hfi]
    rcases physics_idle dt (motion dt inp (preMotion dt inp g)) with p | p
    · rw [p.1]; exact c2
    · rw [p.1]
  · intro h
    apply hmv
    have hv : (tickTimers dt (decayScale dt g.player)).vx = g.player.vx ∧
        (tickTimers dt (decayScale dt g.player)).onGround = g.player.onGround ∧
        (tickTimers dt (decayScale dt g.player)).isAttacking = g.player.isAttacking := by
      simp [tickTimers, decayScale]
    simp only [isMoving, hv.1, hv.2.1, hv.2.2]
    rcases h with h | h | h | h <;> simp [h]
  · intro h
    rw [hfi]
    rcases physics_idle dt (motion dt inp (preMotion dt inp g)) with p | p
    · rw [p.1]
      rcases c4 with q | q
      · rw [hfr, p.2, q] at h
        exact absurd rfl h
      · exact q.2
    · exact p.1

theorem idle_countdown_in_range_witness :
    (0 : ℚ) ≤ 1 / 20 ∧ landed.player.idleDeathTimer ≤ 15 / 10 ∧
    (frame (1 / 20) noInput landed).player.idleDeathTimer = 29 / 20 ∧
    0 < (frame (1 / 20) noInput landed).player.idleDeathTimer ∧
    (frame (1 / 20) noInput landed).player.idleDeathTimer ≤ 15 / 10 ∧
    (frame (1 / 20) holdRight (frame (1 / 20) holdRight landed)).player.idleDeathTimer
      = 15 / 10 ∧
    (frame (1 / 20) noInput (frame (1 / 20) noInput
      { landed with player := { landed.player with idleDeathTimer := 1 / 10 } })).respawnCalls
      = landed.respawnCalls + 1 ∧
    (frame (1 / 20) noInput (frame (1 / 20) noInput
      { landed with player := { landed.player with idleDeathTimer := 1 / 10 } })).player.idleDeathTimer
      = 15 / 10 :=
  have h := idle_countdown_in_range landed (1 / 20) noInput (by norm_num)
    (by with_unfolding_all decide)
  have h2 := idle_countdown_in_range (frame (1 / 20) holdRight landed) (1 / 20) holdRight
    (by norm_num) (by with_unfolding_all decide)
  have h3 := idle_countdown_in_range (frame (1 / 20) noInput
      { landed with player := { landed.player with idleDeathTimer := 1 / 10 } })
    (1 / 20) noInput (by norm_num) (by with_unfolding_all decide)
  ⟨by norm_num, by with_unfolding_all decide, by with_unfolding_all decide, h.1, h.2.1,
    h2.2.2.1 (by with_unfolding_all decide), by with_unfolding_all decide,
    h3.2.2.2.2 (by with_unfolding_all decide)⟩

end Prototype
